import Mathlib

/-!
# Intersection algebra, sphere intersectors, quaternions, cones and polygons of library-mathematics

A shallow embedding of `Library/Mathematics/Geometry/3D/Intersection.cpp`,
`Library/Mathematics/Geometry/3D/Objects/Sphere.cpp`,
`Library/Mathematics/Geometry/3D/Objects/LineString.cpp`,
`OpenSpaceToolkit/Mathematics/Geometry/3D/Objects/PointSet.cpp`,
`Library/Mathematics/Geometry/3D/Transformations/Rotations/Quaternion.cpp`,
`OpenSpaceToolkit/Mathematics/Geometry/3D/Objects/Cone.cpp` and
`Library/Mathematics/Geometry/2D/Objects/Polygon.cpp`.

Conventions.
* The library scalar (a double, or `Real::Undefined()`) is an exact rational; a
  value that may be undefined is an `Option`, or a dedicated `Undefined`
  constructor.
* A C++ exception is the `Except.error` branch of the result.
* `Real::Epsilon()` is a constant of the core library; it is the argument `eps`.
* The Gte find-intersection queries are an outside library; they are the
  argument `FIQuery` of the sphere intersectors.
* The square root of the library scalar is the argument `sqrt` of the quaternion
  operations that take a norm; the sine, the cosine and the constant π are the
  arguments `sin`, `cos` and `pi` of the operations that turn an angle into a
  quaternion.
* `Point::isNear` is the argument `pointIsNear` of the nearness of point sets, and
  `boost::geometry::correct` the argument `correct` of the polygon constructor.
* Sizes and indices are natural numbers.
-/

namespace d3

/-! ## Errors -/

/-- Exceptions of `library::core::error`. -/
inductive Error where
  | Undefined (what : String)
  | Wrong (what : String)
  | RuntimeError (what : String)
  | ToBeImplemented (what : String)
deriving DecidableEq

/-! ## Vectors and points -/

/-- Three numeric components: a defined `Vector3d`, also a `gte::Vector3<double>`. -/
structure Vector3d where
  x : ℚ
  y : ℚ
  z : ℚ
deriving DecidableEq

/-- Component-wise difference of two vectors. -/
def Vector3d.sub (a b : Vector3d) : Vector3d :=
  ⟨a.x - b.x, a.y - b.y, a.z - b.z⟩

/-- Squared Euclidean norm, `squaredNorm()`. -/
def Vector3d.squaredNorm (a : Vector3d) : ℚ :=
  a.x * a.x + a.y * a.y + a.z * a.z

/-- A 3D point: three coordinates, or `Point::Undefined()`. -/
inductive Point where
  | Undefined : Point
  | mk (v : Vector3d) : Point
deriving DecidableEq

/-- Whether the point has coordinates, `Point::isDefined`. -/
def Point.isDefined : Point → Bool
  | Point.Undefined => false
  | Point.mk _ => true

/-- Modelled from the spec: `Point::operator ==` (Point.cpp is absent). As for every
object class of the library whose equality is visible (`Sphere`, `Segment`,
`Polygon`), a comparison involving an undefined operand is false; two defined
points are equal when their coordinates are. -/
def Point.eq : Point → Point → Bool
  | Point.mk a, Point.mk b => decide (a = b)
  | _, _ => false

/-! ## Point sets (PointSet.cpp) -/

/-- A point set (PointSet.cpp). The container type of `points_` is declared in
PointSet.hpp, which is absent; the code inserts without a position and the spec calls
the set unordered, so it is a container of unique points, and the list gives one
iteration order of it. -/
structure PointSet where
  points_ : List Point
deriving DecidableEq

/-- Insertion into the container `points_`: a point already held is not added. The
place of a new point in the iteration order is not fixed by the source under study;
here it is iterated last. -/
def PointSet.insertPoint (acc : List Point) (p : Point) : List Point :=
  if acc.any (fun q => q.eq p) then acc else acc ++ [p]

/-- Constructor `PointSet::PointSet (aPointArray)`: the container is filled from the
array, `points_(aPointArray.begin(), aPointArray.end())`. -/
def PointSet.ofArray (aPointArray : List Point) : PointSet :=
  ⟨aPointArray.foldl PointSet.insertPoint []⟩

/-- Container equality `points_ == aPointSet.points_` of `PointSet::operator ==`:
same size and every point of the one is found in the other. -/
def PointSet.eq (a b : PointSet) : Bool :=
  decide (a.points_.length = b.points_.length) &&
    a.points_.all (fun p => b.points_.any (fun q => p.eq q))

/-- Emptiness test `PointSet::isEmpty`. -/
def PointSet.isEmpty (a : PointSet) : Bool :=
  a.points_.isEmpty

/-- Squared distance `(point - aPoint).squaredNorm()` as a library `Real`: undefined
when the point is. -/
def Point.squaredDistanceTo (point : Point) (target : Vector3d) : Option ℚ :=
  match point with
  | Point.Undefined => none
  | Point.mk v => some (v.sub target).squaredNorm

/-- Comparison `distance < minDistance` of two library `Real`s: false when either is
undefined. -/
def realLt : Option ℚ → Option ℚ → Bool
  | some a, some b => decide (a < b)
  | _, _ => false

/-- The loop of `PointSet::getPointClosestTo` over `points_`; the state is
`(*pointPtr, minDistance)`. -/
def PointSet.closestLoop (target : Vector3d) :
    List Point → Point × Option ℚ → Point × Option ℚ
  | [], state => state
  | point :: rest, (pointed, minDistance) =>
      let distance := point.squaredDistanceTo target
      if minDistance.isNone || realLt distance minDistance then
        PointSet.closestLoop target rest (point, distance)
      else
        PointSet.closestLoop target rest (pointed, minDistance)

/-- Method `PointSet::getPointClosestTo`. The pointer starts as `nullptr`; the set
is not empty when the loop runs, so the first iteration sets it. -/
def PointSet.getPointClosestTo (s : PointSet) (aPoint : Point) : Except Error Point :=
  match aPoint with
  | Point.Undefined => Except.error (Error.Undefined "Point")
  | Point.mk target =>
      if s.isEmpty then Except.error (Error.Undefined "Point set")
      else Except.ok (PointSet.closestLoop target s.points_ (Point.Undefined, none)).1

/-! ## Other object classes -/

/-- A line string (LineString.cpp): the array `points_`. -/
structure LineString where
  points_ : List Point
deriving DecidableEq

/-- Array equality `points_ == aLineString.points_`: same length, equal elements in
order. -/
def LineString.pointsEq : List Point → List Point → Bool
  | [], [] => true
  | p :: ps, q :: qs => p.eq q && LineString.pointsEq ps qs
  | _, _ => false

/-- Operator `LineString::operator ==`. -/
def LineString.eq (a b : LineString) : Bool :=
  LineString.pointsEq a.points_ b.points_

/-- A sphere (Sphere.cpp): `center_` and `radius_`, each possibly undefined. -/
structure Sphere where
  center_ : Point
  radius_ : Option ℚ
deriving DecidableEq

/-- Method `Sphere::isDefined`. -/
def Sphere.isDefined (s : Sphere) : Bool :=
  s.center_.isDefined && s.radius_.isSome

/-- Operator `Sphere::operator ==`. -/
def Sphere.eq (a b : Sphere) : Bool :=
  if !a.isDefined || !b.isDefined then false
  else a.center_.eq b.center_ && decide (a.radius_ = b.radius_)

/-- Factory `Sphere::Undefined`. -/
def Sphere.Undefined : Sphere :=
  ⟨Point.Undefined, none⟩

/-- Factory `Sphere::Unit`. -/
def Sphere.Unit (aCenter : Point) : Sphere :=
  ⟨aCenter, some 1⟩

/-- A line: origin and direction. -/
structure Line where
  origin_ : Point
  direction_ : Option Vector3d
deriving DecidableEq

/-- Method `Line::isDefined`. -/
def Line.isDefined (l : Line) : Bool :=
  l.origin_.isDefined && l.direction_.isSome

/-- A ray: origin and direction. -/
structure Ray where
  origin_ : Point
  direction_ : Option Vector3d
deriving DecidableEq

/-- Method `Ray::isDefined`. -/
def Ray.isDefined (r : Ray) : Bool :=
  r.origin_.isDefined && r.direction_.isSome

/-- A segment: its two end points. -/
structure Segment where
  firstPoint_ : Point
  secondPoint_ : Point
deriving DecidableEq

/-- Method `Segment::isDefined`. -/
def Segment.isDefined (s : Segment) : Bool :=
  s.firstPoint_.isDefined && s.secondPoint_.isDefined

/-- Modelled from the spec: an object of a class that has no code under src
(Polygon, Plane, Cuboid, Ellipsoid, Pyramid, or a class outside the twelve named by
`Intersection::Type`, such as Cone): its state, defined or not, and its numbers. -/
structure Shape where
  defined : Bool
  parameters : List ℚ
deriving DecidableEq

/-- Modelled from the spec: equality of two objects of one such class; as in
`Sphere::operator ==`, false when either is undefined. -/
def Shape.eq (a b : Shape) : Bool :=
  if !a.defined || !b.defined then false else decide (a.parameters = b.parameters)

/-- Modelled from the spec: `Line::operator ==` (Line.cpp is absent), after the
pattern of `Sphere::operator ==`. -/
def Line.eq (a b : Line) : Bool :=
  if !a.isDefined || !b.isDefined then false
  else a.origin_.eq b.origin_ && decide (a.direction_ = b.direction_)

/-- Modelled from the spec: `Ray::operator ==` (Ray.cpp is absent), after the
pattern of `Sphere::operator ==`. -/
def Ray.eq (a b : Ray) : Bool :=
  if !a.isDefined || !b.isDefined then false
  else a.origin_.eq b.origin_ && decide (a.direction_ = b.direction_)

/-- Modelled from the spec: `Segment::operator ==` (Segment.cpp is absent), as its
test `EqualToOperator` fixes it: false with an undefined operand, and insensitive
to the order of the end points. -/
def Segment.eq (a b : Segment) : Bool :=
  if !a.isDefined || !b.isDefined then false
  else (a.firstPoint_.eq b.firstPoint_ && a.secondPoint_.eq b.secondPoint_) ||
    (a.firstPoint_.eq b.secondPoint_ && a.secondPoint_.eq b.firstPoint_)

/-! ## Objects and composites -/

/-- A geometric object behind a `Unique<Object>`: its dynamic class and its value.
`anOther` is an object of a class that `TypeFromObject` does not test for. -/
inductive Object where
  | aPoint (p : Point)
  | aPointSet (s : PointSet)
  | aLine (l : Line)
  | aRay (r : Ray)
  | aSegment (s : Segment)
  | aLineString (l : LineString)
  | aPolygon (s : Shape)
  | aPlane (s : Shape)
  | aCuboid (s : Shape)
  | aSphere (s : Sphere)
  | anEllipsoid (s : Shape)
  | aPyramid (s : Shape)
  | anOther (s : Shape)
deriving DecidableEq

/-- Modelled from the spec: equality of two held objects, as `Composite` compares
them element by element: objects of different classes are unequal, two objects of
one class are compared by the `operator ==` of that class. -/
def Object.eq : Object → Object → Bool
  | Object.aPoint a, Object.aPoint b => a.eq b
  | Object.aPointSet a, Object.aPointSet b => a.eq b
  | Object.aLine a, Object.aLine b => a.eq b
  | Object.aRay a, Object.aRay b => a.eq b
  | Object.aSegment a, Object.aSegment b => a.eq b
  | Object.aLineString a, Object.aLineString b => a.eq b
  | Object.aPolygon a, Object.aPolygon b => a.eq b
  | Object.aPlane a, Object.aPlane b => a.eq b
  | Object.aCuboid a, Object.aCuboid b => a.eq b
  | Object.aSphere a, Object.aSphere b => a.eq b
  | Object.anEllipsoid a, Object.anEllipsoid b => a.eq b
  | Object.aPyramid a, Object.aPyramid b => a.eq b
  | Object.anOther a, Object.anOther b => a.eq b
  | _, _ => false

/-- Modelled from the spec: `Composite` (Composite.hpp and Composite.cpp are absent),
an ordered sequence of owned objects. A composite constructed from a sequence, the
empty one included, is defined; the default `Composite::Undefined()` is distinct
from the empty composite. -/
inductive Composite where
  | Undefined : Composite
  | mk (objects_ : List Object) : Composite
deriving DecidableEq

/-- Modelled from the spec: `Composite::isDefined`. -/
def Composite.isDefined : Composite → Bool
  | Composite.Undefined => false
  | Composite.mk _ => true

/-- Modelled from the spec: `accessObjects`, the ordered view of the held objects. -/
def Composite.accessObjects : Composite → List Object
  | Composite.Undefined => []
  | Composite.mk objects => objects

/-- Modelled from the spec: element-wise, order-sensitive comparison of two object
sequences, which requires equal length. -/
def Composite.objectsEq : List Object → List Object → Bool
  | [], [] => true
  | a :: as, b :: bs => a.eq b && Composite.objectsEq as bs
  | _, _ => false

/-- Modelled from the spec: `Composite::operator ==`: false unless both composites
report defined. -/
def Composite.eq : Composite → Composite → Bool
  | Composite.mk as, Composite.mk bs => Composite.objectsEq as bs
  | _, _ => false

/-- Modelled from the spec: `Composite::operator +`, concatenation: the objects of
the other composite are appended after those of this one; fails with `Undefined` if
either side is undefined. -/
def Composite.add : Composite → Composite → Except Error Composite
  | Composite.mk as, Composite.mk bs => Except.ok (Composite.mk (as ++ bs))
  | _, _ => Except.error (Error.Undefined "Composite")

/-- Modelled from the spec: `Composite::operator +=`: the outcome and the value of
this composite afterwards; a failed call leaves it as it was. -/
def Composite.addAssign : Composite → Composite → Except Error Unit × Composite
  | Composite.mk as, Composite.mk bs => (Except.ok (), Composite.mk (as ++ bs))
  | c, _ => (Except.error (Error.Undefined "Composite"), c)

/-! ## Intersection (Intersection.hpp, Intersection.cpp) -/

/-- The enumeration `Intersection::Type`. -/
inductive IntersectionType where
  | Undefined
  | Empty
  | Point
  | PointSet
  | Line
  | Ray
  | Segment
  | LineString
  | Polygon
  | Plane
  | Cuboid
  | Sphere
  | Ellipsoid
  | Pyramid
  | Complex
deriving DecidableEq

/-- The twelve object variants among the enumerators: every one but `Undefined`,
`Empty` and `Complex`. -/
def IntersectionType.isVariant : IntersectionType → Bool
  | IntersectionType.Undefined => false
  | IntersectionType.Empty => false
  | IntersectionType.Complex => false
  | _ => true

/-- An intersection: the members `type_` and `composite_`. -/
structure Intersection where
  type_ : IntersectionType
  composite_ : Composite
deriving DecidableEq

/-- Function `Intersection::TypeFromObject`: the chain of `dynamic_cast` tests, with
`Undefined` for an object of no tested class. -/
def Intersection.TypeFromObject : Object → IntersectionType
  | Object.aPoint _ => IntersectionType.Point
  | Object.aPointSet _ => IntersectionType.PointSet
  | Object.aLine _ => IntersectionType.Line
  | Object.aRay _ => IntersectionType.Ray
  | Object.aSegment _ => IntersectionType.Segment
  | Object.aLineString _ => IntersectionType.LineString
  | Object.aPolygon _ => IntersectionType.Polygon
  | Object.aPlane _ => IntersectionType.Plane
  | Object.aCuboid _ => IntersectionType.Cuboid
  | Object.aSphere _ => IntersectionType.Sphere
  | Object.anEllipsoid _ => IntersectionType.Ellipsoid
  | Object.aPyramid _ => IntersectionType.Pyramid
  | Object.anOther _ => IntersectionType.Undefined

/-- The loop of `Intersection::TypeFromObjects`, with the running value of `type`. -/
def Intersection.typeLoop : List Object → IntersectionType → IntersectionType
  | [], type => type
  | objectUPtr :: rest, type =>
      let objectType := Intersection.TypeFromObject objectUPtr
      if type = IntersectionType.Undefined then Intersection.typeLoop rest objectType
      else if type ≠ objectType then IntersectionType.Complex
      else Intersection.typeLoop rest type

/-- Function `Intersection::TypeFromObjects`. -/
def Intersection.TypeFromObjects (anObjectArray : List Object) : IntersectionType :=
  if anObjectArray.isEmpty then IntersectionType.Empty
  else Intersection.typeLoop anObjectArray IntersectionType.Undefined

/-- The public constructor `Intersection::Intersection (anObjectArray)`. -/
def Intersection.ofObjects (anObjectArray : List Object) : Intersection :=
  { type_ := Intersection.TypeFromObjects anObjectArray,
    composite_ := Composite.mk anObjectArray }

/-- The private default constructor, and the factory `Intersection::Undefined`. -/
def Intersection.Undefined : Intersection :=
  { type_ := IntersectionType.Undefined, composite_ := Composite.Undefined }

/-- Factory `Intersection::Empty`. -/
def Intersection.Empty : Intersection :=
  Intersection.ofObjects []

/-- Factory `Intersection::Point`. -/
def Intersection.Point (aPoint : d3.Point) : Intersection :=
  { type_ := IntersectionType.Point, composite_ := Composite.mk [Object.aPoint aPoint] }

/-- Factory `Intersection::PointSet`. -/
def Intersection.PointSet (aPointSet : d3.PointSet) : Intersection :=
  { type_ := IntersectionType.PointSet,
    composite_ := Composite.mk [Object.aPointSet aPointSet] }

/-- Factory `Intersection::LineString`. -/
def Intersection.LineString (aLineString : d3.LineString) : Intersection :=
  { type_ := IntersectionType.LineString,
    composite_ := Composite.mk [Object.aLineString aLineString] }

/-- Method `Intersection::isDefined`. -/
def Intersection.isDefined (self : Intersection) : Bool :=
  decide (self.type_ ≠ IntersectionType.Undefined) && self.composite_.isDefined

/-- Method `Intersection::isEmpty`. -/
def Intersection.isEmpty (self : Intersection) : Bool :=
  decide (self.type_ = IntersectionType.Empty)

/-- Method `Intersection::isComplex`. -/
def Intersection.isComplex (self : Intersection) : Bool :=
  decide (self.type_ = IntersectionType.Complex)

/-- Operator `Intersection::operator ==`. -/
def Intersection.eq (self anIntersection : Intersection) : Bool :=
  if !self.isDefined || !anIntersection.isDefined then false
  else decide (self.type_ = anIntersection.type_) &&
    self.composite_.eq anIntersection.composite_

/-- Operator `Intersection::operator !=`. -/
def Intersection.ne (self anIntersection : Intersection) : Bool :=
  !(self.eq anIntersection)

/-- Operator `Intersection::operator +`. -/
def Intersection.add (self anIntersection : Intersection) : Except Error Intersection :=
  if !anIntersection.isDefined then Except.error (Error.Undefined "Intersection")
  else
    match self.composite_.add anIntersection.composite_ with
    | Except.error e => Except.error e
    | Except.ok composite =>
        Except.ok
          { type_ := Intersection.TypeFromObjects composite.accessObjects,
            composite_ := composite }

/-- Operator `Intersection::operator +=`: the outcome, and the value of this
intersection afterwards. -/
def Intersection.addAssign (self anIntersection : Intersection) :
    Except Error Unit × Intersection :=
  if !anIntersection.isDefined then (Except.error (Error.Undefined "Intersection"), self)
  else
    match self.composite_.addAssign anIntersection.composite_ with
    | (Except.error e, composite) => (Except.error e, { self with composite_ := composite })
    | (Except.ok _, composite) =>
        (Except.ok (),
          { type_ := Intersection.TypeFromObjects composite.accessObjects,
            composite_ := composite })

/-! ## Sphere queries (Sphere.cpp) -/

/-- The result record of a Gte find-intersection query: `intersect`,
`numIntersections` and the array `point`. -/
structure GteResult where
  intersect : Bool
  numIntersections : ℤ
  point : Vector3d × Vector3d
deriving DecidableEq

/-- A Gte find-intersection query against a sphere: it receives the two vectors of
the linear primitive (origin and direction of a line or ray, the two end points of a
segment), the centre and the radius. -/
abbrev GteQuery : Type :=
  Vector3d → Vector3d → Vector3d → ℚ → GteResult

/-- Method `Sphere::contains (aPoint)`. -/
def Sphere.contains (eps : ℚ) (s : Sphere) (aPoint : Point) : Except Error Bool :=
  match aPoint with
  | Point.Undefined => Except.error (Error.Undefined "Point")
  | Point.mk point =>
      match s.center_, s.radius_ with
      | Point.mk center, some radius =>
          Except.ok (decide (|(point.sub center).squaredNorm - radius * radius| < eps))
      | _, _ => Except.error (Error.Undefined "Sphere")

/-- Method `Sphere::intersectionWith (aLine)`. -/
def Sphere.intersectionWithLine (FIQuery : GteQuery) (s : Sphere) (aLine : Line) :
    Except Error Intersection :=
  match aLine.origin_, aLine.direction_ with
  | Point.mk origin, some direction =>
      match s.center_, s.radius_ with
      | Point.mk center, some radius =>
          let intersectionResult := FIQuery origin direction center radius
          if intersectionResult.intersect then
            if intersectionResult.numIntersections = 1 then
              Except.ok (Intersection.Point (Point.mk intersectionResult.point.1))
            else if intersectionResult.numIntersections = 2 then
              Except.ok (Intersection.PointSet (PointSet.ofArray
                [Point.mk intersectionResult.point.1, Point.mk intersectionResult.point.2]))
            else Except.error (Error.RuntimeError "Intersection algorithm has failed.")
          else Except.ok Intersection.Empty
      | _, _ => Except.error (Error.Undefined "Sphere")
  | _, _ => Except.error (Error.Undefined "Line")

/-- The test `(point == aRay.getOrigin()) && (!this->contains(point))` of the ray
intersector; `contains` is only called when the first operand holds. -/
def Sphere.discardsOrigin (eps : ℚ) (s : Sphere) (origin point : Point) : Except Error Bool :=
  if point.eq origin then
    match s.contains eps point with
    | Except.ok inside => Except.ok (!inside)
    | Except.error e => Except.error e
  else Except.ok false

/-- The closing statement of the two-point branch of the ray intersector:
`onlyInSight ? Point (pointSet.getPointClosestTo (origin)) : PointSet (pointSet)`. -/
def Sphere.inSightOrBoth (pointSet : PointSet) (origin : Point) (onlyInSight : Bool) :
    Except Error Intersection :=
  if onlyInSight then
    match pointSet.getPointClosestTo origin with
    | Except.ok closest => Except.ok (Intersection.Point closest)
    | Except.error e => Except.error e
  else Except.ok (Intersection.PointSet pointSet)

/-- The branch `numIntersections == 2` of `Sphere::intersectionWith (aRay, onlyInSight)`. -/
def Sphere.rayTwoPoints (eps : ℚ) (s : Sphere) (origin firstPoint secondPoint : Point)
    (onlyInSight : Bool) : Except Error Intersection :=
  let pointSet := PointSet.ofArray [firstPoint, secondPoint]
  if firstPoint.eq origin || secondPoint.eq origin then
    match s.discardsOrigin eps origin firstPoint with
    | Except.error e => Except.error e
    | Except.ok true => Except.ok (Intersection.Point secondPoint)
    | Except.ok false =>
        match s.discardsOrigin eps origin secondPoint with
        | Except.error e => Except.error e
        | Except.ok true => Except.ok (Intersection.Point firstPoint)
        | Except.ok false => Sphere.inSightOrBoth pointSet origin onlyInSight
  else Sphere.inSightOrBoth pointSet origin onlyInSight

/-- Method `Sphere::intersectionWith (aRay, onlyInSight)`. -/
def Sphere.intersectionWithRay (FIQuery : GteQuery) (eps : ℚ) (s : Sphere) (aRay : Ray)
    (onlyInSight : Bool) : Except Error Intersection :=
  match aRay.origin_, aRay.direction_ with
  | Point.mk origin, some direction =>
      match s.center_, s.radius_ with
      | Point.mk center, some radius =>
          let intersectionResult := FIQuery origin direction center radius
          if intersectionResult.intersect then
            if intersectionResult.numIntersections = 1 then
              let point := Point.mk intersectionResult.point.1
              match s.discardsOrigin eps aRay.origin_ point with
              | Except.error e => Except.error e
              | Except.ok true => Except.ok Intersection.Empty
              | Except.ok false => Except.ok (Intersection.Point point)
            else if intersectionResult.numIntersections = 2 then
              Sphere.rayTwoPoints eps s aRay.origin_ (Point.mk intersectionResult.point.1)
                (Point.mk intersectionResult.point.2) onlyInSight
            else Except.error (Error.RuntimeError "Intersection algorithm has failed.")
          else Except.ok Intersection.Empty
      | _, _ => Except.error (Error.Undefined "Sphere")
  | _, _ => Except.error (Error.Undefined "Ray")

/-- The test `((point == first) || (point == second)) && (!this->contains (point))`
of the one-point branch of the segment intersector; `contains` is only called when
the first operand holds. -/
def Sphere.discardsEndPoint (eps : ℚ) (s : Sphere) (first second point : Point) :
    Except Error Bool :=
  if point.eq first || point.eq second then
    match s.contains eps point with
    | Except.ok inside => Except.ok (!inside)
    | Except.error e => Except.error e
  else Except.ok false

/-- One of the four blocks of the two-point branch of the segment intersector:
`if ((candidate == endA) && (!this->contains (candidate)))`, inside which
`if ((other == endB) && (!this->contains (other))) return Empty ;` is followed by
`return Point (other) ;`. When the outer test fails the code goes on with `next`. -/
def Sphere.segmentBlock (eps : ℚ) (s : Sphere) (endA endB candidate other : Point)
    (next : Except Error Intersection) : Except Error Intersection :=
  match s.discardsOrigin eps endA candidate with
  | Except.error e => Except.error e
  | Except.ok true =>
      match s.discardsOrigin eps endB other with
      | Except.error e => Except.error e
      | Except.ok true => Except.ok Intersection.Empty
      | Except.ok false => Except.ok (Intersection.Point other)
  | Except.ok false => next

/-- The branch `numIntersections == 2` of `Sphere::intersectionWith (aSegment)`; `first`
and `second` are the end points of the segment, `firstPoint` and `secondPoint` the
two points of the solver. -/
def Sphere.segmentTwoPoints (eps : ℚ) (s : Sphere) (first second firstPoint secondPoint : Point) :
    Except Error Intersection :=
  let both : Except Error Intersection :=
    Except.ok (Intersection.PointSet (PointSet.ofArray [firstPoint, secondPoint]))
  if firstPoint.eq first || secondPoint.eq first || firstPoint.eq second ||
      secondPoint.eq second then
    Sphere.segmentBlock eps s first second firstPoint secondPoint
      (Sphere.segmentBlock eps s second first firstPoint secondPoint
        (Sphere.segmentBlock eps s first second secondPoint firstPoint
          (Sphere.segmentBlock eps s second first secondPoint firstPoint both)))
  else both

/-- Method `Sphere::intersectionWith (aSegment)`. -/
def Sphere.intersectionWithSegment (FIQuery : GteQuery) (eps : ℚ) (s : Sphere)
    (aSegment : Segment) : Except Error Intersection :=
  match aSegment.firstPoint_, aSegment.secondPoint_ with
  | Point.mk first, Point.mk second =>
      match s.center_, s.radius_ with
      | Point.mk center, some radius =>
          let intersectionResult := FIQuery first second center radius
          if intersectionResult.intersect then
            if intersectionResult.numIntersections = 1 then
              let point := Point.mk intersectionResult.point.1
              match s.discardsEndPoint eps aSegment.firstPoint_ aSegment.secondPoint_ point with
              | Except.error e => Except.error e
              | Except.ok true => Except.ok Intersection.Empty
              | Except.ok false => Except.ok (Intersection.Point point)
            else if intersectionResult.numIntersections = 2 then
              Sphere.segmentTwoPoints eps s aSegment.firstPoint_ aSegment.secondPoint_
                (Point.mk intersectionResult.point.1) (Point.mk intersectionResult.point.2)
            else Except.error (Error.RuntimeError "Intersection algorithm has failed.")
          else Except.ok Intersection.Empty
      | _, _ => Except.error (Error.Undefined "Sphere")
  | _, _ => Except.error (Error.Undefined "Segment")

/-- The discard rule of the segment intersector, for a candidate of the solver: the
candidate equals the first or the second end point and the sphere does not contain
it. -/
def Sphere.SegmentDiscarded (eps : ℚ) (center : Vector3d) (radius : ℚ)
    (first second candidate : Vector3d) : Prop :=
  (candidate = first ∨ candidate = second) ∧
    eps ≤ |(candidate.sub center).squaredNorm - radius * radius|

instance Sphere.decidableSegmentDiscarded (eps : ℚ) (center : Vector3d) (radius : ℚ)
    (first second candidate : Vector3d) :
    Decidable (Sphere.SegmentDiscarded eps center radius first second candidate) :=
  inferInstanceAs (Decidable (_ ∧ _))

/-- The point of a line or ray at parameter `t`: `origin + t * direction`. -/
def Vector3d.along (origin direction : Vector3d) (t : ℚ) : Vector3d :=
  ⟨origin.x + t * direction.x, origin.y + t * direction.y, origin.z + t * direction.z⟩

/-- The discard rule of the ray intersector, for a candidate of the solver: the
candidate equals the ray origin and the sphere does not contain it, that is
`| |candidate - centre|^2 - r^2 | >= epsilon`. -/
def Sphere.Discarded (eps : ℚ) (center : Vector3d) (radius : ℚ)
    (origin candidate : Vector3d) : Prop :=
  candidate = origin ∧ eps ≤ |(candidate.sub center).squaredNorm - radius * radius|

instance Sphere.decidableDiscarded (eps : ℚ) (center : Vector3d) (radius : ℚ)
    (origin candidate : Vector3d) :
    Decidable (Sphere.Discarded eps center radius origin candidate) :=
  inferInstanceAs (Decidable (_ ∧ _))

/-! ## Expressions over intersections, and the values the interface produces -/

/-- The expression `(A + B) + C`. -/
def Intersection.addLeft (A B C : Intersection) : Except Error Intersection :=
  match A.add B with
  | Except.error e => Except.error e
  | Except.ok AB => AB.add C

/-- The expression `A + (B + C)`. -/
def Intersection.addRight (A B C : Intersection) : Except Error Intersection :=
  match B.add C with
  | Except.error e => Except.error e
  | Except.ok BC => A.add BC

/-- The expression `(A + B) + C == A + (B + C)`: its value, or the exception of a
failed concatenation. -/
def Intersection.assocTest (A B C : Intersection) : Except Error Bool :=
  match A.addLeft B C, A.addRight B C with
  | Except.ok L, Except.ok R => Except.ok (L.eq R)
  | Except.error e, _ => Except.error e
  | _, Except.error e => Except.error e

/-- The expression `A + Intersection::Empty () == A`: its value, or the exception of
a failed concatenation. -/
def Intersection.identityTest (A : Intersection) : Except Error Bool :=
  match A.add Intersection.Empty with
  | Except.error e => Except.error e
  | Except.ok R => Except.ok (R.eq A)

/-- The intersections that the public interface produces: the constructor, the
factories, and the two concatenations applied to such values. -/
inductive Intersection.Reachable : Intersection → Prop where
  | ofObjects (os : List Object) : Intersection.Reachable (Intersection.ofObjects os)
  | Undefined : Intersection.Reachable Intersection.Undefined
  | Point (p : d3.Point) : Intersection.Reachable (Intersection.Point p)
  | PointSet (s : d3.PointSet) : Intersection.Reachable (Intersection.PointSet s)
  | LineString (l : d3.LineString) : Intersection.Reachable (Intersection.LineString l)
  | add (A B R : Intersection) : Intersection.Reachable A → Intersection.Reachable B →
      A.add B = Except.ok R → Intersection.Reachable R
  | addAssign (A B : Intersection) : Intersection.Reachable A → Intersection.Reachable B →
      Intersection.Reachable (A.addAssign B).2

/-- The stored type is the classification of the held objects. -/
def Intersection.Consistent (A : Intersection) : Prop :=
  A.composite_.isDefined = true →
    A.type_ = Intersection.TypeFromObjects A.composite_.accessObjects

/-- Every held object compares equal to itself. -/
def Intersection.SelfEqual (A : Intersection) : Prop :=
  ∀ o ∈ A.composite_.accessObjects, o.eq o = true

/-! ## Quaternions (Quaternion.cpp) -/

/-- Dot product of two vectors, `dot`. -/
def Vector3d.dot (a b : Vector3d) : ℚ :=
  a.x * b.x + a.y * b.y + a.z * b.z

/-- Cross product of two vectors, `cross`. -/
def Vector3d.cross (a b : Vector3d) : Vector3d :=
  ⟨a.y * b.z - a.z * b.y, a.z * b.x - a.x * b.z, a.x * b.y - a.y * b.x⟩

/-- Component-wise sum of two vectors. -/
def Vector3d.add (a b : Vector3d) : Vector3d :=
  ⟨a.x + b.x, a.y + b.y, a.z + b.z⟩

/-- Product of a scalar and a vector. -/
def Vector3d.smul (k : ℚ) (a : Vector3d) : Vector3d :=
  ⟨k * a.x, k * a.y, k * a.z⟩

/-- Four numeric components: a defined `Vector4d`. -/
structure Vector4d where
  c0 : ℚ
  c1 : ℚ
  c2 : ℚ
  c3 : ℚ
deriving DecidableEq

/-- Equality `a == b` of two library `Real`s: false when either is undefined. -/
def realEq : Option ℚ → Option ℚ → Bool
  | some a, some b => decide (a = b)
  | _, _ => false

/-- Opposite `-a` of a library `Real`: undefined when `a` is. -/
def realNeg : Option ℚ → Option ℚ
  | some a => some (-a)
  | none => none

/-- A quaternion: the members `x_`, `y_`, `z_` and `s_`, each a library `Real` that
may be undefined. -/
structure Quaternion where
  x_ : Option ℚ
  y_ : Option ℚ
  z_ : Option ℚ
  s_ : Option ℚ
deriving DecidableEq

/-- The enumeration `Quaternion::Format`: the two orderings that `toVector` handles. -/
inductive Quaternion.Format where
  | XYZS
  | SXYZ
deriving DecidableEq

/-- Constructor `Quaternion::Quaternion (aFirstComponent, aSecondComponent,
aThirdComponent, aFourthComponent, aFormat)`. -/
def Quaternion.ofComponents (aFirstComponent aSecondComponent aThirdComponent
    aFourthComponent : Option ℚ) (aFormat : Quaternion.Format) : Quaternion :=
  { x_ := if aFormat = Quaternion.Format.XYZS then aFirstComponent else aSecondComponent,
    y_ := if aFormat = Quaternion.Format.XYZS then aSecondComponent else aThirdComponent,
    z_ := if aFormat = Quaternion.Format.XYZS then aThirdComponent else aFourthComponent,
    s_ := if aFormat = Quaternion.Format.XYZS then aFourthComponent else aFirstComponent }

/-- Constructor `Quaternion::Quaternion (aVector, aFormat)`. -/
def Quaternion.ofVector (aVector : Vector4d) (aFormat : Quaternion.Format) : Quaternion :=
  { x_ := some (if aFormat = Quaternion.Format.XYZS then aVector.c0 else aVector.c1),
    y_ := some (if aFormat = Quaternion.Format.XYZS then aVector.c1 else aVector.c2),
    z_ := some (if aFormat = Quaternion.Format.XYZS then aVector.c2 else aVector.c3),
    s_ := some (if aFormat = Quaternion.Format.XYZS then aVector.c3 else aVector.c0) }

/-- Constructor `Quaternion::Quaternion (aVectorPart, aScalarPart)`. -/
def Quaternion.ofParts (aVectorPart : Vector3d) (aScalarPart : ℚ) : Quaternion :=
  { x_ := some aVectorPart.x, y_ := some aVectorPart.y, z_ := some aVectorPart.z,
    s_ := some aScalarPart }

/-- Method `Quaternion::isDefined`. -/
def Quaternion.isDefined (self : Quaternion) : Bool :=
  self.x_.isSome && self.y_.isSome && self.z_.isSome && self.s_.isSome

/-- The vector part `{ x_, y_, z_ }` and the scalar part `s_` of a quaternion whose
four components are defined; `none` for a quaternion that is not defined. -/
def Quaternion.parts (self : Quaternion) : Option (Vector3d × ℚ) :=
  match self.x_, self.y_, self.z_, self.s_ with
  | some x, some y, some z, some s => some (⟨x, y, z⟩, s)
  | _, _, _, _ => none

/-- Operator `Quaternion::operator ==`. -/
def Quaternion.eq (self aQuaternion : Quaternion) : Bool :=
  if !self.isDefined || !aQuaternion.isDefined then false
  else
    (realEq self.x_ aQuaternion.x_ && realEq self.y_ aQuaternion.y_ &&
        realEq self.z_ aQuaternion.z_ && realEq self.s_ aQuaternion.s_) ||
      (realEq self.x_ (realNeg aQuaternion.x_) && realEq self.y_ (realNeg aQuaternion.y_) &&
        realEq self.z_ (realNeg aQuaternion.z_) && realEq self.s_ (realNeg aQuaternion.s_))

/-- Operator `Quaternion::operator !=`. -/
def Quaternion.ne (self aQuaternion : Quaternion) : Bool :=
  !(self.eq aQuaternion)

/-- Method `Quaternion::getVectorPart`. -/
def Quaternion.getVectorPart (self : Quaternion) : Except Error Vector3d :=
  match self.parts with
  | some (vectorPart, _) => Except.ok vectorPart
  | none => Except.error (Error.Undefined "Quaternion")

/-- The expression `(x_ * x_) + (y_ * y_) + (z_ * z_) + (s_ * s_)` on the parts of a
quaternion whose components are defined. -/
def Quaternion.reducedNorm (vectorPart : Vector3d) (scalarPart : ℚ) : ℚ :=
  (vectorPart.x * vectorPart.x) + (vectorPart.y * vectorPart.y) +
    (vectorPart.z * vectorPart.z) + (scalarPart * scalarPart)

/-- Method `Quaternion::isUnitary`. -/
def Quaternion.isUnitary (eps : ℚ) (self : Quaternion) : Except Error Bool :=
  match self.parts with
  | none => Except.error (Error.Undefined "Quaternion")
  | some (v, s) => Except.ok (decide (|Quaternion.reducedNorm v s - 1| ≤ eps))

/-- Method `Quaternion::norm`; `sqrt` is the square root of the library `Real`. -/
def Quaternion.norm (sqrt : ℚ → ℚ) (self : Quaternion) : Except Error ℚ :=
  match self.parts with
  | none => Except.error (Error.Undefined "Quaternion")
  | some (v, s) => Except.ok (sqrt (Quaternion.reducedNorm v s))

/-- Method `Quaternion::crossMultiply`. -/
def Quaternion.crossMultiply (self aQuaternion : Quaternion) : Except Error Quaternion :=
  match self.parts, aQuaternion.parts with
  | some (leftVectorPart, leftScalarPart), some (rightVectorPart, rightScalarPart) =>
      let vectorPart :=
        ((Vector3d.smul rightScalarPart leftVectorPart).add
          (Vector3d.smul leftScalarPart rightVectorPart)).sub
          (leftVectorPart.cross rightVectorPart)
      let scalarPart := (leftScalarPart * rightScalarPart) - leftVectorPart.dot rightVectorPart
      Except.ok (Quaternion.ofParts vectorPart scalarPart)
  | _, _ => Except.error (Error.Undefined "Quaternion")

/-- Method `Quaternion::dotMultiply`. -/
def Quaternion.dotMultiply (self aQuaternion : Quaternion) : Except Error Quaternion :=
  match self.parts, aQuaternion.parts with
  | some (leftVectorPart, leftScalarPart), some (rightVectorPart, rightScalarPart) =>
      let vectorPart :=
        ((Vector3d.smul rightScalarPart leftVectorPart).add
          (Vector3d.smul leftScalarPart rightVectorPart)).add
          (leftVectorPart.cross rightVectorPart)
      let scalarPart := (leftScalarPart * rightScalarPart) - leftVectorPart.dot rightVectorPart
      Except.ok (Quaternion.ofParts vectorPart scalarPart)
  | _, _ => Except.error (Error.Undefined "Quaternion")

/-- Operator `Quaternion::operator * (aQuaternion)`. -/
def Quaternion.mul (self aQuaternion : Quaternion) : Except Error Quaternion :=
  if !self.isDefined || !aQuaternion.isDefined then
    Except.error (Error.Undefined "Quaternion")
  else self.crossMultiply aQuaternion

/-- Method `Quaternion::normalize`, in place: the outcome, and the value of this
quaternion afterwards. -/
def Quaternion.normalize (sqrt : ℚ → ℚ) (eps : ℚ) (self : Quaternion) :
    Except Error Unit × Quaternion :=
  match self.parts with
  | none => (Except.error (Error.Undefined "Quaternion"), self)
  | some (v, s) =>
      let norm := sqrt (Quaternion.reducedNorm v s)
      if |norm| < eps then (Except.error (Error.RuntimeError "Quaternion norm is zero."), self)
      else
        (Except.ok (),
          { x_ := some (v.x / norm), y_ := some (v.y / norm), z_ := some (v.z / norm),
            s_ := some (s / norm) })

/-- Method `Quaternion::conjugate`, in place: the outcome, and the value of this
quaternion afterwards. -/
def Quaternion.conjugate (self : Quaternion) : Except Error Unit × Quaternion :=
  match self.parts with
  | none => (Except.error (Error.Undefined "Quaternion"), self)
  | some (v, s) =>
      (Except.ok (), { x_ := some (-v.x), y_ := some (-v.y), z_ := some (-v.z), s_ := some s })

/-- Method `Quaternion::inverse`, in place: the outcome, and the value of this
quaternion afterwards. -/
def Quaternion.inverse (eps : ℚ) (self : Quaternion) : Except Error Unit × Quaternion :=
  match self.parts with
  | none => (Except.error (Error.Undefined "Quaternion"), self)
  | some (v, s) =>
      let reducedNorm := Quaternion.reducedNorm v s
      if |reducedNorm| < eps then
        (Except.error (Error.RuntimeError "Quaternion norm is zero."), self)
      else
        (Except.ok (),
          { x_ := some (-v.x / reducedNorm), y_ := some (-v.y / reducedNorm),
            z_ := some (-v.z / reducedNorm), s_ := some (s / reducedNorm) })

/-- The value returned by `Quaternion (*this).f ()`: the copy after the in-place
operation `f`, or the exception of `f`. -/
def Quaternion.ofInPlace (outcome : Except Error Unit × Quaternion) : Except Error Quaternion :=
  match outcome with
  | (Except.ok _, q) => Except.ok q
  | (Except.error e, _) => Except.error e

/-- Method `Quaternion::toNormalized`. -/
def Quaternion.toNormalized (sqrt : ℚ → ℚ) (eps : ℚ) (self : Quaternion) :
    Except Error Quaternion :=
  if !self.isDefined then Except.error (Error.Undefined "Quaternion")
  else Quaternion.ofInPlace (self.normalize sqrt eps)

/-- Method `Quaternion::toConjugate`. -/
def Quaternion.toConjugate (self : Quaternion) : Except Error Quaternion :=
  if !self.isDefined then Except.error (Error.Undefined "Quaternion")
  else Quaternion.ofInPlace self.conjugate

/-- Method `Quaternion::toInverse`. -/
def Quaternion.toInverse (eps : ℚ) (self : Quaternion) : Except Error Quaternion :=
  if !self.isDefined then Except.error (Error.Undefined "Quaternion")
  else Quaternion.ofInPlace (self.inverse eps)

/-- Method `Quaternion::rotateVector`. The message of the failure is the format
string of the source; the norm that the source prints into it is left out. -/
def Quaternion.rotateVector (eps : ℚ) (self : Quaternion) (aVector : Option Vector3d) :
    Except Error Vector3d :=
  if !self.isDefined then Except.error (Error.Undefined "Quaternion")
  else
    match aVector with
    | none => Except.error (Error.Undefined "Vector")
    | some v =>
        match self.isUnitary eps with
        | Except.error e => Except.error e
        | Except.ok false =>
            Except.error (Error.RuntimeError "Quaternion with norm [\x7b\x7d] is not unitary.")
        | Except.ok true =>
            match self.crossMultiply (Quaternion.ofParts v 0) with
            | Except.error e => Except.error e
            | Except.ok rotated =>
                match self.toConjugate with
                | Except.error e => Except.error e
                | Except.ok conjugated =>
                    match rotated.crossMultiply conjugated with
                    | Except.error e => Except.error e
                    | Except.ok product => product.getVectorPart

/-- Operator `Quaternion::operator * (aVector)`. -/
def Quaternion.mulVector (eps : ℚ) (self : Quaternion) (aVector : Option Vector3d) :
    Except Error Vector3d :=
  if !self.isDefined then Except.error (Error.Undefined "Quaternion")
  else
    match aVector with
    | none => Except.error (Error.Undefined "Vector")
    | some v => self.rotateVector eps (some v)

/-- Method `Quaternion::toVector`. -/
def Quaternion.toVector (self : Quaternion) (aFormat : Quaternion.Format) :
    Except Error Vector4d :=
  match self.parts with
  | none => Except.error (Error.Undefined "Quaternion")
  | some (v, s) =>
      match aFormat with
      | Quaternion.Format.XYZS => Except.ok ⟨v.x, v.y, v.z, s⟩
      | Quaternion.Format.SXYZ => Except.ok ⟨s, v.x, v.y, v.z⟩

/-- Factory `Quaternion::Undefined`. -/
def Quaternion.Undefined : Quaternion :=
  Quaternion.ofComponents none none none none Quaternion.Format.XYZS

/-- Factory `Quaternion::Unit`. -/
def Quaternion.Unit : Quaternion :=
  Quaternion.ofComponents (some 0) (some 0) (some 0) (some 1) Quaternion.Format.XYZS

/-- Factory `Quaternion::XYZS`. -/
def Quaternion.XYZS (aFirstComponent aSecondComponent aThirdComponent
    aFourthComponent : Option ℚ) : Quaternion :=
  Quaternion.ofComponents aFirstComponent aSecondComponent aThirdComponent aFourthComponent
    Quaternion.Format.XYZS

/-- The quaternion with the four components negated, `Quaternion (-x, -y, -z, -s)`. -/
def Quaternion.negated (self : Quaternion) : Quaternion :=
  Quaternion.XYZS (realNeg self.x_) (realNeg self.y_) (realNeg self.z_) (realNeg self.s_)

/-- The vector part of `q ⊗ (v, 0) ⊗ c`, where `⊗` is the multiplication of the
library, `crossMultiply`: the expression
`q.crossMultiply (Quaternion (v, 0.0)).crossMultiply (c).getVectorPart ()`. -/
def Quaternion.sandwich (q c : Quaternion) (v : Vector3d) : Except Error Vector3d :=
  match q.crossMultiply (Quaternion.ofParts v 0) with
  | Except.error e => Except.error e
  | Except.ok rotated =>
      match rotated.crossMultiply c with
      | Except.error e => Except.error e
      | Except.ok product => product.getVectorPart

/-! ## Accessors and labels of an intersection (Intersection.hpp, Intersection.cpp) -/

/-- The class named by the template argument of `is<Type>` and `as<Type>`: one of the
twelve classes that `TypeFromObject` tests for, or another class of objects. -/
inductive ObjectClass where
  | Point
  | PointSet
  | Line
  | Ray
  | Segment
  | LineString
  | Polygon
  | Plane
  | Cuboid
  | Sphere
  | Ellipsoid
  | Pyramid
  | Other
deriving DecidableEq

/-- The dynamic class of a held object, which a `dynamic_cast` tests. -/
def Object.classOf : Object → ObjectClass
  | Object.aPoint _ => ObjectClass.Point
  | Object.aPointSet _ => ObjectClass.PointSet
  | Object.aLine _ => ObjectClass.Line
  | Object.aRay _ => ObjectClass.Ray
  | Object.aSegment _ => ObjectClass.Segment
  | Object.aLineString _ => ObjectClass.LineString
  | Object.aPolygon _ => ObjectClass.Polygon
  | Object.aPlane _ => ObjectClass.Plane
  | Object.aCuboid _ => ObjectClass.Cuboid
  | Object.aSphere _ => ObjectClass.Sphere
  | Object.anEllipsoid _ => ObjectClass.Ellipsoid
  | Object.aPyramid _ => ObjectClass.Pyramid
  | Object.anOther _ => ObjectClass.Other

/-- Modelled from the spec: `Composite::is<Type>` (Composite.hpp is absent). Narrowing
is valid when the composite holds exactly one object and its runtime variant matches
`Type`; the query answers whether that is so, as its caller in Cone.cpp needs
(`if (is<Point> ()) ... else if (is<PointSet> ())`), and fails with `Undefined` on an
undefined composite. -/
def Composite.is (T : ObjectClass) : Composite → Except Error Bool
  | Composite.Undefined => Except.error (Error.Undefined "Composite")
  | Composite.mk [object] => Except.ok (decide (object.classOf = T))
  | Composite.mk _ => Except.ok false

/-- Modelled from the spec: `Composite::as<Type>` (Composite.hpp is absent): the held
object when the composite holds exactly one object and its runtime variant matches
`Type`; otherwise it fails, with `Undefined` on an undefined composite and with a
wrong-type condition on any other composite. -/
def Composite.as (T : ObjectClass) : Composite → Except Error Object
  | Composite.Undefined => Except.error (Error.Undefined "Composite")
  | Composite.mk [object] =>
      if object.classOf = T then Except.ok object else Except.error (Error.Wrong "Type")
  | Composite.mk _ => Except.error (Error.Wrong "Type")

/-- Method template `Intersection::is<Type>`. -/
def Intersection.is (T : ObjectClass) (self : Intersection) : Except Error Bool :=
  if !self.isDefined then Except.error (Error.Undefined "Intersection")
  else self.composite_.is T

/-- Method template `Intersection::as<Type>`. -/
def Intersection.as (T : ObjectClass) (self : Intersection) : Except Error Object :=
  if !self.isDefined then Except.error (Error.Undefined "Intersection")
  else self.composite_.as T

/-- Method `Intersection::accessComposite`. -/
def Intersection.accessComposite (self : Intersection) : Except Error Composite :=
  if !self.isDefined then Except.error (Error.Undefined "Intersection")
  else Except.ok self.composite_

/-- Method `Intersection::getType`. -/
def Intersection.getType (self : Intersection) : Except Error IntersectionType :=
  if !self.isDefined then Except.error (Error.Undefined "Intersection")
  else Except.ok self.type_

/-- Function `Intersection::StringFromType`: the `switch` has fourteen `case` labels,
and its `default` label throws. -/
def Intersection.StringFromType : IntersectionType → Except Error String
  | IntersectionType.Undefined => Except.ok "Undefined"
  | IntersectionType.Empty => Except.ok "Empty"
  | IntersectionType.Point => Except.ok "Point"
  | IntersectionType.PointSet => Except.ok "PointSet"
  | IntersectionType.Line => Except.ok "Line"
  | IntersectionType.Ray => Except.ok "Ray"
  | IntersectionType.Segment => Except.ok "Segment"
  | IntersectionType.LineString => Except.ok "LineString"
  | IntersectionType.Polygon => Except.ok "Polygon"
  | IntersectionType.Plane => Except.ok "Plane"
  | IntersectionType.Sphere => Except.ok "Sphere"
  | IntersectionType.Ellipsoid => Except.ok "Ellipsoid"
  | IntersectionType.Pyramid => Except.ok "Pyramid"
  | IntersectionType.Complex => Except.ok "Complex"
  | _ => Except.error (Error.Wrong "Type")

/-- The name of an enumerator of `Intersection::Type`, as Intersection.hpp spells it. -/
def IntersectionType.name : IntersectionType → String
  | IntersectionType.Undefined => "Undefined"
  | IntersectionType.Empty => "Empty"
  | IntersectionType.Point => "Point"
  | IntersectionType.PointSet => "PointSet"
  | IntersectionType.Line => "Line"
  | IntersectionType.Ray => "Ray"
  | IntersectionType.Segment => "Segment"
  | IntersectionType.LineString => "LineString"
  | IntersectionType.Polygon => "Polygon"
  | IntersectionType.Plane => "Plane"
  | IntersectionType.Cuboid => "Cuboid"
  | IntersectionType.Sphere => "Sphere"
  | IntersectionType.Ellipsoid => "Ellipsoid"
  | IntersectionType.Pyramid => "Pyramid"
  | IntersectionType.Complex => "Complex"

/-! ## Cones (Cone.cpp) -/

/-- Modelled from the spec: the angle collaborator (Angle.hpp and Angle.cpp are
absent), with a constructor `Angle::Degrees (x)` and an undefined state: an angle is
held by its value in degrees, or is `Angle::Undefined ()`. -/
structure Angle where
  degrees_ : Option ℚ
deriving DecidableEq

/-- Modelled from the spec: `Angle::isDefined`. -/
def Angle.isDefined (a : Angle) : Bool :=
  a.degrees_.isSome

/-- Modelled from the spec: the constructor `Angle::Degrees (x)`. -/
def Angle.Degrees (aValue : ℚ) : Angle :=
  ⟨some aValue⟩

/-- Modelled from the spec: the factory `Angle::Undefined ()`. -/
def Angle.Undefined : Angle :=
  ⟨none⟩

/-- Modelled from the spec: `Angle::operator ==`, the comparison of the two values;
false when either angle is undefined. -/
def Angle.eq (a b : Angle) : Bool :=
  realEq a.degrees_ b.degrees_

/-- Modelled from the spec: `Angle::operator -`, the difference of the two values. -/
def Angle.sub (a b : Angle) : Angle :=
  match a.degrees_, b.degrees_ with
  | some x, some y => ⟨some (x - y)⟩
  | _, _ => ⟨none⟩

/-- Modelled from the spec: the conversion of an angle to radians; `pi` is the
constant of the core library. -/
def Angle.inRadians (pi : ℚ) (a : Angle) : Option ℚ :=
  a.degrees_.map (fun v => v * pi / 180)

/-- Opposite `-a` of a vector. -/
def Vector3d.neg (a : Vector3d) : Vector3d :=
  ⟨-a.x, -a.y, -a.z⟩

/-- Equality `a == b` of two library vectors, coefficient by coefficient: false when
either is `Vector3d::Undefined ()`. -/
def vectorEq : Option Vector3d → Option Vector3d → Bool
  | some a, some b => decide (a = b)
  | _, _ => false

/-- Opposite `-a` of a library vector: undefined when `a` is. -/
def vectorNeg : Option Vector3d → Option Vector3d
  | some a => some a.neg
  | none => none

/-- A cone (Cone.cpp): the members `apex_`, `axis_` and `angle_`. -/
structure Cone where
  apex_ : Point
  axis_ : Option Vector3d
  angle_ : Angle
deriving DecidableEq

/-- Method `Cone::isDefined`. -/
def Cone.isDefined (self : Cone) : Bool :=
  self.apex_.isDefined && self.axis_.isSome && self.angle_.isDefined

/-- Operator `Cone::operator ==`. -/
def Cone.eq (self aCone : Cone) : Bool :=
  if !self.isDefined || !aCone.isDefined then false
  else
    self.apex_.eq aCone.apex_ &&
      ((vectorEq self.axis_ aCone.axis_ && self.angle_.eq aCone.angle_) ||
        (vectorEq self.axis_ (vectorNeg aCone.axis_) &&
          self.angle_.eq ((Angle.Degrees 180).sub aCone.angle_)))

/-- Operator `Cone::operator !=`. -/
def Cone.ne (self aCone : Cone) : Bool :=
  !(self.eq aCone)

/-- Factory `Cone::Undefined`. -/
def Cone.Undefined : Cone :=
  ⟨Point.Undefined, none, Angle.Undefined⟩

/-! ## The rays of the lateral surface of a cone (Cone.cpp, Quaternion.cpp) -/

/-- Unit vector `Vector3d::X ()`. -/
def Vector3d.X : Vector3d :=
  ⟨1, 0, 0⟩

/-- Unit vector `Vector3d::Y ()`. -/
def Vector3d.Y : Vector3d :=
  ⟨0, 1, 0⟩

/-- Method `normalized ()` of the vector library: the vector divided by its norm, or
the vector itself when its squared norm is not positive. -/
def Vector3d.normalized (sqrt : ℚ → ℚ) (a : Vector3d) : Vector3d :=
  let z := a.squaredNorm
  if 0 < z then ⟨a.x / sqrt z, a.y / sqrt z, a.z / sqrt z⟩ else a

/-- Modelled from the spec: a rotation vector (RotationVector.hpp is absent): an axis
and an angle. -/
structure RotationVector where
  axis_ : Option Vector3d
  angle_ : Angle
deriving DecidableEq

/-- Modelled from the spec: `RotationVector::isDefined`. -/
def RotationVector.isDefined (self : RotationVector) : Bool :=
  self.axis_.isSome && self.angle_.isDefined

/-- Factory `Quaternion::RotationVector`; `pi`, `sin` and `cos` are the constant and
the functions of the scalar library. -/
def Quaternion.RotationVector (pi : ℚ) (sin cos sqrt : ℚ → ℚ) (eps : ℚ)
    (aRotationVector : d3.RotationVector) : Except Error Quaternion :=
  if !aRotationVector.isDefined then Except.error (Error.Undefined "Rotation Vector")
  else
    match aRotationVector.axis_, aRotationVector.angle_.inRadians pi with
    | some axis, some rotationAngle_rad =>
        let vectorPart := Vector3d.smul (sin (rotationAngle_rad / 2)) axis
        let scalarPart := cos (rotationAngle_rad / 2)
        Quaternion.ofInPlace ((Quaternion.ofParts vectorPart scalarPart).normalize sqrt eps)
    | _, _ => Except.error (Error.Undefined "Rotation Vector")

/-- Modelled from the spec: `Interval<Real>::HalfOpenRight (lower, upper)
.generateArrayWithSize (n)` (Interval.hpp is absent): `n` values evenly spaced over
the half-open interval, the first of which is the lower bound. -/
def Interval.generateArrayWithSize (lower upper : ℚ) (anArraySize : ℕ) : List ℚ :=
  (List.range anArraySize).map
    (fun (k : ℕ) => lower + (upper - lower) * (k : ℚ) / (anArraySize : ℚ))

/-- The initialiser of `referenceDirection` in `Cone::getRaysOfLateralSurface`. -/
def Cone.referenceDirection (sqrt : ℚ → ℚ) (axis_ : Option Vector3d) : Option Vector3d :=
  match axis_ with
  | none => none
  | some axis =>
      if |axis.dot Vector3d.X| < 1 / 2 then some ((axis.cross Vector3d.X).normalized sqrt)
      else some ((axis.cross Vector3d.Y).normalized sqrt)

/-- The expression
`Quaternion::RotationVector (RotationVector (anAxis, anAngle)).toConjugate () * aVector`,
which `Cone::getRaysOfLateralSurface` evaluates for the reference ray and for each
ray. -/
def Cone.rotateAbout (pi : ℚ) (sin cos sqrt : ℚ → ℚ) (eps : ℚ) (anAxis : Option Vector3d)
    (anAngle : Angle) (aVector : Option Vector3d) : Except Error Vector3d :=
  match Quaternion.RotationVector pi sin cos sqrt eps ⟨anAxis, anAngle⟩ with
  | Except.error e => Except.error e
  | Except.ok quaternion =>
      match quaternion.toConjugate with
      | Except.error e => Except.error e
      | Except.ok conjugated => conjugated.mulVector eps aVector

/-- Modelled from the spec: `Ray::getDirection` (Ray.cpp is absent): the direction of
a defined ray. -/
def Ray.getDirection (r : Ray) : Except Error Vector3d :=
  match r.origin_, r.direction_ with
  | Point.mk _, some direction => Except.ok direction
  | _, _ => Except.error (Error.Undefined "Ray")

/-- The loop of `Cone::getRaysOfLateralSurface` over `angles_rad`. -/
def Cone.raysLoop (pi : ℚ) (sin cos sqrt : ℚ → ℚ) (eps : ℚ) (self : Cone) (referenceRay : Ray) :
    List ℚ → Except Error (List Ray)
  | [] => Except.ok []
  | angle_rad :: rest =>
      let angle := Angle.Degrees angle_rad
      match referenceRay.getDirection with
      | Except.error e => Except.error e
      | Except.ok direction =>
          match Cone.rotateAbout pi sin cos sqrt eps self.axis_ angle (some direction) with
          | Except.error e => Except.error e
          | Except.ok rotated =>
              match Cone.raysLoop pi sin cos sqrt eps self referenceRay rest with
              | Except.error e => Except.error e
              | Except.ok rays => Except.ok (⟨self.apex_, some rotated⟩ :: rays)

/-- Method `Cone::getRaysOfLateralSurface`. -/
def Cone.getRaysOfLateralSurface (pi : ℚ) (sin cos sqrt : ℚ → ℚ) (eps : ℚ) (self : Cone)
    (aRayCount : ℕ) : Except Error (List Ray) :=
  if aRayCount = 0 then Except.error (Error.Wrong "Ray count")
  else
    let referenceDirection := Cone.referenceDirection sqrt self.axis_
    match Cone.rotateAbout pi sin cos sqrt eps referenceDirection self.angle_ self.axis_ with
    | Except.error e => Except.error e
    | Except.ok direction =>
        let referenceRay : Ray := ⟨self.apex_, some direction⟩
        let angles_rad :=
          if aRayCount > 1 then Interval.generateArrayWithSize 0 360 aRayCount else [0]
        Cone.raysLoop pi sin cos sqrt eps self referenceRay angles_rad

/-- The vector that the rotation quaternion of half-angle sine `s` and cosine `c`
about the unit vector `u`, conjugated and applied to `v`, returns:
`(c^2 - s^2) v + 2 s^2 (u . v) u + 2 s c (u x v)`. -/
def Vector3d.rotated (s c : ℚ) (u v : Vector3d) : Vector3d :=
  ((Vector3d.smul (c * c - s * s) v).add (Vector3d.smul (2 * s * s * u.dot v) u)).add
    (Vector3d.smul (2 * s * c) (u.cross v))

/-- The cross product whose normalisation is the reference direction of
`Cone::getRaysOfLateralSurface`. -/
def Cone.referenceCross (axis : Vector3d) : Vector3d :=
  if |axis.dot Vector3d.X| < 1 / 2 then axis.cross Vector3d.X else axis.cross Vector3d.Y

/-! ## Tabulated scalar functions for the examples -/

/-- A rational stand-in for the constant π in the examples. -/
def tablePi : ℚ :=
  22 / 7

/-- The sine at the arguments that the examples evaluate: exact at `0` and at `π / 2`,
and a Pythagorean approximant at `π / 12`, `π / 6`, `π / 4` and `3 π / 4`. -/
def tableSin (x : ℚ) : ℚ :=
  if x = 0 then 0
  else if x = tablePi / 12 then 380 / 1469
  else if x = tablePi / 6 then 1078440 / 2157961
  else if x = tablePi / 4 then 119 / 169
  else if x = 3 * tablePi / 4 then 120 / 169
  else 1

/-- The cosine at the arguments that the examples evaluate: exact at `0` and at
`π / 2`, and a Pythagorean approximant at `π / 12`, `π / 6`, `π / 4` and `3 π / 4`. -/
def tableCos (x : ℚ) : ℚ :=
  if x = 0 then 1
  else if x = tablePi / 12 then 1419 / 1469
  else if x = tablePi / 6 then 1869161 / 2157961
  else if x = tablePi / 4 then 120 / 169
  else if x = 3 * tablePi / 4 then -119 / 169
  else 0

/-! ## Cone against sphere and ellipsoid (Cone.cpp) -/

/-- Modelled from the spec: `Ray::intersectionWith (aSphere, onlyInSight)` (Ray.cpp is
absent): every generated ray is intersected with the sphere by the ray query of the
analytic intersector, `Sphere::intersectionWith (aRay, onlyInSight)`. -/
def Ray.intersectionWithSphere (FIQuery : GteQuery) (eps : ℚ) (aRay : Ray) (aSphere : Sphere)
    (onlyInSight : Bool) : Except Error Intersection :=
  Sphere.intersectionWithRay FIQuery eps aSphere aRay onlyInSight

/-- The loop `for (const auto& point : pointSet)` of the sphere overload of
`Cone::intersectionWith`; the state is the flag `secondIntersectionPointAdded` and the
two arrays `(firstIntersectionPoints, secondIntersectionPoints)`. -/
def Cone.splitLoop : List Point → Bool → List Point × List Point → List Point × List Point
  | [], _, buckets => buckets
  | point :: rest, secondIntersectionPointAdded, (first, second) =>
      if !secondIntersectionPointAdded then Cone.splitLoop rest true (first, second ++ [point])
      else Cone.splitLoop rest secondIntersectionPointAdded (first ++ [point], second)

/-- The body of the loop over the rays in the sphere overload of
`Cone::intersectionWith`, from `if (!intersection.isEmpty ())` on: the two arrays
before and after. The branches that answer `Wrong` cannot be taken: `as<Point>`
returns a point and `as<PointSet>` a point set. -/
def Cone.sphereBuckets (buckets : List Point × List Point) (intersection : Intersection) :
    Except Error (List Point × List Point) :=
  if !intersection.isEmpty then
    match intersection.accessComposite with
    | Except.error e => Except.error e
    | Except.ok composite =>
        match composite.is ObjectClass.Point with
        | Except.error e => Except.error e
        | Except.ok true =>
            match composite.as ObjectClass.Point with
            | Except.error e => Except.error e
            | Except.ok (Object.aPoint point) => Except.ok (buckets.1 ++ [point], buckets.2)
            | Except.ok _ => Except.error (Error.Wrong "Type")
        | Except.ok false =>
            match composite.is ObjectClass.PointSet with
            | Except.error e => Except.error e
            | Except.ok true =>
                match composite.as ObjectClass.PointSet with
                | Except.error e => Except.error e
                | Except.ok (Object.aPointSet pointSet) =>
                    Except.ok (Cone.splitLoop pointSet.points_ false buckets)
                | Except.ok _ => Except.error (Error.Wrong "Type")
            | Except.ok false => Except.ok buckets
  else Except.ok buckets

/-- The loop over the rays in the sphere overload of `Cone::intersectionWith`. -/
def Cone.sphereLoop (FIQuery : GteQuery) (eps : ℚ) (aSphere : Sphere) (onlyInSight : Bool) :
    List Ray → List Point × List Point → Except Error (List Point × List Point)
  | [], buckets => Except.ok buckets
  | ray :: rest, buckets =>
      match ray.intersectionWithSphere FIQuery eps aSphere onlyInSight with
      | Except.error e => Except.error e
      | Except.ok intersection =>
          match Cone.sphereBuckets buckets intersection with
          | Except.error e => Except.error e
          | Except.ok next => Cone.sphereLoop FIQuery eps aSphere onlyInSight rest next

/-- The closing statements of both overloads of `Cone::intersectionWith`: from the two
arrays to the returned intersection. -/
def Cone.aggregate (firstIntersectionPoints secondIntersectionPoints : List Point)
    (onlyInSight : Bool) : Except Error Intersection :=
  if !firstIntersectionPoints.isEmpty && !secondIntersectionPoints.isEmpty && !onlyInSight then
    (Intersection.LineString ⟨firstIntersectionPoints⟩).add
      (Intersection.LineString ⟨secondIntersectionPoints⟩)
  else if !firstIntersectionPoints.isEmpty then
    Except.ok (Intersection.LineString ⟨firstIntersectionPoints⟩)
  else if !secondIntersectionPoints.isEmpty then
    Except.ok (Intersection.LineString ⟨secondIntersectionPoints⟩)
  else Except.ok Intersection.Empty

/-- Method `Cone::intersectionWith (aSphere, onlyInSight, aDiscretizationLevel)`. -/
def Cone.intersectionWithSphere (pi : ℚ) (sin cos sqrt : ℚ → ℚ) (eps : ℚ) (FIQuery : GteQuery)
    (self : Cone) (aSphere : Sphere) (onlyInSight : Bool) (aDiscretizationLevel : ℕ) :
    Except Error Intersection :=
  if !aSphere.isDefined then Except.error (Error.Undefined "Sphere")
  else if !self.isDefined then Except.error (Error.Undefined "Cone")
  else
    match self.getRaysOfLateralSurface pi sin cos sqrt eps aDiscretizationLevel with
    | Except.error e => Except.error e
    | Except.ok rays =>
        match Cone.sphereLoop FIQuery eps aSphere onlyInSight rays ([], []) with
        | Except.error e => Except.error e
        | Except.ok (firstIntersectionPoints, secondIntersectionPoints) =>
            Cone.aggregate firstIntersectionPoints secondIntersectionPoints onlyInSight

/-- The loop `for (const auto& point : pointSet)` of the ellipsoid overload: the first
point that differs from `closestPointToApex`, after which the loop breaks. -/
def Cone.firstDiffering (closestPointToApex : Point) : List Point → Option Point
  | [] => none
  | point :: rest =>
      if !(point.eq closestPointToApex) then some point
      else Cone.firstDiffering closestPointToApex rest

/-- The body of the loop over the rays in the ellipsoid overload of
`Cone::intersectionWith`, from `if (!intersection.isEmpty ())` on. -/
def Cone.ellipsoidBuckets (apex_ : Point) (buckets : List Point × List Point)
    (intersection : Intersection) : Except Error (List Point × List Point) :=
  if !intersection.isEmpty then
    match intersection.accessComposite with
    | Except.error e => Except.error e
    | Except.ok composite =>
        match composite.is ObjectClass.Point with
        | Except.error e => Except.error e
        | Except.ok true =>
            match composite.as ObjectClass.Point with
            | Except.error e => Except.error e
            | Except.ok (Object.aPoint point) => Except.ok (buckets.1 ++ [point], buckets.2)
            | Except.ok _ => Except.error (Error.Wrong "Type")
        | Except.ok false =>
            match composite.is ObjectClass.PointSet with
            | Except.error e => Except.error e
            | Except.ok true =>
                match composite.as ObjectClass.PointSet with
                | Except.error e => Except.error e
                | Except.ok (Object.aPointSet pointSet) =>
                    match pointSet.getPointClosestTo apex_ with
                    | Except.error e => Except.error e
                    | Except.ok closestPointToApex =>
                        match Cone.firstDiffering closestPointToApex pointSet.points_ with
                        | some point =>
                            Except.ok (buckets.1 ++ [closestPointToApex], buckets.2 ++ [point])
                        | none => Except.ok (buckets.1 ++ [closestPointToApex], buckets.2)
                | Except.ok _ => Except.error (Error.Wrong "Type")
            | Except.ok false => Except.ok buckets
  else Except.ok buckets

/-- The loop over the rays in the ellipsoid overload of `Cone::intersectionWith`;
`rayQuery` is `Ray::intersectionWith (anEllipsoid, onlyInSight)`, which is outside the
sources at hand. -/
def Cone.ellipsoidLoop (rayQuery : Ray → Shape → Bool → Except Error Intersection)
    (apex_ : Point) (anEllipsoid : Shape) (onlyInSight : Bool) :
    List Ray → List Point × List Point → Except Error (List Point × List Point)
  | [], buckets => Except.ok buckets
  | ray :: rest, buckets =>
      match rayQuery ray anEllipsoid onlyInSight with
      | Except.error e => Except.error e
      | Except.ok intersection =>
          match Cone.ellipsoidBuckets apex_ buckets intersection with
          | Except.error e => Except.error e
          | Except.ok next => Cone.ellipsoidLoop rayQuery apex_ anEllipsoid onlyInSight rest next

/-- Method `Cone::intersectionWith (anEllipsoid, onlyInSight, aDiscretizationLevel)`. -/
def Cone.intersectionWithEllipsoid (pi : ℚ) (sin cos sqrt : ℚ → ℚ) (eps : ℚ)
    (rayQuery : Ray → Shape → Bool → Except Error Intersection) (self : Cone)
    (anEllipsoid : Shape) (onlyInSight : Bool) (aDiscretizationLevel : ℕ) :
    Except Error Intersection :=
  if !anEllipsoid.defined then Except.error (Error.Undefined "Ellipsoid")
  else if !self.isDefined then Except.error (Error.Undefined "Cone")
  else
    match self.getRaysOfLateralSurface pi sin cos sqrt eps aDiscretizationLevel with
    | Except.error e => Except.error e
    | Except.ok rays =>
        match Cone.ellipsoidLoop rayQuery self.apex_ anEllipsoid onlyInSight rays ([], []) with
        | Except.error e => Except.error e
        | Except.ok (firstIntersectionPoints, secondIntersectionPoints) =>
            Cone.aggregate firstIntersectionPoints secondIntersectionPoints onlyInSight

/-- Whether the intersection of a lateral ray with the sphere is returned and is not
empty. -/
def Cone.rayHits (FIQuery : GteQuery) (eps : ℚ) (aSphere : Sphere) (onlyInSight : Bool)
    (ray : Ray) : Bool :=
  match ray.intersectionWithSphere FIQuery eps aSphere onlyInSight with
  | Except.ok intersection => !intersection.isEmpty
  | Except.error _ => false

/-- Whether the intersection of a lateral ray with the sphere is returned and is a
point set: the ray crosses both sides of the sphere. -/
def Cone.rayCrosses (FIQuery : GteQuery) (eps : ℚ) (aSphere : Sphere) (onlyInSight : Bool)
    (ray : Ray) : Bool :=
  match ray.intersectionWithSphere FIQuery eps aSphere onlyInSight with
  | Except.ok intersection => decide (intersection.type_ = IntersectionType.PointSet)
  | Except.error _ => false

/-- The contract of the solver that the counting of the cone relies on: when it
reports an intersection, it reports one point, or two points that differ. -/
def Sphere.SolverContract (FIQuery : GteQuery) : Prop :=
  ∀ (origin direction center : Vector3d) (radius : ℚ),
    (FIQuery origin direction center radius).intersect = true →
      (FIQuery origin direction center radius).numIntersections = 1 ∨
        ((FIQuery origin direction center radius).numIntersections = 2 ∧
          (FIQuery origin direction center radius).point.1 ≠
            (FIQuery origin direction center radius).point.2)

/-! ## Rotation matrices (Quaternion.cpp, RotationMatrix.hpp) -/

/-- A 3 by 3 matrix of the vector library, `Matrix3d`: the coefficient `mij` is the one
at row `i` and column `j`, which `operator () (i, j)` reads. -/
structure Matrix3d where
  m00 : ℚ
  m01 : ℚ
  m02 : ℚ
  m10 : ℚ
  m11 : ℚ
  m12 : ℚ
  m20 : ℚ
  m21 : ℚ
  m22 : ℚ
deriving DecidableEq

/-- Trace of a matrix, `trace ()`. -/
def Matrix3d.trace (m : Matrix3d) : ℚ :=
  m.m00 + m.m11 + m.m22

/-- Product of two matrices. -/
def Matrix3d.mul (a b : Matrix3d) : Matrix3d :=
  ⟨a.m00 * b.m00 + a.m01 * b.m10 + a.m02 * b.m20,
    a.m00 * b.m01 + a.m01 * b.m11 + a.m02 * b.m21,
    a.m00 * b.m02 + a.m01 * b.m12 + a.m02 * b.m22,
    a.m10 * b.m00 + a.m11 * b.m10 + a.m12 * b.m20,
    a.m10 * b.m01 + a.m11 * b.m11 + a.m12 * b.m21,
    a.m10 * b.m02 + a.m11 * b.m12 + a.m12 * b.m22,
    a.m20 * b.m00 + a.m21 * b.m10 + a.m22 * b.m20,
    a.m20 * b.m01 + a.m21 * b.m11 + a.m22 * b.m21,
    a.m20 * b.m02 + a.m21 * b.m12 + a.m22 * b.m22⟩

/-- A rotation matrix (RotationMatrix.hpp): the member `matrix_`, which is undefined
in `RotationMatrix::Undefined ()`. -/
structure RotationMatrix where
  matrix_ : Option Matrix3d
deriving DecidableEq

/-- Method `RotationMatrix::isDefined`. -/
def RotationMatrix.isDefined (self : RotationMatrix) : Bool :=
  self.matrix_.isSome

/-- The four branches of `Quaternion::RotationMatrix`: the values of `x`, `y`, `z` and
`s` before the normalisation, or the exception of the last `else`. -/
def Quaternion.RotationMatrixComponents (matrix : Matrix3d) : Except Error (ℚ × ℚ × ℚ × ℚ) :=
  let trace := matrix.trace
  let rotationMatrix_11 := matrix.m00
  let rotationMatrix_12 := matrix.m01
  let rotationMatrix_13 := matrix.m02
  let rotationMatrix_21 := matrix.m10
  let rotationMatrix_22 := matrix.m11
  let rotationMatrix_23 := matrix.m12
  let rotationMatrix_31 := matrix.m20
  let rotationMatrix_32 := matrix.m21
  let rotationMatrix_33 := matrix.m22
  if trace ≥ rotationMatrix_11 ∧ trace ≥ rotationMatrix_22 ∧ trace ≥ rotationMatrix_33 then
    Except.ok (rotationMatrix_23 - rotationMatrix_32, rotationMatrix_31 - rotationMatrix_13,
      rotationMatrix_12 - rotationMatrix_21, 1 + trace)
  else if rotationMatrix_11 ≥ trace ∧ rotationMatrix_11 ≥ rotationMatrix_22 ∧
      rotationMatrix_11 ≥ rotationMatrix_33 then
    Except.ok (1 + 2 * rotationMatrix_11 - trace, rotationMatrix_12 + rotationMatrix_21,
      rotationMatrix_13 + rotationMatrix_31, rotationMatrix_23 - rotationMatrix_32)
  else if rotationMatrix_22 ≥ rotationMatrix_11 ∧ rotationMatrix_22 ≥ trace ∧
      rotationMatrix_22 ≥ rotationMatrix_33 then
    Except.ok (rotationMatrix_21 + rotationMatrix_12, 1 + 2 * rotationMatrix_22 - trace,
      rotationMatrix_23 + rotationMatrix_32, rotationMatrix_31 - rotationMatrix_13)
  else if rotationMatrix_33 ≥ rotationMatrix_11 ∧ rotationMatrix_33 ≥ rotationMatrix_22 ∧
      rotationMatrix_33 ≥ trace then
    Except.ok (rotationMatrix_31 + rotationMatrix_13, rotationMatrix_32 + rotationMatrix_23,
      1 + 2 * rotationMatrix_33 - trace, rotationMatrix_12 - rotationMatrix_21)
  else Except.error (Error.RuntimeError "Rotation matrix cannot be converted into quaternion.")

/-- Factory `Quaternion::RotationMatrix`. -/
def Quaternion.RotationMatrix (sqrt : ℚ → ℚ) (eps : ℚ) (aRotationMatrix : d3.RotationMatrix) :
    Except Error Quaternion :=
  match aRotationMatrix.matrix_ with
  | none => Except.error (Error.Undefined "Rotation matrix")
  | some matrix =>
      match Quaternion.RotationMatrixComponents matrix with
      | Except.error e => Except.error e
      | Except.ok (x, y, z, s) =>
          Quaternion.ofInPlace
            ((Quaternion.XYZS (some x) (some y) (some z) (some s)).normalize sqrt eps)

/-- Unit vector `Vector3d::Z ()`. -/
def Vector3d.Z : Vector3d :=
  ⟨0, 0, 1⟩

/-- Modelled from the spec: `RotationMatrix::Quaternion` (declared in
RotationMatrix.hpp; RotationMatrix.cpp is absent). The spec has the quaternion as the
rotation primitive, applied as a function from vectors to vectors; the rotation matrix
of a quaternion is the matrix of that function: its columns are the images `q * e` of
the three unit vectors under `Quaternion::operator * (aVector)`. -/
def RotationMatrix.Quaternion (eps : ℚ) (aQuaternion : d3.Quaternion) :
    Except Error d3.RotationMatrix :=
  match aQuaternion.mulVector eps (some Vector3d.X) with
  | Except.error e => Except.error e
  | Except.ok first =>
      match aQuaternion.mulVector eps (some Vector3d.Y) with
      | Except.error e => Except.error e
      | Except.ok second =>
          match aQuaternion.mulVector eps (some Vector3d.Z) with
          | Except.error e => Except.error e
          | Except.ok third =>
              Except.ok ⟨some ⟨first.x, second.x, third.x, first.y, second.y, third.y,
                first.z, second.z, third.z⟩⟩

/-- Modelled from the spec: `Segment::operator !=` (Segment.cpp is absent), as its
test `NotEqualToOperator` fixes it: the negation of `operator ==`. -/
def Segment.ne (a b : Segment) : Bool :=
  !(a.eq b)

/-- Modelled from the spec: factory `Segment::Undefined ()` (Segment.cpp is absent):
the segment whose two end points are `Point::Undefined ()`. -/
def Segment.Undefined : Segment :=
  ⟨Point.Undefined, Point.Undefined⟩

/-! ## Closest point of a line string (LineString.cpp) -/

/-- Emptiness test `LineString::isEmpty`. -/
def LineString.isEmpty (a : LineString) : Bool :=
  a.points_.isEmpty

/-- Method `LineString::getPointClosestTo`. Its loop over the array `points_` is,
statement for statement, the loop of `PointSet::getPointClosestTo`. -/
def LineString.getPointClosestTo (l : LineString) (aPoint : Point) : Except Error Point :=
  match aPoint with
  | Point.Undefined => Except.error (Error.Undefined "Point")
  | Point.mk target =>
      if l.isEmpty then Except.error (Error.Undefined "Line string")
      else Except.ok (PointSet.closestLoop target l.points_ (Point.Undefined, none)).1

/-! ## The vector returned by a rotation (Quaternion.cpp) -/

/-- The vector that `Quaternion::rotateVector` returns for the quaternion of vector
part `qv` and scalar part `qs`: the vector part of
`crossMultiply (Quaternion (aVector, 0.0)).crossMultiply (toConjugate ())`, with the
two products written out as `crossMultiply` computes them. -/
def Quaternion.rotation (qv : Vector3d) (qs : ℚ) (aVector : Vector3d) : Vector3d :=
  let firstVectorPart :=
    ((Vector3d.smul 0 qv).add (Vector3d.smul qs aVector)).sub (qv.cross aVector)
  let firstScalarPart := (qs * 0) - qv.dot aVector
  ((Vector3d.smul qs firstVectorPart).add (Vector3d.smul firstScalarPart qv.neg)).sub
    (firstVectorPart.cross qv.neg)

/-! ## Nearness of point sets (PointSet.cpp) -/

/-- Method `PointSet::getSize`. -/
def PointSet.getSize (a : PointSet) : ℕ :=
  a.points_.length

/-- The inner `for` loop of `PointSet::isNear` over `secondPointSetBuffer`: the buffer
after the erasure of the first point that `firstPoint` is near to (the loop then
breaks, `foundClosestPoint` being true), or `none` when the loop ends without a
match. `Point::isNear` (Point.cpp is absent) is the argument `pointIsNear`; its
exception ends the call. -/
def PointSet.eraseNear (pointIsNear : Point → Point → Option ℚ → Except Error Bool)
    (firstPoint : Point) (aTolerance : Option ℚ) :
    List Point → Except Error (Option (List Point))
  | [] => Except.ok none
  | secondPoint :: rest =>
      match pointIsNear firstPoint secondPoint aTolerance with
      | Except.error e => Except.error e
      | Except.ok true => Except.ok (some rest)
      | Except.ok false =>
          match PointSet.eraseNear pointIsNear firstPoint aTolerance rest with
          | Except.error e => Except.error e
          | Except.ok none => Except.ok none
          | Except.ok (some erased) => Except.ok (some (secondPoint :: erased))

/-- The `while (!firstPointSetBuffer.empty ())` loop of `PointSet::isNear`; the state
is the two buffers. Every iteration that does not return erases the first point of
the first buffer. -/
def PointSet.nearLoop (pointIsNear : Point → Point → Option ℚ → Except Error Bool)
    (aTolerance : Option ℚ) : List Point → List Point → Except Error Bool
  | [], _ => Except.ok true
  | firstPoint :: firstRest, secondPointSetBuffer =>
      match PointSet.eraseNear pointIsNear firstPoint aTolerance secondPointSetBuffer with
      | Except.error e => Except.error e
      | Except.ok none => Except.ok false
      | Except.ok (some erased) => PointSet.nearLoop pointIsNear aTolerance firstRest erased

/-- Method `PointSet::isNear`. -/
def PointSet.isNear (pointIsNear : Point → Point → Option ℚ → Except Error Bool)
    (self aPointSet : PointSet) (aTolerance : Option ℚ) : Except Error Bool :=
  if self.isEmpty || aPointSet.isEmpty then Except.ok false
  else if self.getSize ≠ aPointSet.getSize then Except.ok false
  else PointSet.nearLoop pointIsNear aTolerance self.points_ aPointSet.points_

/-! ## Edges of a 2D polygon (2D/Objects/Polygon.cpp) -/

/-- A 2D point: its two coordinates, as `Polygon::Impl::BoostPoint` holds them. -/
structure d2.Point where
  x : ℚ
  y : ℚ
deriving DecidableEq

/-- The type `Polygon::Edge` (declared in Polygon.hpp, which is absent): a 2D segment,
constructed from its two end points by `{ firstVertex, secondVertex }`. -/
structure d2.Segment where
  firstPoint_ : d2.Point
  secondPoint_ : d2.Point
deriving DecidableEq

/-- A `boost::geometry::model::polygon`: the points of the outer ring and of every
inner ring, as stored. -/
structure d2.BoostPolygon where
  outer : List d2.Point
  inners : List (List d2.Point)
deriving DecidableEq

/-- The class `Polygon::Impl`: the member `polygon_`. -/
structure d2.Polygon.Impl where
  polygon_ : d2.BoostPolygon
deriving DecidableEq

/-- Function `Polygon::Impl::BoostPolygonFromPoints`. The function
`boost::geometry::correct` of the outside library is the argument `correct`, applied
to the one ring that the polygon holds at that point. -/
def d2.Polygon.Impl.BoostPolygonFromPoints (correct : List d2.Point → List d2.Point)
    (aPointArray : List d2.Point) : Except Error d2.BoostPolygon :=
  if !aPointArray.isEmpty && decide (aPointArray.length < 3) then
    Except.error (Error.RuntimeError "At least 3 points are necessary to define a polygon.")
  else Except.ok ⟨correct aPointArray, []⟩

/-- The loop over `anInnerRingArray` in the constructor of `Polygon::Impl`. -/
def d2.Polygon.Impl.innerRingsLoop (correct : List d2.Point → List d2.Point) :
    List (List d2.Point) → d2.BoostPolygon → Except Error d2.BoostPolygon
  | [], polygon => Except.ok polygon
  | innerRing :: rest, polygon =>
      if innerRing.length < 3 then
        Except.error
          (Error.RuntimeError "At least 3 points are necessary to define an inner ring.")
      else
        d2.Polygon.Impl.innerRingsLoop correct rest
          ⟨polygon.outer, polygon.inners ++ [correct innerRing]⟩

/-- Constructor `Polygon::Impl::Impl (anOuterRing, anInnerRingArray)`. -/
def d2.Polygon.Impl.ofRings (correct : List d2.Point → List d2.Point)
    (anOuterRing : List d2.Point) (anInnerRingArray : List (List d2.Point)) :
    Except Error d2.Polygon.Impl :=
  match d2.Polygon.Impl.BoostPolygonFromPoints correct anOuterRing with
  | Except.error e => Except.error e
  | Except.ok polygon =>
      match d2.Polygon.Impl.innerRingsLoop correct anInnerRingArray polygon with
      | Except.error e => Except.error e
      | Except.ok withInners => Except.ok ⟨withInners⟩

/-- Method `Polygon::Impl::isDefined`. -/
def d2.Polygon.Impl.isDefined (self : d2.Polygon.Impl) : Bool :=
  decide (self.polygon_.outer.length ≥ 3)

/-- Method `Polygon::Impl::getInnerRingCount`. -/
def d2.Polygon.Impl.getInnerRingCount (self : d2.Polygon.Impl) : ℕ :=
  self.polygon_.inners.length

/-- Method `Polygon::Impl::getOuterRingEdgeCount`. The subtraction is the one of the
natural numbers: the public methods reach it on a defined polygon only, whose outer
ring holds at least three points. -/
def d2.Polygon.Impl.getOuterRingEdgeCount (self : d2.Polygon.Impl) : ℕ :=
  self.polygon_.outer.length - 1

/-- Method `Polygon::Impl::getEdgeCount`: the loop over the inner rings adds
`num_points (innerRing) - 1` for each. -/
def d2.Polygon.Impl.getEdgeCount (self : d2.Polygon.Impl) : ℕ :=
  self.polygon_.inners.foldl (fun edgeCount innerRing => edgeCount + (innerRing.length - 1))
    (self.polygon_.outer.length - 1)

/-- The number `boost::geometry::num_points (polygon_)`: the points of all rings. -/
def d2.BoostPolygon.num_points (polygon : d2.BoostPolygon) : ℕ :=
  polygon.inners.foldl (fun count innerRing => count + innerRing.length) polygon.outer.length

/-- Method `Polygon::Impl::getVertexAt`. The element access `outer ().at (aVertexIndex)`
is within bounds after the two tests, so the last branch cannot be taken. -/
def d2.Polygon.Impl.getVertexAt (self : d2.Polygon.Impl) (aVertexIndex : ℕ) :
    Except Error d2.Point :=
  if aVertexIndex ≥ self.polygon_.num_points - 1 then Except.error (Error.Wrong "Vertex index")
  else if aVertexIndex ≥ self.polygon_.outer.length - 1 then
    Except.error (Error.ToBeImplemented "Inner ring vertex access.")
  else
    match self.polygon_.outer.get? aVertexIndex with
    | some vertex => Except.ok vertex
    | none => Except.error (Error.Wrong "Vertex index")

/-- Method `Polygon::Impl::getEdgeAt`. -/
def d2.Polygon.Impl.getEdgeAt (self : d2.Polygon.Impl) (anEdgeIndex : ℕ) :
    Except Error d2.Segment :=
  if anEdgeIndex ≥ self.getEdgeCount then Except.error (Error.Wrong "Edge index")
  else if anEdgeIndex ≥ self.getOuterRingEdgeCount then
    Except.error (Error.ToBeImplemented "Inner ring edge access.")
  else
    match self.getVertexAt anEdgeIndex with
    | Except.error e => Except.error e
    | Except.ok firstVertex =>
        match (if anEdgeIndex ≠ self.getOuterRingEdgeCount - 1 then
            self.getVertexAt (anEdgeIndex + 1) else self.getVertexAt 0) with
        | Except.error e => Except.error e
        | Except.ok secondVertex => Except.ok ⟨firstVertex, secondVertex⟩

/-- The loop of `Polygon::Impl::getEdges` over the edge indices still to visit; the
first exception of `getEdgeAt` ends it. -/
def d2.Polygon.Impl.edgesLoop (self : d2.Polygon.Impl) :
    List ℕ → List d2.Segment → Except Error (List d2.Segment)
  | [], edges => Except.ok edges
  | edgeIndex :: rest, edges =>
      match self.getEdgeAt edgeIndex with
      | Except.error e => Except.error e
      | Except.ok edge => d2.Polygon.Impl.edgesLoop self rest (edges ++ [edge])

/-- Method `Polygon::Impl::getEdges`: the indices run from `0` to
`getEdgeCount () - 1`. -/
def d2.Polygon.Impl.getEdges (self : d2.Polygon.Impl) : Except Error (List d2.Segment) :=
  d2.Polygon.Impl.edgesLoop self (List.range self.getEdgeCount) []

/-- The class `Polygon` of the 2D objects: the pointer `implUPtr_`, possibly null. -/
structure d2.Polygon where
  implUPtr_ : Option d2.Polygon.Impl
deriving DecidableEq

/-- Constructor `Polygon::Polygon (anOuterRing, anInnerRingArray)`. -/
def d2.Polygon.ofRings (correct : List d2.Point → List d2.Point)
    (anOuterRing : List d2.Point) (anInnerRingArray : List (List d2.Point)) :
    Except Error d2.Polygon :=
  match d2.Polygon.Impl.ofRings correct anOuterRing anInnerRingArray with
  | Except.error e => Except.error e
  | Except.ok impl => Except.ok ⟨some impl⟩

/-- Method `Polygon::isDefined`. -/
def d2.Polygon.isDefined (self : d2.Polygon) : Bool :=
  match self.implUPtr_ with
  | none => false
  | some impl => impl.isDefined

/-- Method `Polygon::getInnerRingCount`. -/
def d2.Polygon.getInnerRingCount (self : d2.Polygon) : Except Error ℕ :=
  match self.implUPtr_ with
  | some impl =>
      if !impl.isDefined then Except.error (Error.Undefined "Polygon")
      else Except.ok impl.getInnerRingCount
  | none => Except.error (Error.Undefined "Polygon")

/-- Method `Polygon::getEdgeCount`. -/
def d2.Polygon.getEdgeCount (self : d2.Polygon) : Except Error ℕ :=
  match self.implUPtr_ with
  | some impl =>
      if !impl.isDefined then Except.error (Error.Undefined "Polygon")
      else Except.ok impl.getEdgeCount
  | none => Except.error (Error.Undefined "Polygon")

/-- Method `Polygon::getVertexAt`. -/
def d2.Polygon.getVertexAt (self : d2.Polygon) (aVertexIndex : ℕ) : Except Error d2.Point :=
  match self.implUPtr_ with
  | some impl =>
      if !impl.isDefined then Except.error (Error.Undefined "Polygon")
      else impl.getVertexAt aVertexIndex
  | none => Except.error (Error.Undefined "Polygon")

/-- Method `Polygon::getEdges`. -/
def d2.Polygon.getEdges (self : d2.Polygon) : Except Error (List d2.Segment) :=
  match self.implUPtr_ with
  | some impl =>
      if !impl.isDefined then Except.error (Error.Undefined "Polygon")
      else impl.getEdges
  | none => Except.error (Error.Undefined "Polygon")

/-- A stand-in for `boost::geometry::correct` in the examples: it closes a ring, by
repeating the first point after the last one when the two differ. -/
def d2.closeRing : List d2.Point → List d2.Point
  | [] => []
  | first :: rest =>
      if (first :: rest).getLast? = some first then first :: rest
      else (first :: rest) ++ [first]

/-! ## Classification lemmas -/

theorem typeLoop_same (V : IntersectionType) (hV : V ≠ IntersectionType.Undefined) :
    ∀ os : List Object, (∀ o ∈ os, Intersection.TypeFromObject o = V) →
      Intersection.typeLoop os V = V := by
  intro os
  induction os with
  | nil => intro _; rfl
  | cons o rest ih =>
      intro h
      have ho : Intersection.TypeFromObject o = V := h o (List.mem_cons_self _ _)
      have hrest : ∀ x ∈ rest, Intersection.TypeFromObject x = V :=
        fun x hx => h x (List.mem_cons_of_mem _ hx)
      simp [Intersection.typeLoop, hV, ho, ih hrest]

theorem typeLoop_differs (T : IntersectionType) (hT : T ≠ IntersectionType.Undefined) :
    ∀ os : List Object, (∃ o ∈ os, Intersection.TypeFromObject o ≠ T) →
      Intersection.typeLoop os T = IntersectionType.Complex := by
  intro os
  induction os with
  | nil => rintro ⟨o, ho, _⟩; cases ho
  | cons o rest ih =>
      rintro ⟨x, hx, hne⟩
      by_cases ho : Intersection.TypeFromObject o = T
      · have hxr : x ∈ rest := by
          rcases List.mem_cons.mp hx with h | h
          · exact absurd (h ▸ ho) hne
          · exact h
        simp [Intersection.typeLoop, hT, ho, ih ⟨x, hxr, hne⟩]
      · have ho2 : ¬ T = Intersection.TypeFromObject o := fun h => ho h.symm
        simp [Intersection.typeLoop, hT, ho2]

theorem typeLoop_two_variants :
    ∀ os : List Object, ∀ o1 o2 : Object, o1 ∈ os → o2 ∈ os →
      (Intersection.TypeFromObject o1).isVariant = true →
      (Intersection.TypeFromObject o2).isVariant = true →
      Intersection.TypeFromObject o1 ≠ Intersection.TypeFromObject o2 →
      Intersection.typeLoop os IntersectionType.Undefined = IntersectionType.Complex := by
  intro os
  induction os with
  | nil => intro o1 _ h1; cases h1
  | cons o rest ih =>
      intro o1 o2 h1 h2 v1 v2 hne
      by_cases ho : Intersection.TypeFromObject o = IntersectionType.Undefined
      · have m1 : o1 ∈ rest := by
          rcases List.mem_cons.mp h1 with h | h
          · rw [h, ho] at v1; cases v1
          · exact h
        have m2 : o2 ∈ rest := by
          rcases List.mem_cons.mp h2 with h | h
          · rw [h, ho] at v2; cases v2
          · exact h
        simp [Intersection.typeLoop, ho, ih o1 o2 m1 m2 v1 v2 hne]
      · have key : ∃ x ∈ rest, Intersection.TypeFromObject x ≠ Intersection.TypeFromObject o := by
          by_cases e1 : Intersection.TypeFromObject o1 = Intersection.TypeFromObject o
          · have e2 : Intersection.TypeFromObject o2 ≠ Intersection.TypeFromObject o :=
              fun h => hne (e1.trans h.symm)
            rcases List.mem_cons.mp h2 with h | h
            · exact absurd (by rw [h]) e2
            · exact ⟨o2, h, e2⟩
          · rcases List.mem_cons.mp h1 with h | h
            · exact absurd (by rw [h]) e1
            · exact ⟨o1, h, e1⟩
        simp [Intersection.typeLoop, typeLoop_differs _ ho rest key]

theorem typeLoop_eq_undefined (os : List Object) :
    ∀ T : IntersectionType, Intersection.typeLoop os T = IntersectionType.Undefined ↔
      (T = IntersectionType.Undefined ∧
        ∀ o ∈ os, Intersection.TypeFromObject o = IntersectionType.Undefined) := by
  induction os with
  | nil => intro T; simp [Intersection.typeLoop]
  | cons o rest ih =>
      intro T
      by_cases hT : T = IntersectionType.Undefined
      · simp [Intersection.typeLoop, hT, ih]
      · by_cases hne : T = Intersection.TypeFromObject o
        · simp [Intersection.typeLoop, hT, ← hne, ih]
        · simp [Intersection.typeLoop, hT, hne]

theorem typeFromObjects_eq_undefined (os : List Object) :
    Intersection.TypeFromObjects os = IntersectionType.Undefined ↔
      (os ≠ [] ∧ ∀ o ∈ os, Intersection.TypeFromObject o = IntersectionType.Undefined) := by
  cases os with
  | nil => simp [Intersection.TypeFromObjects]
  | cons o rest =>
      simp only [Intersection.TypeFromObjects, List.isEmpty_cons, Bool.false_eq_true, if_false]
      rw [typeLoop_eq_undefined]
      simp

theorem typeFromObjects_append_ne_undefined (as bs : List Object)
    (ha : Intersection.TypeFromObjects as ≠ IntersectionType.Undefined)
    (hb : Intersection.TypeFromObjects bs ≠ IntersectionType.Undefined) :
    Intersection.TypeFromObjects (as ++ bs) ≠ IntersectionType.Undefined := by
  rw [Ne, typeFromObjects_eq_undefined] at ha hb ⊢
  rintro ⟨hne, hall⟩
  by_cases hA : as = []
  · subst hA
    exact hb ⟨by simpa using hne, fun o ho => hall o (by simpa using ho)⟩
  · exact ha ⟨hA, fun o ho => hall o (List.mem_append_left _ ho)⟩

theorem isDefined_iff (A : Intersection) :
    A.isDefined = true ↔
      (A.type_ ≠ IntersectionType.Undefined ∧ ∃ os, A.composite_ = Composite.mk os) := by
  cases A with
  | mk t c => cases c <;> simp [Intersection.isDefined, Composite.isDefined]

theorem objectsEq_refl (os : List Object) (h : ∀ o ∈ os, o.eq o = true) :
    Composite.objectsEq os os = true := by
  induction os with
  | nil => rfl
  | cons o rest ih =>
      simp [Composite.objectsEq, h o (List.mem_cons_self _ _),
        ih (fun x hx => h x (List.mem_cons_of_mem _ hx))]

theorem reachable_consistent (A : Intersection) (h : A.Reachable) : A.Consistent := by
  induction h with
  | ofObjects os => intro _; rfl
  | Undefined => intro hd; cases hd
  | Point p => intro _; rfl
  | PointSet s => intro _; rfl
  | LineString l => intro _; rfl
  | add A B R _ _ hadd _ _ =>
      intro _
      unfold Intersection.add at hadd
      split at hadd
      · cases hadd
      · split at hadd
        · cases hadd
        · cases hadd; rfl
  | addAssign A B _ _ ihA _ =>
      intro hd
      by_cases hB : B.isDefined = true
      · cases hA : A.composite_ with
        | Undefined =>
            cases hBc : B.composite_ <;>
              simp [Intersection.addAssign, hB, hA, hBc, Composite.addAssign,
                Composite.isDefined] at hd
        | mk as =>
            cases hBc : B.composite_ with
            | Undefined => simp [Intersection.isDefined, hBc, Composite.isDefined] at hB
            | mk bs => simp [Intersection.addAssign, hB, hA, hBc, Composite.addAssign]
      · have hB2 : B.isDefined = false := by simpa using hB
        have hsame : (A.addAssign B).2 = A := by simp [Intersection.addAssign, hB2]
        rw [hsame] at hd ⊢
        exact ihA hd

theorem add_mk (A B : Intersection) (as bs : List Object)
    (hA : A.composite_ = Composite.mk as) (hB : B.composite_ = Composite.mk bs)
    (hBd : B.isDefined = true) :
    A.add B = Except.ok
      { type_ := Intersection.TypeFromObjects (as ++ bs), composite_ := Composite.mk (as ++ bs) } := by
  simp [Intersection.add, hBd, hA, hB, Composite.add, Composite.accessObjects]

theorem addAssign_mk (A B : Intersection) (as bs : List Object)
    (hA : A.composite_ = Composite.mk as) (hB : B.composite_ = Composite.mk bs)
    (hBd : B.isDefined = true) :
    A.addAssign B = (Except.ok (),
      { type_ := Intersection.TypeFromObjects (as ++ bs), composite_ := Composite.mk (as ++ bs) }) := by
  simp [Intersection.addAssign, hBd, hA, hB, Composite.addAssign, Composite.accessObjects]

theorem defined_type_ne (A : Intersection) (as : List Object) (rA : A.Reachable)
    (hA : A.isDefined = true) (hc : A.composite_ = Composite.mk as) :
    Intersection.TypeFromObjects as ≠ IntersectionType.Undefined := by
  have h1 := reachable_consistent A rA
  have h2 := (isDefined_iff A).mp hA
  unfold Intersection.Consistent at h1
  rw [hc] at h1
  have h3 := h1 rfl
  simp only [Composite.accessObjects] at h3
  rw [← h3]
  exact h2.1

/-! ## Lemmas on the sphere queries -/

theorem sphere_isDefined_iff (s : Sphere) :
    s.isDefined = true ↔ ∃ center radius, s = ⟨Point.mk center, some radius⟩ := by
  cases s with
  | mk c r => cases c <;> cases r <;> simp [Sphere.isDefined, Point.isDefined]

theorem ray_isDefined_iff (r : Ray) :
    r.isDefined = true ↔ ∃ origin direction, r = ⟨Point.mk origin, some direction⟩ := by
  cases r with
  | mk o d => cases o <;> cases d <;> simp [Ray.isDefined, Point.isDefined]

theorem line_isDefined_iff (l : Line) :
    l.isDefined = true ↔ ∃ origin direction, l = ⟨Point.mk origin, some direction⟩ := by
  cases l with
  | mk o d => cases o <;> cases d <;> simp [Line.isDefined, Point.isDefined]

theorem discardsOrigin_mk (eps : ℚ) (center : Vector3d) (radius : ℚ) (origin candidate : Vector3d) :
    Sphere.discardsOrigin eps ⟨Point.mk center, some radius⟩ (Point.mk origin)
        (Point.mk candidate) =
      Except.ok (decide (Sphere.Discarded eps center radius origin candidate)) := by
  unfold Sphere.discardsOrigin Sphere.Discarded Sphere.contains Point.eq
  by_cases h : candidate = origin
  · subst h
    by_cases h2 : |(candidate.sub center).squaredNorm - radius * radius| < eps
    · simp [h2]
    · simp [h2, not_lt.mp h2]
  · simp [h]

theorem closestLoop_pair (origin P1 P2 : Vector3d) :
    (PointSet.ofArray [Point.mk P1, Point.mk P2]).getPointClosestTo (Point.mk origin) =
      Except.ok (Point.mk
        (if (P2.sub origin).squaredNorm < (P1.sub origin).squaredNorm then P2 else P1)) := by
  by_cases h : P1 = P2
  · subst h
    simp [PointSet.ofArray, PointSet.insertPoint, Point.eq, PointSet.getPointClosestTo,
      PointSet.isEmpty, PointSet.closestLoop]
  · by_cases hlt : (P2.sub origin).squaredNorm < (P1.sub origin).squaredNorm
    · simp [PointSet.ofArray, PointSet.insertPoint, Point.eq, PointSet.getPointClosestTo,
        PointSet.isEmpty, PointSet.closestLoop, Point.squaredDistanceTo, realLt, h, hlt]
    · simp [PointSet.ofArray, PointSet.insertPoint, Point.eq, PointSet.getPointClosestTo,
        PointSet.isEmpty, PointSet.closestLoop, Point.squaredDistanceTo, realLt, h, hlt]

theorem rayTwoPoints_mk (eps : ℚ) (center : Vector3d) (radius : ℚ) (origin P1 P2 : Vector3d)
    (onlyInSight : Bool) :
    Sphere.rayTwoPoints eps ⟨Point.mk center, some radius⟩ (Point.mk origin) (Point.mk P1)
        (Point.mk P2) onlyInSight =
      if Sphere.Discarded eps center radius origin P1 then
        Except.ok (Intersection.Point (Point.mk P2))
      else if Sphere.Discarded eps center radius origin P2 then
        Except.ok (Intersection.Point (Point.mk P1))
      else Sphere.inSightOrBoth (PointSet.ofArray [Point.mk P1, Point.mk P2]) (Point.mk origin)
        onlyInSight := by
  unfold Sphere.rayTwoPoints
  simp only [discardsOrigin_mk]
  by_cases h1 : Sphere.Discarded eps center radius origin P1
  · have e1 : P1 = origin := h1.1
    subst e1
    simp [h1, Point.eq]
  · by_cases h2 : Sphere.Discarded eps center radius origin P2
    · have e2 : P2 = origin := h2.1
      subst e2
      simp [h1, h2, Point.eq]
    · simp [h1, h2]

theorem segment_isDefined_iff (g : Segment) :
    g.isDefined = true ↔ ∃ first second, g = ⟨Point.mk first, Point.mk second⟩ := by
  cases g with
  | mk a b => cases a <;> cases b <;> simp [Segment.isDefined, Point.isDefined]

theorem discardsEndPoint_mk (eps : ℚ) (center : Vector3d) (radius : ℚ)
    (first second candidate : Vector3d) :
    Sphere.discardsEndPoint eps ⟨Point.mk center, some radius⟩ (Point.mk first)
        (Point.mk second) (Point.mk candidate) =
      Except.ok (decide (Sphere.SegmentDiscarded eps center radius first second candidate)) := by
  unfold Sphere.discardsEndPoint Sphere.SegmentDiscarded Sphere.contains Point.eq
  by_cases h : candidate = first ∨ candidate = second
  · by_cases h2 : |(candidate.sub center).squaredNorm - radius * radius| < eps
    · rcases h with h | h <;> subst h <;> simp [h2]
    · rcases h with h | h <;> subst h <;> simp [h2, not_lt.mp h2]
  · have h1 : ¬ candidate = first := fun e => h (Or.inl e)
    have h2 : ¬ candidate = second := fun e => h (Or.inr e)
    simp [h1, h2]

theorem segmentBlock_mk (eps : ℚ) (center : Vector3d) (radius : ℚ)
    (endA endB candidate other : Vector3d) (next : Except Error Intersection) :
    Sphere.segmentBlock eps ⟨Point.mk center, some radius⟩ (Point.mk endA) (Point.mk endB)
        (Point.mk candidate) (Point.mk other) next =
      if Sphere.Discarded eps center radius endA candidate then
        (if Sphere.Discarded eps center radius endB other then Except.ok Intersection.Empty
          else Except.ok (Intersection.Point (Point.mk other)))
      else next := by
  unfold Sphere.segmentBlock
  simp only [discardsOrigin_mk]
  by_cases h1 : Sphere.Discarded eps center radius endA candidate
  · by_cases h2 : Sphere.Discarded eps center radius endB other <;> simp [h1, h2]
  · simp [h1]

theorem segmentTwoPoints_mk (eps : ℚ) (center : Vector3d) (radius : ℚ)
    (first second P1 P2 : Vector3d) :
    Sphere.segmentTwoPoints eps ⟨Point.mk center, some radius⟩ (Point.mk first)
        (Point.mk second) (Point.mk P1) (Point.mk P2) =
      Sphere.segmentBlock eps ⟨Point.mk center, some radius⟩ (Point.mk first) (Point.mk second)
        (Point.mk P1) (Point.mk P2)
        (Sphere.segmentBlock eps ⟨Point.mk center, some radius⟩ (Point.mk second)
          (Point.mk first) (Point.mk P1) (Point.mk P2)
          (Sphere.segmentBlock eps ⟨Point.mk center, some radius⟩ (Point.mk first)
            (Point.mk second) (Point.mk P2) (Point.mk P1)
            (Sphere.segmentBlock eps ⟨Point.mk center, some radius⟩ (Point.mk second)
              (Point.mk first) (Point.mk P2) (Point.mk P1)
              (Except.ok (Intersection.PointSet
                (PointSet.ofArray [Point.mk P1, Point.mk P2])))))) := by
  unfold Sphere.segmentTwoPoints
  by_cases h : (Point.mk P1).eq (Point.mk first) || (Point.mk P2).eq (Point.mk first) ||
      (Point.mk P1).eq (Point.mk second) || (Point.mk P2).eq (Point.mk second)
  · simp only [h, if_true]
  · simp only [h, Bool.false_eq_true, if_false]
    simp only [Point.eq, Bool.or_eq_true, decide_eq_true_eq, not_or] at h
    obtain ⟨⟨⟨h1, h2⟩, h3⟩, h4⟩ := h
    have d1 : ¬ Sphere.Discarded eps center radius first P1 := fun d => h1 d.1
    have d2 : ¬ Sphere.Discarded eps center radius second P1 := fun d => h3 d.1
    have d3 : ¬ Sphere.Discarded eps center radius first P2 := fun d => h2 d.1
    have d4 : ¬ Sphere.Discarded eps center radius second P2 := fun d => h4 d.1
    simp [segmentBlock_mk, d1, d2, d3, d4]

theorem segmentDiscarded_iff (eps : ℚ) (center : Vector3d) (radius : ℚ)
    (first second candidate : Vector3d) :
    Sphere.SegmentDiscarded eps center radius first second candidate ↔
      (Sphere.Discarded eps center radius first candidate ∨
        Sphere.Discarded eps center radius second candidate) := by
  unfold Sphere.SegmentDiscarded Sphere.Discarded
  tauto

theorem rayTwoPoints_returns (eps : ℚ) (center : Vector3d) (radius : ℚ)
    (origin P1 P2 : Vector3d) (onlyInSight : Bool) :
    ∃ I : Intersection,
      Sphere.rayTwoPoints eps ⟨Point.mk center, some radius⟩ (Point.mk origin) (Point.mk P1)
        (Point.mk P2) onlyInSight = Except.ok I := by
  rw [rayTwoPoints_mk]
  cases onlyInSight <;>
    simp only [Sphere.inSightOrBoth, closestLoop_pair, if_true, Bool.false_eq_true, if_false] <;>
    split_ifs <;> exact ⟨_, rfl⟩

theorem segmentTwoPoints_returns (eps : ℚ) (center : Vector3d) (radius : ℚ)
    (first second P1 P2 : Vector3d) :
    ∃ I : Intersection,
      Sphere.segmentTwoPoints eps ⟨Point.mk center, some radius⟩ (Point.mk first)
        (Point.mk second) (Point.mk P1) (Point.mk P2) = Except.ok I := by
  rw [segmentTwoPoints_mk]
  simp only [segmentBlock_mk]
  split_ifs <;> exact ⟨_, rfl⟩

theorem not_undefined_of_ok_or_failed (r : Except Error Intersection)
    (h : (∃ I : Intersection, r = Except.ok I) ∨
      r = Except.error (Error.RuntimeError "Intersection algorithm has failed.")) :
    ∀ what : String, r ≠ Except.error (Error.Undefined what) := by
  intro what hw
  rcases h with ⟨I, h⟩ | h
  · rw [h] at hw; cases hw
  · rw [h] at hw
    injection hw with e
    cases e

/-! ## Lemmas on quaternions -/

theorem quaternion_isDefined_iff (q : Quaternion) :
    q.isDefined = true ↔ ∃ x y z s : ℚ, q = ⟨some x, some y, some z, some s⟩ := by
  cases q with
  | mk x y z s => cases x <;> cases y <;> cases z <;> cases s <;> simp [Quaternion.isDefined]

theorem parts_mk (x y z s : ℚ) :
    (Quaternion.mk (some x) (some y) (some z) (some s)).parts = some (⟨x, y, z⟩, s) := rfl

theorem parts_of_not_defined (q : Quaternion) (h : q.isDefined = false) : q.parts = none := by
  cases q with
  | mk x y z s =>
      cases x <;> cases y <;> cases z <;> cases s <;>
        simp [Quaternion.isDefined] at h <;> rfl

theorem rotated_dot_self (s c : ℚ) (u v : Vector3d) (hu : u.dot u = 1)
    (hsc : s * s + c * c = 1) :
    (Vector3d.rotated s c u v).dot (Vector3d.rotated s c u v) = v.dot v := by
  obtain ⟨ux, uy, uz⟩ := u
  obtain ⟨vx, vy, vz⟩ := v
  simp only [Vector3d.dot, Vector3d.rotated, Vector3d.add, Vector3d.smul, Vector3d.cross] at hu ⊢
  linear_combination
    (4 * s * s * c * c * (vx * vx + vy * vy + vz * vz) +
      4 * s ^ 4 * (ux * vx + uy * vy + uz * vz) ^ 2) * hu +
    (c * c + s * s + 1) * (vx * vx + vy * vy + vz * vz) * hsc

theorem rotationVector_unit (pi : ℚ) (sin cos sqrt : ℚ → ℚ) (eps : ℚ) (u : Vector3d) (θ : ℚ)
    (hu : u.dot u = 1)
    (hsc : sin (θ * pi / 180 / 2) * sin (θ * pi / 180 / 2) +
      cos (θ * pi / 180 / 2) * cos (θ * pi / 180 / 2) = 1)
    (hsqrt : sqrt 1 = 1) (heps : eps ≤ 1) :
    Quaternion.RotationVector pi sin cos sqrt eps ⟨some u, Angle.Degrees θ⟩ =
      Except.ok (Quaternion.ofParts (Vector3d.smul (sin (θ * pi / 180 / 2)) u)
        (cos (θ * pi / 180 / 2))) := by
  obtain ⟨ux, uy, uz⟩ := u
  have hn : Quaternion.reducedNorm (Vector3d.smul (sin (θ * pi / 180 / 2)) ⟨ux, uy, uz⟩)
      (cos (θ * pi / 180 / 2)) = 1 := by
    simp only [Quaternion.reducedNorm, Vector3d.smul, Vector3d.dot] at hu ⊢
    linear_combination
      sin (θ * pi / 180 / 2) * sin (θ * pi / 180 / 2) * hu + hsc
  have hlt : ¬ (1 : ℚ) < eps := not_lt.mpr heps
  simp only [Quaternion.RotationVector, RotationVector.isDefined, Angle.isDefined,
    Angle.Degrees, Angle.inRadians, Option.isSome, Option.map, Bool.and_self, Bool.not_true,
    Bool.false_eq_true, if_false, Quaternion.normalize, Quaternion.ofParts, parts_mk]
  have hn2 : Quaternion.reducedNorm
      ⟨(Vector3d.smul (sin (θ * pi / 180 / 2)) ⟨ux, uy, uz⟩).x,
        (Vector3d.smul (sin (θ * pi / 180 / 2)) ⟨ux, uy, uz⟩).y,
        (Vector3d.smul (sin (θ * pi / 180 / 2)) ⟨ux, uy, uz⟩).z⟩
      (cos (θ * pi / 180 / 2)) = 1 := hn
  rw [hn2, hsqrt]
  simp [hlt, Quaternion.ofInPlace]

theorem rotateAbout_unit (pi : ℚ) (sin cos sqrt : ℚ → ℚ) (eps : ℚ) (u v : Vector3d) (θ : ℚ)
    (hu : u.dot u = 1)
    (hsc : sin (θ * pi / 180 / 2) * sin (θ * pi / 180 / 2) +
      cos (θ * pi / 180 / 2) * cos (θ * pi / 180 / 2) = 1)
    (hsqrt : sqrt 1 = 1) (heps0 : 0 ≤ eps) (heps : eps ≤ 1) :
    Cone.rotateAbout pi sin cos sqrt eps (some u) (Angle.Degrees θ) (some v) =
      Except.ok (Vector3d.rotated (sin (θ * pi / 180 / 2)) (cos (θ * pi / 180 / 2)) u v) := by
  have hq := rotationVector_unit pi sin cos sqrt eps u θ hu hsc hsqrt heps
  obtain ⟨ux, uy, uz⟩ := u
  obtain ⟨vx, vy, vz⟩ := v
  generalize sin (θ * pi / 180 / 2) = s at hq hsc ⊢
  generalize cos (θ * pi / 180 / 2) = c at hq hsc ⊢
  have hn : Quaternion.reducedNorm ⟨-(s * ux), -(s * uy), -(s * uz)⟩ c = 1 := by
    simp only [Quaternion.reducedNorm, Vector3d.dot] at hu ⊢
    linear_combination s * s * hu + hsc
  have hun : |Quaternion.reducedNorm ⟨-(s * ux), -(s * uy), -(s * uz)⟩ c - 1| ≤ eps := by
    rw [hn]
    simpa using heps0
  simp only [Cone.rotateAbout, hq, Quaternion.toConjugate, Quaternion.ofParts,
    Quaternion.isDefined, Option.isSome, Bool.and_self, Bool.not_true, Bool.false_eq_true,
    if_false, Quaternion.conjugate, parts_mk, Quaternion.ofInPlace, Vector3d.smul,
    Quaternion.mulVector, Quaternion.rotateVector, Quaternion.isUnitary, hun, decide_True,
    Quaternion.crossMultiply, Quaternion.getVectorPart, Vector3d.add, Vector3d.sub,
    Vector3d.cross, Vector3d.dot, Vector3d.rotated]
  simp only [Vector3d.dot] at hu
  congr 2
  · linear_combination (-(s * s * vx)) * hu
  · linear_combination (-(s * s * vy)) * hu
  · linear_combination (-(s * s * vz)) * hu

theorem referenceCross_squaredNorm (a : Vector3d) (ha : a.dot a = 1) :
    1 / 4 ≤ (Cone.referenceCross a).squaredNorm := by
  obtain ⟨ax, ay, az⟩ := a
  simp only [Vector3d.dot] at ha
  unfold Cone.referenceCross
  split_ifs with h
  · simp only [Vector3d.dot, Vector3d.X, mul_one, mul_zero, add_zero] at h
    have h1 := (abs_lt.mp h).1
    have h2 := (abs_lt.mp h).2
    simp only [Vector3d.cross, Vector3d.X, Vector3d.squaredNorm]
    nlinarith
  · simp only [Vector3d.dot, Vector3d.X, mul_one, mul_zero, add_zero] at h
    have h1 : 1 / 2 ≤ |ax| := not_lt.mp h
    have h2 : 1 / 4 ≤ ax * ax := by
      have h3 : |ax| * |ax| = ax * ax := abs_mul_abs_self ax
      nlinarith [abs_nonneg ax]
    simp only [Vector3d.cross, Vector3d.Y, Vector3d.squaredNorm]
    nlinarith [mul_self_nonneg az]

theorem referenceCross_dot_axis (a : Vector3d) : (Cone.referenceCross a).dot a = 0 := by
  obtain ⟨ax, ay, az⟩ := a
  unfold Cone.referenceCross
  split_ifs <;> simp only [Vector3d.cross, Vector3d.X, Vector3d.Y, Vector3d.dot] <;> ring

theorem referenceDirection_eq (sqrt : ℚ → ℚ) (a : Vector3d) :
    Cone.referenceDirection sqrt (some a) = some ((Cone.referenceCross a).normalized sqrt) := by
  by_cases h : |a.dot Vector3d.X| < 1 / 2
  · simp only [Cone.referenceDirection, Cone.referenceCross, if_pos h]
  · simp only [Cone.referenceDirection, Cone.referenceCross, if_neg h]

theorem referenceDirection_unit (sqrt : ℚ → ℚ) (a : Vector3d) (ha : a.dot a = 1)
    (hsq : sqrt (Cone.referenceCross a).squaredNorm * sqrt (Cone.referenceCross a).squaredNorm =
      (Cone.referenceCross a).squaredNorm) :
    ((Cone.referenceCross a).normalized sqrt).dot ((Cone.referenceCross a).normalized sqrt) = 1 ∧
      ((Cone.referenceCross a).normalized sqrt).dot a = 0 := by
  have hpos : 0 < (Cone.referenceCross a).squaredNorm :=
    lt_of_lt_of_le (by norm_num) (referenceCross_squaredNorm a ha)
  have horth := referenceCross_dot_axis a
  generalize Cone.referenceCross a = w at hsq hpos horth
  obtain ⟨wx, wy, wz⟩ := w
  obtain ⟨ax, ay, az⟩ := a
  have hr : sqrt (Vector3d.squaredNorm ⟨wx, wy, wz⟩) ≠ 0 := by
    intro h0
    rw [h0, mul_zero] at hsq
    exact absurd hsq.symm (ne_of_gt hpos)
  have hn : Vector3d.normalized sqrt ⟨wx, wy, wz⟩ =
      ⟨wx / sqrt (Vector3d.squaredNorm ⟨wx, wy, wz⟩), wy / sqrt (Vector3d.squaredNorm ⟨wx, wy, wz⟩),
        wz / sqrt (Vector3d.squaredNorm ⟨wx, wy, wz⟩)⟩ := by
    simp only [Vector3d.normalized]
    rw [if_pos hpos]
  rw [hn]
  generalize sqrt (Vector3d.squaredNorm ⟨wx, wy, wz⟩) = r at hsq hr
  simp only [Vector3d.squaredNorm] at hsq
  simp only [Vector3d.dot] at horth ⊢
  constructor
  · field_simp
    linarith
  · field_simp
    linarith

theorem raysLoop_unit (pi : ℚ) (sin cos sqrt : ℚ → ℚ) (eps : ℚ) (p a d : Vector3d) (α : Angle)
    (ha : a.dot a = 1) (htrig : ∀ x : ℚ, sin x * sin x + cos x * cos x = 1)
    (hsqrt : sqrt 1 = 1) (heps0 : 0 ≤ eps) (heps : eps ≤ 1) :
    ∀ angles : List ℚ,
      Cone.raysLoop pi sin cos sqrt eps ⟨Point.mk p, some a, α⟩ ⟨Point.mk p, some d⟩ angles =
        Except.ok (angles.map (fun θ =>
          (⟨Point.mk p, some (Vector3d.rotated (sin (θ * pi / 180 / 2))
            (cos (θ * pi / 180 / 2)) a d)⟩ : Ray))) := by
  intro angles
  induction angles with
  | nil => rfl
  | cons θ rest ih =>
      simp only [Cone.raysLoop, Ray.getDirection,
        rotateAbout_unit pi sin cos sqrt eps a d θ ha (htrig _) hsqrt heps0 heps, ih,
        List.map_cons]

theorem getRays_unit (pi : ℚ) (sin cos sqrt : ℚ → ℚ) (eps : ℚ) (p a : Vector3d) (α : ℚ)
    (N : ℕ) (hN : N ≠ 0) (ha : a.dot a = 1)
    (htrig : ∀ x : ℚ, sin x * sin x + cos x * cos x = 1) (hsqrt : sqrt 1 = 1)
    (hsq : sqrt (Cone.referenceCross a).squaredNorm * sqrt (Cone.referenceCross a).squaredNorm =
      (Cone.referenceCross a).squaredNorm)
    (heps0 : 0 ≤ eps) (heps : eps ≤ 1) :
    Cone.getRaysOfLateralSurface pi sin cos sqrt eps ⟨Point.mk p, some a, Angle.Degrees α⟩ N =
      Except.ok ((if N > 1 then Interval.generateArrayWithSize 0 360 N else [0]).map (fun θ =>
        (⟨Point.mk p, some (Vector3d.rotated (sin (θ * pi / 180 / 2)) (cos (θ * pi / 180 / 2)) a
          (Vector3d.rotated (sin (α * pi / 180 / 2)) (cos (α * pi / 180 / 2))
            ((Cone.referenceCross a).normalized sqrt) a))⟩ : Ray))) := by
  have hr := (referenceDirection_unit sqrt a ha hsq).1
  simp only [Cone.getRaysOfLateralSurface, if_neg hN, referenceDirection_eq,
    rotateAbout_unit pi sin cos sqrt eps _ a α hr (htrig _) hsqrt heps0 heps,
    raysLoop_unit pi sin cos sqrt eps p a _ _ ha htrig hsqrt heps0 heps]

theorem generateArrayWithSize_length (lower upper : ℚ) (n : ℕ) :
    (Interval.generateArrayWithSize lower upper n).length = n := by
  simp [Interval.generateArrayWithSize]

theorem angles_length (N : ℕ) (hN : N ≠ 0) :
    (if N > 1 then Interval.generateArrayWithSize 0 360 N else [0]).length = N := by
  split_ifs with h
  · exact generateArrayWithSize_length 0 360 N
  · simp only [List.length_singleton]
    omega

theorem table_pythagorean (x : ℚ) : tableSin x * tableSin x + tableCos x * tableCos x = 1 := by
  unfold tableSin tableCos
  split_ifs <;> norm_num

theorem rat_sqrt_one : Rat.sqrt 1 = 1 := by
  simp

theorem referenceCross_z : Cone.referenceCross ⟨0, 0, 1⟩ = ⟨0, 1, 0⟩ := by
  simp [Cone.referenceCross, Vector3d.dot, Vector3d.X, Vector3d.cross]

/-! ## Lemmas on the cone against the sphere -/

theorem raysLoop_shape (pi : ℚ) (sin cos sqrt : ℚ → ℚ) (eps : ℚ) (cone : Cone)
    (referenceRay : Ray) :
    ∀ (angles : List ℚ) (rays : List Ray),
      Cone.raysLoop pi sin cos sqrt eps cone referenceRay angles = Except.ok rays →
      rays.length = angles.length ∧
        ∀ ray ∈ rays, ray.origin_ = cone.apex_ ∧ ray.direction_.isSome = true := by
  intro angles
  induction angles with
  | nil =>
      intro rays h
      simp only [Cone.raysLoop] at h
      injection h with h
      subst h
      simp
  | cons θ rest ih =>
      intro rays h
      simp only [Cone.raysLoop] at h
      cases hd : referenceRay.getDirection with
      | error e => simp [hd] at h
      | ok direction =>
          simp only [hd] at h
          cases hr : Cone.rotateAbout pi sin cos sqrt eps cone.axis_ (Angle.Degrees θ)
              (some direction) with
          | error e => simp [hr] at h
          | ok rotated =>
              simp only [hr] at h
              cases hl : Cone.raysLoop pi sin cos sqrt eps cone referenceRay rest with
              | error e => simp [hl] at h
              | ok tail =>
                  simp only [hl] at h
                  injection h with h
                  subst h
                  obtain ⟨h1, h2⟩ := ih tail hl
                  refine ⟨by simp [h1], ?_⟩
                  intro ray hray
                  rcases List.mem_cons.mp hray with hray | hray
                  · subst hray
                    exact ⟨rfl, rfl⟩
                  · exact h2 ray hray

theorem getRays_shape (pi : ℚ) (sin cos sqrt : ℚ → ℚ) (eps : ℚ) (cone : Cone) (N : ℕ)
    (rays : List Ray)
    (h : cone.getRaysOfLateralSurface pi sin cos sqrt eps N = Except.ok rays) :
    N ≠ 0 ∧ rays.length = N ∧
      ∀ ray ∈ rays, ray.origin_ = cone.apex_ ∧ ray.direction_.isSome = true := by
  unfold Cone.getRaysOfLateralSurface at h
  by_cases hN : N = 0
  · simp [hN] at h
  · simp only [if_neg hN] at h
    cases hr : Cone.rotateAbout pi sin cos sqrt eps (Cone.referenceDirection sqrt cone.axis_)
        cone.angle_ cone.axis_ with
    | error e => simp [hr] at h
    | ok direction =>
        simp only [hr] at h
        obtain ⟨h1, h2⟩ := raysLoop_shape pi sin cos sqrt eps cone _ _ rays h
        exact ⟨hN, by rw [h1, angles_length N hN], h2⟩

theorem ofArray_pair (P Q : Vector3d) (h : P ≠ Q) :
    PointSet.ofArray [Point.mk P, Point.mk Q] = ⟨[Point.mk P, Point.mk Q]⟩ := by
  simp [PointSet.ofArray, PointSet.insertPoint, Point.eq, h]

theorem sphereBuckets_empty (buckets : List Point × List Point) :
    Cone.sphereBuckets buckets Intersection.Empty = Except.ok buckets := rfl

theorem sphereBuckets_point (buckets : List Point × List Point) (p : Point) :
    Cone.sphereBuckets buckets (Intersection.Point p) =
      Except.ok (buckets.1 ++ [p], buckets.2) := rfl

theorem sphereBuckets_pair (buckets : List Point × List Point) (p q : Point) :
    Cone.sphereBuckets buckets (Intersection.PointSet ⟨[p, q]⟩) =
      Except.ok (buckets.1 ++ [q], buckets.2 ++ [p]) := rfl

theorem ray_query_shape (FIQuery : GteQuery) (eps : ℚ) (center : Vector3d) (radius : ℚ)
    (origin direction : Vector3d) (onlyInSight : Bool)
    (hsolver : Sphere.SolverContract FIQuery) :
    ∃ I : Intersection,
      Ray.intersectionWithSphere FIQuery eps ⟨Point.mk origin, some direction⟩
        ⟨Point.mk center, some radius⟩ onlyInSight = Except.ok I ∧
      (I = Intersection.Empty ∨ (∃ p : Point, I = Intersection.Point p) ∨
        (onlyInSight = false ∧ ∃ p q : Point, I = Intersection.PointSet ⟨[p, q]⟩)) := by
  unfold Ray.intersectionWithSphere Sphere.intersectionWithRay
  simp only []
  by_cases hi : (FIQuery origin direction center radius).intersect = true
  · rcases hsolver origin direction center radius hi with h1 | ⟨h2, hne⟩
    · simp only [hi, h1, if_true, discardsOrigin_mk]
      by_cases hd : Sphere.Discarded eps center radius origin
          (FIQuery origin direction center radius).point.1
      · refine ⟨Intersection.Empty, by simp [hd], Or.inl rfl⟩
      · refine ⟨Intersection.Point (Point.mk (FIQuery origin direction center radius).point.1),
          by simp [hd], Or.inr (Or.inl ⟨_, rfl⟩)⟩
    · have h1 : ¬ (2 : ℤ) = 1 := by decide
      simp only [hi, h2, h1, if_true, if_false, rayTwoPoints_mk]
      by_cases hd1 : Sphere.Discarded eps center radius origin
          (FIQuery origin direction center radius).point.1
      · refine ⟨Intersection.Point (Point.mk (FIQuery origin direction center radius).point.2),
          by rw [if_pos hd1], Or.inr (Or.inl ⟨_, rfl⟩)⟩
      · by_cases hd2 : Sphere.Discarded eps center radius origin
            (FIQuery origin direction center radius).point.2
        · refine ⟨Intersection.Point (Point.mk (FIQuery origin direction center radius).point.1),
            by rw [if_neg hd1, if_pos hd2], Or.inr (Or.inl ⟨_, rfl⟩)⟩
        · rw [if_neg hd1, if_neg hd2]
          cases onlyInSight with
          | true =>
              simp only [Sphere.inSightOrBoth, closestLoop_pair, if_true]
              exact ⟨_, rfl, Or.inr (Or.inl ⟨_, rfl⟩)⟩
          | false =>
              simp only [Sphere.inSightOrBoth, Bool.false_eq_true, if_false, ofArray_pair _ _ hne]
              exact ⟨_, rfl, Or.inr (Or.inr ⟨trivial, _, _, rfl⟩)⟩
  · have hi2 : (FIQuery origin direction center radius).intersect = false := by
      simpa using hi
    simp only [hi2, Bool.false_eq_true, if_false]
    exact ⟨_, rfl, Or.inl rfl⟩

theorem sphereLoop_counts (FIQuery : GteQuery) (eps : ℚ) (center : Vector3d) (radius : ℚ)
    (onlyInSight : Bool) (hsolver : Sphere.SolverContract FIQuery) :
    ∀ (rays : List Ray), (∀ ray ∈ rays, ray.isDefined = true) →
      ∀ buckets : List Point × List Point,
        ∃ first second : List Point,
          Cone.sphereLoop FIQuery eps ⟨Point.mk center, some radius⟩ onlyInSight rays buckets =
            Except.ok (first, second) ∧
          first.length = buckets.1.length +
            rays.countP (Cone.rayHits FIQuery eps ⟨Point.mk center, some radius⟩ onlyInSight) ∧
          second.length = buckets.2.length +
            rays.countP (Cone.rayCrosses FIQuery eps ⟨Point.mk center, some radius⟩
              onlyInSight) := by
  intro rays
  induction rays with
  | nil =>
      intro _ buckets
      exact ⟨buckets.1, buckets.2, rfl, by simp, by simp⟩
  | cons ray rest ih =>
      intro hdef buckets
      obtain ⟨origin, direction, rfl⟩ :=
        (ray_isDefined_iff ray).mp (hdef ray (List.mem_cons_self _ _))
      have hrest : ∀ r ∈ rest, r.isDefined = true :=
        fun r hr => hdef r (List.mem_cons_of_mem _ hr)
      obtain ⟨I, hI, hshape⟩ :=
        ray_query_shape FIQuery eps center radius origin direction onlyInSight hsolver
      rcases hshape with rfl | ⟨p, rfl⟩ | ⟨_, p, q, rfl⟩
      · obtain ⟨first, second, h1, h2, h3⟩ := ih hrest buckets
        refine ⟨first, second, ?_, ?_, ?_⟩
        · simp only [Cone.sphereLoop, hI, sphereBuckets_empty, h1]
        · rw [h2, List.countP_cons]
          simp [Cone.rayHits, hI, Intersection.isEmpty, Intersection.Empty,
            Intersection.ofObjects, Intersection.TypeFromObjects]
        · rw [h3, List.countP_cons]
          simp [Cone.rayCrosses, hI, Intersection.Empty,
            Intersection.ofObjects, Intersection.TypeFromObjects]
      · obtain ⟨first, second, h1, h2, h3⟩ := ih hrest (buckets.1 ++ [p], buckets.2)
        refine ⟨first, second, ?_, ?_, ?_⟩
        · simp only [Cone.sphereLoop, hI, sphereBuckets_point, h1]
        · rw [h2, List.countP_cons]
          simp [Cone.rayHits, hI, Intersection.isEmpty, Intersection.Point]
          omega
        · rw [h3, List.countP_cons]
          simp [Cone.rayCrosses, hI, Intersection.Point]
      · obtain ⟨first, second, h1, h2, h3⟩ := ih hrest (buckets.1 ++ [q], buckets.2 ++ [p])
        refine ⟨first, second, ?_, ?_, ?_⟩
        · simp only [Cone.sphereLoop, hI, sphereBuckets_pair, h1]
        · rw [h2, List.countP_cons]
          simp [Cone.rayHits, hI, Intersection.isEmpty, Intersection.PointSet]
          omega
        · rw [h3, List.countP_cons]
          simp [Cone.rayCrosses, hI, Intersection.PointSet]
          omega

theorem aggregate_value (first second : List Point) (onlyInSight : Bool) :
    ∃ R : Intersection, Cone.aggregate first second onlyInSight = Except.ok R ∧
      (first = [] → second = [] → R = Intersection.Empty) ∧
      (first ≠ [] → (second = [] ∨ onlyInSight = true) →
        R = Intersection.LineString ⟨first⟩) ∧
      (first ≠ [] → second ≠ [] → onlyInSight = false →
        R = ⟨IntersectionType.LineString,
          Composite.mk [Object.aLineString ⟨first⟩, Object.aLineString ⟨second⟩]⟩) := by
  cases first with
  | nil =>
      cases second with
      | nil =>
          refine ⟨Intersection.Empty, (by cases onlyInSight <;> rfl), fun _ _ => rfl,
            fun h => absurd rfl h, fun h => absurd rfl h⟩
      | cons b bs =>
          refine ⟨Intersection.LineString ⟨b :: bs⟩, (by cases onlyInSight <;> rfl),
            fun _ h => (by cases h), fun h => absurd rfl h, fun h => absurd rfl h⟩
  | cons a as =>
      cases second with
      | nil =>
          refine ⟨Intersection.LineString ⟨a :: as⟩, (by cases onlyInSight <;> rfl),
            fun h => (by cases h), fun _ _ => rfl, fun _ h => absurd rfl h⟩
      | cons b bs =>
          cases onlyInSight with
          | true =>
              refine ⟨Intersection.LineString ⟨a :: as⟩, rfl, fun h => (by cases h),
                fun _ _ => rfl, fun _ _ h => (by cases h)⟩
          | false =>
              refine ⟨⟨IntersectionType.LineString,
                  Composite.mk [Object.aLineString ⟨a :: as⟩, Object.aLineString ⟨b :: bs⟩]⟩,
                rfl, fun h => (by cases h), ?_, fun _ _ _ => rfl⟩
              intro _ h
              rcases h with h | h <;> cases h

theorem rayCrosses_le_rayHits (FIQuery : GteQuery) (eps : ℚ) (aSphere : Sphere)
    (onlyInSight : Bool) (rays : List Ray) :
    rays.countP (Cone.rayCrosses FIQuery eps aSphere onlyInSight) ≤
      rays.countP (Cone.rayHits FIQuery eps aSphere onlyInSight) := by
  apply List.countP_mono_left
  intro ray _ h
  unfold Cone.rayCrosses at h
  unfold Cone.rayHits
  cases hq : ray.intersectionWithSphere FIQuery eps aSphere onlyInSight with
  | error e => simp [hq] at h
  | ok I =>
      simp only [hq, decide_eq_true_eq] at h
      simp [Intersection.isEmpty, h]

theorem getRays_unit_directions (pi : ℚ) (sin cos sqrt : ℚ → ℚ) (eps : ℚ) (p a : Vector3d)
    (α : ℚ) (N : ℕ) (hN : N ≠ 0) (ha : a.dot a = 1)
    (htrig : ∀ x : ℚ, sin x * sin x + cos x * cos x = 1) (hsqrt : sqrt 1 = 1)
    (hsq : sqrt (Cone.referenceCross a).squaredNorm * sqrt (Cone.referenceCross a).squaredNorm =
      (Cone.referenceCross a).squaredNorm)
    (heps0 : 0 ≤ eps) (heps : eps ≤ 1) :
    ∃ rays : List Ray,
      Cone.getRaysOfLateralSurface pi sin cos sqrt eps ⟨Point.mk p, some a, Angle.Degrees α⟩ N =
        Except.ok rays ∧
      ∀ ray ∈ rays, ∃ d : Vector3d, ray = ⟨Point.mk p, some d⟩ ∧ d.dot d = 1 := by
  have hr := (referenceDirection_unit sqrt a ha hsq).1
  refine ⟨_, getRays_unit pi sin cos sqrt eps p a α N hN ha htrig hsqrt hsq heps0 heps, ?_⟩
  intro ray hray
  obtain ⟨θ, _, rfl⟩ := List.mem_map.mp hray
  refine ⟨_, rfl, ?_⟩
  rw [rotated_dot_self _ _ _ _ ha (htrig _), rotated_dot_self _ _ _ _ hr (htrig _), ha]

theorem centre_ray_hits (eps : ℚ) (d : Vector3d) (hd : d.dot d = 1) :
    Cone.rayHits
        (fun origin direction _ radius =>
          ⟨true, 1, (Vector3d.along origin direction radius,
            Vector3d.along origin direction radius)⟩)
        eps (Sphere.Unit (Point.mk ⟨0, 0, 0⟩)) false ⟨Point.mk ⟨0, 0, 0⟩, some d⟩ = true ∧
      Cone.rayCrosses
        (fun origin direction _ radius =>
          ⟨true, 1, (Vector3d.along origin direction radius,
            Vector3d.along origin direction radius)⟩)
        eps (Sphere.Unit (Point.mk ⟨0, 0, 0⟩)) false ⟨Point.mk ⟨0, 0, 0⟩, some d⟩ = false := by
  obtain ⟨dx, dy, dz⟩ := d
  have hne : ¬ (Vector3d.along ⟨0, 0, 0⟩ ⟨dx, dy, dz⟩ 1 = ⟨0, 0, 0⟩) := by
    intro h
    simp only [Vector3d.along, zero_add, one_mul] at h
    injection h with h1 h2 h3
    subst h1 h2 h3
    norm_num [Vector3d.dot] at hd
  have hq : Ray.intersectionWithSphere
      (fun origin direction _ radius =>
        ⟨true, 1, (Vector3d.along origin direction radius,
          Vector3d.along origin direction radius)⟩)
      eps ⟨Point.mk ⟨0, 0, 0⟩, some ⟨dx, dy, dz⟩⟩ (Sphere.Unit (Point.mk ⟨0, 0, 0⟩)) false =
      Except.ok (Intersection.Point (Point.mk (Vector3d.along ⟨0, 0, 0⟩ ⟨dx, dy, dz⟩ 1))) := by
    simp only [Ray.intersectionWithSphere, Sphere.intersectionWithRay, Sphere.Unit, if_true,
      Sphere.discardsOrigin, Point.eq, hne, decide_False, Bool.false_eq_true, if_false]
  simp only [Cone.rayHits, Cone.rayCrosses, hq]
  exact ⟨rfl, rfl⟩

theorem ellipsoidBuckets_pointSet (apex : Point) (buckets : List Point × List Point)
    (pointSet : PointSet) :
    Cone.ellipsoidBuckets apex buckets (Intersection.PointSet pointSet) =
      match pointSet.getPointClosestTo apex with
      | Except.error e => Except.error e
      | Except.ok closestPointToApex =>
          match Cone.firstDiffering closestPointToApex pointSet.points_ with
          | some point => Except.ok (buckets.1 ++ [closestPointToApex], buckets.2 ++ [point])
          | none => Except.ok (buckets.1 ++ [closestPointToApex], buckets.2) := rfl

/-! ## Lemmas on rotation matrices -/

theorem rotationMatrix_branch_exists (t a b c : ℚ) :
    (t ≥ a ∧ t ≥ b ∧ t ≥ c) ∨ (a ≥ t ∧ a ≥ b ∧ a ≥ c) ∨ (b ≥ a ∧ b ≥ t ∧ b ≥ c) ∨
      (c ≥ a ∧ c ≥ b ∧ c ≥ t) := by
  rcases le_total a t with h1 | h1
  · rcases le_total b t with h2 | h2
    · rcases le_total c t with h3 | h3
      · exact Or.inl ⟨h1, h2, h3⟩
      · exact Or.inr (Or.inr (Or.inr ⟨le_trans h1 h3, le_trans h2 h3, h3⟩))
    · rcases le_total c b with h3 | h3
      · exact Or.inr (Or.inr (Or.inl ⟨le_trans h1 h2, h2, h3⟩))
      · exact Or.inr (Or.inr (Or.inr ⟨le_trans (le_trans h1 h2) h3, h3, le_trans h2 h3⟩))
  · rcases le_total b a with h2 | h2
    · rcases le_total c a with h3 | h3
      · exact Or.inr (Or.inl ⟨h1, h2, h3⟩)
      · exact Or.inr (Or.inr (Or.inr ⟨h3, le_trans h2 h3, le_trans h1 h3⟩))
    · rcases le_total c b with h3 | h3
      · exact Or.inr (Or.inr (Or.inl ⟨h2, le_trans h1 h2, h3⟩))
      · exact Or.inr (Or.inr (Or.inr ⟨le_trans h2 h3, h3, le_trans (le_trans h1 h2) h3⟩))

theorem typeFromObject_ne_complex (o : Object) :
    Intersection.TypeFromObject o ≠ IntersectionType.Complex := by
  cases o <;> simp [Intersection.TypeFromObject]

theorem typeFromObject_ne_empty (o : Object) :
    Intersection.TypeFromObject o ≠ IntersectionType.Empty := by
  cases o <;> simp [Intersection.TypeFromObject]

theorem typeLoop_ne_empty (os : List Object) :
    ∀ T : IntersectionType, T ≠ IntersectionType.Empty →
      Intersection.typeLoop os T ≠ IntersectionType.Empty := by
  induction os with
  | nil => intro T hT; simpa [Intersection.typeLoop] using hT
  | cons o rest ih =>
      intro T hT
      by_cases hU : T = IntersectionType.Undefined
      · simp only [Intersection.typeLoop, hU, if_true]
        exact ih _ (typeFromObject_ne_empty o)
      · by_cases hne : T = Intersection.TypeFromObject o
        · subst hne
          have h := ih _ (typeFromObject_ne_empty o)
          simpa [Intersection.typeLoop, hU] using h
        · simp [Intersection.typeLoop, hU, hne]

theorem typeFromObjects_eq_empty (os : List Object) :
    Intersection.TypeFromObjects os = IntersectionType.Empty ↔ os = [] := by
  cases os with
  | nil => simp [Intersection.TypeFromObjects]
  | cons o rest =>
      simp only [Intersection.TypeFromObjects, List.isEmpty_cons, Bool.false_eq_true, if_false]
      constructor
      · intro h
        exact absurd h (typeLoop_ne_empty (o :: rest) _ (by decide))
      · intro h
        cases h

theorem typeLoop_complex_running (os : List Object) :
    ∀ T : IntersectionType, T ≠ IntersectionType.Undefined → T ≠ IntersectionType.Complex →
      Intersection.typeLoop os T = IntersectionType.Complex →
      ∃ o ∈ os, Intersection.TypeFromObject o ≠ T := by
  induction os with
  | nil =>
      intro T _ hC h
      simp only [Intersection.typeLoop] at h
      exact absurd h hC
  | cons o rest ih =>
      intro T hU hC h
      by_cases ho : Intersection.TypeFromObject o = T
      · have h2 : Intersection.typeLoop rest T = IntersectionType.Complex := by
          simpa [Intersection.typeLoop, hU, ho] using h
        obtain ⟨x, hx, hne⟩ := ih T hU hC h2
        exact ⟨x, List.mem_cons_of_mem _ hx, hne⟩
      · exact ⟨o, List.mem_cons_self _ _, ho⟩

theorem typeLoop_complex_start (os : List Object) :
    Intersection.typeLoop os IntersectionType.Undefined = IntersectionType.Complex →
      ∃ o1 ∈ os, ∃ o2 ∈ os, Intersection.TypeFromObject o1 ≠ Intersection.TypeFromObject o2 := by
  induction os with
  | nil => intro h; simp [Intersection.typeLoop] at h
  | cons o rest ih =>
      intro h
      have h2 : Intersection.typeLoop rest (Intersection.TypeFromObject o) =
          IntersectionType.Complex := by
        simpa [Intersection.typeLoop] using h
      by_cases ho : Intersection.TypeFromObject o = IntersectionType.Undefined
      · rw [ho] at h2
        obtain ⟨o1, h1, o2, h2', hne⟩ := ih h2
        exact ⟨o1, List.mem_cons_of_mem _ h1, o2, List.mem_cons_of_mem _ h2', hne⟩
      · obtain ⟨x, hx, hne⟩ :=
          typeLoop_complex_running rest _ ho (typeFromObject_ne_complex o) h2
        exact ⟨x, List.mem_cons_of_mem _ hx, o, List.mem_cons_self _ _, hne⟩

theorem typeFromObjects_complex_iff (os : List Object)
    (hall : ∀ o ∈ os, (Intersection.TypeFromObject o).isVariant = true) :
    Intersection.TypeFromObjects os = IntersectionType.Complex ↔
      ∃ o1 ∈ os, ∃ o2 ∈ os, Intersection.TypeFromObject o1 ≠ Intersection.TypeFromObject o2 := by
  cases os with
  | nil => simp [Intersection.TypeFromObjects]
  | cons o rest =>
      simp only [Intersection.TypeFromObjects, List.isEmpty_cons, Bool.false_eq_true, if_false]
      constructor
      · exact typeLoop_complex_start (o :: rest)
      · rintro ⟨o1, h1, o2, h2, hne⟩
        exact typeLoop_two_variants (o :: rest) o1 o2 h1 h2 (hall o1 h1) (hall o2 h2) hne

/-! ## Lemmas on the classification of the cone result -/

theorem inSightOrBoth_in_sight (pointSet : PointSet) (origin : Point) (I : Intersection)
    (h : Sphere.inSightOrBoth pointSet origin true = Except.ok I) :
    ∃ p : Point, I = Intersection.Point p := by
  simp only [Sphere.inSightOrBoth, if_true] at h
  split at h
  · cases h
    exact ⟨_, rfl⟩
  · cases h

theorem rayTwoPoints_in_sight (eps : ℚ) (s : Sphere) (origin firstPoint secondPoint : Point)
    (I : Intersection)
    (h : Sphere.rayTwoPoints eps s origin firstPoint secondPoint true = Except.ok I) :
    ∃ p : Point, I = Intersection.Point p := by
  simp only [Sphere.rayTwoPoints] at h
  split at h
  · split at h
    · cases h
    · cases h
      exact ⟨_, rfl⟩
    · split at h
      · cases h
      · cases h
        exact ⟨_, rfl⟩
      · exact inSightOrBoth_in_sight _ _ _ h
  · exact inSightOrBoth_in_sight _ _ _ h

theorem ray_in_sight_shape (FIQuery : GteQuery) (eps : ℚ) (s : Sphere) (aRay : Ray)
    (I : Intersection)
    (h : Sphere.intersectionWithRay FIQuery eps s aRay true = Except.ok I) :
    I = Intersection.Empty ∨ ∃ p : Point, I = Intersection.Point p := by
  simp only [Sphere.intersectionWithRay] at h
  split at h
  · split at h
    · split at h
      · split at h
        · split at h
          · cases h
          · cases h
            exact Or.inl rfl
          · cases h
            exact Or.inr ⟨_, rfl⟩
        · split at h
          · exact Or.inr (rayTwoPoints_in_sight _ _ _ _ _ _ h)
          · cases h
      · cases h
        exact Or.inl rfl
    · cases h
  · cases h

theorem sphereLoop_in_sight_second (FIQuery : GteQuery) (eps : ℚ) (aSphere : Sphere) :
    ∀ (rays : List Ray) (buckets : List Point × List Point) (first second : List Point),
      Cone.sphereLoop FIQuery eps aSphere true rays buckets = Except.ok (first, second) →
      second = buckets.2 := by
  intro rays
  induction rays with
  | nil =>
      intro buckets first second h
      simp only [Cone.sphereLoop] at h
      cases h
      rfl
  | cons ray rest ih =>
      intro buckets first second h
      simp only [Cone.sphereLoop] at h
      split at h
      · cases h
      · rename_i I hI
        rcases ray_in_sight_shape FIQuery eps aSphere ray I hI with rfl | ⟨p, rfl⟩
        · rw [sphereBuckets_empty] at h
          exact ih buckets first second h
        · rw [sphereBuckets_point] at h
          exact ih (buckets.1 ++ [p], buckets.2) first second h

theorem cone_sphere_two_arrays :
    Cone.intersectionWithSphere tablePi tableSin tableCos Rat.sqrt (1 / 1000000000000000)
        (fun _ _ _ _ => ⟨true, 2, (⟨0, 0, -1⟩, ⟨0, 0, 1⟩)⟩)
        ⟨Point.mk ⟨0, 0, -2⟩, some ⟨0, 0, 1⟩, Angle.Degrees 0⟩
        (Sphere.Unit (Point.mk ⟨0, 0, 0⟩)) false 1 =
      Except.ok ⟨IntersectionType.LineString,
        Composite.mk [Object.aLineString ⟨[Point.mk ⟨0, 0, 1⟩]⟩,
          Object.aLineString ⟨[Point.mk ⟨0, 0, -1⟩]⟩]⟩ := by
  obtain ⟨rays, hrays, hunit⟩ :=
    getRays_unit_directions tablePi tableSin tableCos Rat.sqrt (1 / 1000000000000000)
      ⟨0, 0, -2⟩ ⟨0, 0, 1⟩ 0 1 (by norm_num) (by norm_num [Vector3d.dot]) table_pythagorean
      rat_sqrt_one (by rw [referenceCross_z]; norm_num [Vector3d.squaredNorm]) (by norm_num)
      (by norm_num)
  obtain ⟨_, hlen, _⟩ := getRays_shape _ _ _ _ _ _ _ _ hrays
  match rays, hlen, hunit, hrays with
  | [ray], _, hunit, hrays =>
      obtain ⟨d, rfl, _⟩ := hunit ray (List.mem_singleton_self _)
      have hq : Ray.intersectionWithSphere
          (fun _ _ _ _ => ⟨true, 2, (⟨0, 0, -1⟩, ⟨0, 0, 1⟩)⟩) (1 / 1000000000000000)
          ⟨Point.mk ⟨0, 0, -2⟩, some d⟩ (Sphere.Unit (Point.mk ⟨0, 0, 0⟩)) false =
          Except.ok (Intersection.PointSet
            ⟨[Point.mk ⟨0, 0, -1⟩, Point.mk ⟨0, 0, 1⟩]⟩) := by
        have h1 : ¬ (2 : ℤ) = 1 := by decide
        have hne : (Vector3d.mk 0 0 (-1)) ≠ ⟨0, 0, 1⟩ := by
          intro h
          injection h with _ _ h3
          norm_num at h3
        have hd1 : ¬ Sphere.Discarded (1 / 1000000000000000) ⟨0, 0, 0⟩ 1 ⟨0, 0, -2⟩
            ⟨0, 0, -1⟩ := by
          intro h
          have h3 := h.1
          injection h3 with _ _ h3
          norm_num at h3
        have hd2 : ¬ Sphere.Discarded (1 / 1000000000000000) ⟨0, 0, 0⟩ 1 ⟨0, 0, -2⟩
            ⟨0, 0, 1⟩ := by
          intro h
          have h3 := h.1
          injection h3 with _ _ h3
          norm_num at h3
        simp only [Ray.intersectionWithSphere, Sphere.intersectionWithRay, Sphere.Unit,
          if_true, h1, if_false, rayTwoPoints_mk, if_neg hd1, if_neg hd2,
          Sphere.inSightOrBoth, Bool.false_eq_true, ofArray_pair _ _ hne]
      have hloop : Cone.sphereLoop (fun _ _ _ _ => ⟨true, 2, (⟨0, 0, -1⟩, ⟨0, 0, 1⟩)⟩)
          (1 / 1000000000000000) (Sphere.Unit (Point.mk ⟨0, 0, 0⟩)) false
          [⟨Point.mk ⟨0, 0, -2⟩, some d⟩] ([], []) =
          Except.ok ([Point.mk ⟨0, 0, 1⟩], [Point.mk ⟨0, 0, -1⟩]) := by
        simp only [Cone.sphereLoop, hq, sphereBuckets_pair]
        rfl
      have hs : (Sphere.Unit (Point.mk ⟨0, 0, 0⟩)).isDefined = true := by decide
      have hc : (Cone.mk (Point.mk ⟨0, 0, -2⟩) (some ⟨0, 0, 1⟩) (Angle.Degrees 0)).isDefined =
          true := by decide
      simp only [Cone.intersectionWithSphere, hs, hc, hrays, hloop, Bool.not_true,
        Bool.false_eq_true, if_false]
      rfl

/-! ## Lemmas on the closest point -/

theorem closestLoop_spec (target : Vector3d) :
    ∀ (ps : List Point) (pointed : Point) (minDistance : Option ℚ),
      minDistance = pointed.squaredDistanceTo target →
      (PointSet.closestLoop target ps (pointed, minDistance)).2 =
        (PointSet.closestLoop target ps (pointed, minDistance)).1.squaredDistanceTo target ∧
      ((PointSet.closestLoop target ps (pointed, minDistance)).1 ∈ ps ∨
        (PointSet.closestLoop target ps (pointed, minDistance)).1 = pointed) ∧
      (ps ≠ [] → minDistance = none →
        (PointSet.closestLoop target ps (pointed, minDistance)).1 ∈ ps) ∧
      (∀ m : ℚ, minDistance = some m →
        ∃ e : ℚ, (PointSet.closestLoop target ps (pointed, minDistance)).2 = some e ∧ e ≤ m) ∧
      (∀ q ∈ ps, ∀ d : ℚ, q.squaredDistanceTo target = some d →
        ∃ e : ℚ, (PointSet.closestLoop target ps (pointed, minDistance)).2 = some e ∧ e ≤ d) := by
  intro ps
  induction ps with
  | nil =>
      intro pointed minDistance hinv
      refine ⟨hinv, Or.inr rfl, fun h => absurd rfl h, fun m hm => ⟨m, hm, le_refl m⟩, ?_⟩
      intro q hq
      cases hq
  | cons point rest ih =>
      intro pointed minDistance hinv
      by_cases htake : (minDistance.isNone || realLt (point.squaredDistanceTo target) minDistance)
          = true
      · have hstep : PointSet.closestLoop target (point :: rest) (pointed, minDistance) =
            PointSet.closestLoop target rest (point, point.squaredDistanceTo target) := by
          simp only [PointSet.closestLoop]
          rw [if_pos htake]
        rw [hstep]
        obtain ⟨i1, i2, _, i4, i5⟩ := ih point (point.squaredDistanceTo target) rfl
        refine ⟨i1, ?_, ?_, ?_, ?_⟩
        · left
          rcases i2 with h | h
          · exact List.mem_cons_of_mem _ h
          · rw [h]; exact List.mem_cons_self _ _
        · intro _ _
          rcases i2 with h | h
          · exact List.mem_cons_of_mem _ h
          · rw [h]; exact List.mem_cons_self _ _
        · intro m hm
          subst hm
          cases hd : point.squaredDistanceTo target with
          | none => simp [hd, realLt] at htake
          | some d =>
              have hlt : d < m := by simpa [hd, realLt] using htake
              rw [hd] at i4
              obtain ⟨e, he, hle⟩ := i4 d rfl
              exact ⟨e, he, le_trans hle (le_of_lt hlt)⟩
        · intro q hq d hd
          rcases List.mem_cons.mp hq with h | h
          · subst h
            exact i4 d hd
          · exact i5 q h d hd
      · have htake2 : (minDistance.isNone ||
            realLt (point.squaredDistanceTo target) minDistance) = false :=
          Bool.eq_false_iff.mpr htake
        have hstep : PointSet.closestLoop target (point :: rest) (pointed, minDistance) =
            PointSet.closestLoop target rest (pointed, minDistance) := by
          simp only [PointSet.closestLoop]
          rw [if_neg htake]
        rw [hstep]
        obtain ⟨i1, i2, _, i4, i5⟩ := ih pointed minDistance hinv
        cases hmin : minDistance with
        | none => simp [hmin] at htake2
        | some m =>
            have hnlt : realLt (point.squaredDistanceTo target) (some m) = false := by
              simpa [hmin] using htake2
            rw [hmin] at i1 i2 i4 i5
            refine ⟨i1, ?_, ?_, ?_, ?_⟩
            · rcases i2 with h | h
              · exact Or.inl (List.mem_cons_of_mem _ h)
              · exact Or.inr h
            · intro _ h
              cases h
            · intro m' hm'
              exact i4 m' hm'
            · intro q hq d hd
              rcases List.mem_cons.mp hq with h | h
              · subst h
                have hle : m ≤ d := by simpa [hd, realLt] using hnlt
                obtain ⟨e, he, hle2⟩ := i4 m rfl
                exact ⟨e, he, le_trans hle2 hle⟩
              · exact i5 q h d hd

theorem closestLoop_minimizer (target : Vector3d) (ps : List Point) (hne : ps ≠ []) :
    (PointSet.closestLoop target ps (Point.Undefined, none)).1 ∈ ps ∧
    (∀ q ∈ ps, ∀ d : ℚ, q.squaredDistanceTo target = some d →
      ∃ e : ℚ, (PointSet.closestLoop target ps (Point.Undefined, none)).1.squaredDistanceTo
        target = some e ∧ e ≤ d) := by
  obtain ⟨i1, _, i3, _, i5⟩ := closestLoop_spec target ps Point.Undefined none rfl
  refine ⟨i3 hne rfl, ?_⟩
  intro q hq d hd
  rw [← i1]
  exact i5 q hq d hd

/-! ## Lemmas on the inverse and on the composition of rotations -/

theorem mul_mk (ax ay az as bx by' bz bs : ℚ) :
    Quaternion.mul ⟨some ax, some ay, some az, some as⟩ ⟨some bx, some by', some bz, some bs⟩ =
      Except.ok ⟨some (bs * ax + as * bx - (ay * bz - az * by')),
        some (bs * ay + as * by' - (az * bx - ax * bz)),
        some (bs * az + as * bz - (ax * by' - ay * bx)),
        some (as * bs - (ax * bx + ay * by' + az * bz))⟩ := by
  simp [Quaternion.mul, Quaternion.isDefined, Quaternion.crossMultiply, Quaternion.parts,
    Quaternion.ofParts, Vector3d.smul, Vector3d.add, Vector3d.sub, Vector3d.cross, Vector3d.dot]

theorem mulVector_unitary (eps x y z s : ℚ) (v : Vector3d)
    (hu : |Quaternion.reducedNorm ⟨x, y, z⟩ s - 1| ≤ eps) :
    Quaternion.mulVector eps ⟨some x, some y, some z, some s⟩ (some v) =
      Except.ok (Quaternion.rotation ⟨x, y, z⟩ s v) := by
  simp [Quaternion.mulVector, Quaternion.rotateVector, Quaternion.isUnitary,
    Quaternion.isDefined, Quaternion.parts, hu, Quaternion.crossMultiply,
    Quaternion.ofParts, Quaternion.toConjugate, Quaternion.conjugate, Quaternion.ofInPlace,
    Quaternion.getVectorPart, Quaternion.rotation, Vector3d.neg]

theorem mulVector_not_unitary (eps x y z s : ℚ) (v : Vector3d)
    (hu : ¬ |Quaternion.reducedNorm ⟨x, y, z⟩ s - 1| ≤ eps) :
    Quaternion.mulVector eps ⟨some x, some y, some z, some s⟩ (some v) =
      Except.error (Error.RuntimeError "Quaternion with norm [\x7b\x7d] is not unitary.") := by
  simp [Quaternion.mulVector, Quaternion.rotateVector, Quaternion.isUnitary,
    Quaternion.isDefined, Quaternion.parts, hu]

theorem eraseNear_some (pointIsNear : Point → Point → Option ℚ → Except Error Bool)
    (firstPoint : Point) (aTolerance : Option ℚ) :
    ∀ (second erased : List Point),
      PointSet.eraseNear pointIsNear firstPoint aTolerance second = Except.ok (some erased) →
      ∃ matched : Point, pointIsNear firstPoint matched aTolerance = Except.ok true ∧
        List.Perm (matched :: erased) second := by
  intro second
  induction second with
  | nil =>
      intro erased h
      simp [PointSet.eraseNear] at h
  | cons secondPoint rest ih =>
      intro erased h
      simp only [PointSet.eraseNear] at h
      split at h
      · cases h
      · rename_i hnear
        injection h with h
        injection h with h
        subst h
        exact ⟨secondPoint, hnear, List.Perm.refl _⟩
      · split at h
        · cases h
        · cases h
        · rename_i erased' herased
          injection h with h
          injection h with h
          subst h
          obtain ⟨matched, hm, hperm⟩ := ih erased' herased
          exact ⟨matched, hm, (List.Perm.swap secondPoint matched erased').trans
            (List.Perm.cons secondPoint hperm)⟩

theorem eraseNear_returns (pointIsNear : Point → Point → Option ℚ → Except Error Bool)
    (firstPoint : Point) (aTolerance : Option ℚ)
    (htotal : ∀ a b : Point, ∃ r : Bool, pointIsNear a b aTolerance = Except.ok r) :
    ∀ second : List Point, ∃ r : Option (List Point),
      PointSet.eraseNear pointIsNear firstPoint aTolerance second = Except.ok r := by
  intro second
  induction second with
  | nil => exact ⟨none, rfl⟩
  | cons secondPoint rest ih =>
      obtain ⟨r, hr⟩ := htotal firstPoint secondPoint
      obtain ⟨r2, hr2⟩ := ih
      cases r with
      | true => exact ⟨some rest, by simp only [PointSet.eraseNear, hr]⟩
      | false =>
          cases r2 with
          | none => exact ⟨none, by simp only [PointSet.eraseNear, hr, hr2]⟩
          | some erased =>
              exact ⟨some (secondPoint :: erased), by simp only [PointSet.eraseNear, hr, hr2]⟩

theorem nearLoop_returns (pointIsNear : Point → Point → Option ℚ → Except Error Bool)
    (aTolerance : Option ℚ)
    (htotal : ∀ a b : Point, ∃ r : Bool, pointIsNear a b aTolerance = Except.ok r) :
    ∀ first second : List Point, ∃ r : Bool,
      PointSet.nearLoop pointIsNear aTolerance first second = Except.ok r := by
  intro first
  induction first with
  | nil => intro second; exact ⟨true, rfl⟩
  | cons firstPoint firstRest ih =>
      intro second
      obtain ⟨r, hr⟩ := eraseNear_returns pointIsNear firstPoint aTolerance htotal second
      cases r with
      | none => exact ⟨false, by simp only [PointSet.nearLoop, hr]⟩
      | some erased =>
          obtain ⟨r2, hr2⟩ := ih erased
          exact ⟨r2, by simp only [PointSet.nearLoop, hr, hr2]⟩

theorem nearLoop_sound (pointIsNear : Point → Point → Option ℚ → Except Error Bool)
    (aTolerance : Option ℚ) :
    ∀ first second : List Point,
      PointSet.nearLoop pointIsNear aTolerance first second = Except.ok true →
      ∃ paired unmatched : List Point, List.Perm (paired ++ unmatched) second ∧
        List.Forall₂ (fun a b => pointIsNear a b aTolerance = Except.ok true) first paired := by
  intro first
  induction first with
  | nil =>
      intro second _
      exact ⟨[], second, List.Perm.refl _, List.Forall₂.nil⟩
  | cons firstPoint firstRest ih =>
      intro second h
      simp only [PointSet.nearLoop] at h
      split at h
      · cases h
      · cases h
      · rename_i erased herased
        obtain ⟨matched, hm, hperm⟩ :=
          eraseNear_some pointIsNear firstPoint aTolerance second erased herased
        obtain ⟨paired, unmatched, hperm2, hall⟩ := ih erased h
        exact ⟨matched :: paired, unmatched,
          (List.Perm.cons matched hperm2).trans hperm, List.Forall₂.cons hm hall⟩

/-! ## Lemmas on the edges of a 2D polygon -/

theorem innerRingsLoop_spec (correct : List d2.Point → List d2.Point) :
    ∀ (rings : List (List d2.Point)) (polygon result : d2.BoostPolygon),
      d2.Polygon.Impl.innerRingsLoop correct rings polygon = Except.ok result →
      result.outer = polygon.outer ∧ result.inners = polygon.inners ++ rings.map correct ∧
        ∀ ring ∈ rings, 3 ≤ ring.length := by
  intro rings
  induction rings with
  | nil =>
      intro polygon result h
      simp only [d2.Polygon.Impl.innerRingsLoop] at h
      injection h with h
      subst h
      exact ⟨rfl, by simp, fun r hr => by cases hr⟩
  | cons ring rest ih =>
      intro polygon result h
      simp only [d2.Polygon.Impl.innerRingsLoop] at h
      by_cases hlen : ring.length < 3
      · rw [if_pos hlen] at h
        cases h
      · rw [if_neg hlen] at h
        obtain ⟨h1, h2, h3⟩ := ih _ result h
        refine ⟨h1, ?_, ?_⟩
        · rw [h2]
          simp
        · intro r hr
          rcases List.mem_cons.mp hr with e | e
          · subst e
            omega
          · exact h3 r e

theorem edgeCount_foldl (inners : List (List d2.Point)) :
    ∀ start : ℕ,
      inners.foldl (fun edgeCount innerRing => edgeCount + (innerRing.length - 1)) start =
        start + (inners.map (fun innerRing => innerRing.length - 1)).sum := by
  induction inners with
  | nil => intro start; simp
  | cons ring rest ih =>
      intro start
      simp only [List.foldl_cons, List.map_cons, List.sum_cons]
      rw [ih]
      omega

theorem num_points_foldl (inners : List (List d2.Point)) :
    ∀ start : ℕ,
      start ≤ inners.foldl (fun count innerRing => count + innerRing.length) start := by
  induction inners with
  | nil => intro start; simp
  | cons ring rest ih =>
      intro start
      simp only [List.foldl_cons]
      exact le_trans (Nat.le_add_right _ _) (ih _)

theorem inner_edges_pos (inners : List (List d2.Point)) (hne : inners ≠ [])
    (hlen : ∀ ring ∈ inners, 2 ≤ ring.length) :
    0 < (inners.map (fun innerRing => innerRing.length - 1)).sum := by
  cases inners with
  | nil => exact absurd rfl hne
  | cons ring rest =>
      have h := hlen ring (List.mem_cons_self _ _)
      simp only [List.map_cons, List.sum_cons]
      omega

theorem getVertexAt_outer (impl : d2.Polygon.Impl) (i : ℕ)
    (hi : i < impl.polygon_.outer.length - 1) :
    ∃ vertex : d2.Point, impl.polygon_.outer.get? i = some vertex ∧
      impl.getVertexAt i = Except.ok vertex := by
  have hnum : impl.polygon_.outer.length ≤ impl.polygon_.num_points :=
    num_points_foldl impl.polygon_.inners _
  have h1 : ¬ i ≥ impl.polygon_.num_points - 1 := by omega
  have h2 : ¬ i ≥ impl.polygon_.outer.length - 1 := by omega
  have hlt : i < impl.polygon_.outer.length := by omega
  refine ⟨impl.polygon_.outer.get ⟨i, hlt⟩, List.get?_eq_get hlt, ?_⟩
  simp only [d2.Polygon.Impl.getVertexAt, if_neg h1, if_neg h2, List.get?_eq_get hlt]

theorem getEdgeAt_outer (impl : d2.Polygon.Impl) (i : ℕ)
    (hi : i < impl.getOuterRingEdgeCount) :
    ∃ first second : d2.Point,
      impl.getVertexAt i = Except.ok first ∧
      impl.getVertexAt (if i + 1 < impl.getOuterRingEdgeCount then i + 1 else 0) =
        Except.ok second ∧
      impl.getEdgeAt i = Except.ok ⟨first, second⟩ := by
  have hcount : impl.getOuterRingEdgeCount ≤ impl.getEdgeCount := by
    simp only [d2.Polygon.Impl.getOuterRingEdgeCount, d2.Polygon.Impl.getEdgeCount]
    rw [edgeCount_foldl]
    exact Nat.le_add_right _ _
  have hE : impl.getOuterRingEdgeCount = impl.polygon_.outer.length - 1 := rfl
  obtain ⟨first, _, hfirst⟩ := getVertexAt_outer impl i (by omega)
  have h1 : ¬ i ≥ impl.getEdgeCount := by omega
  have h2 : ¬ i ≥ impl.getOuterRingEdgeCount := by omega
  by_cases hlast : i + 1 < impl.getOuterRingEdgeCount
  · obtain ⟨second, _, hsecond⟩ := getVertexAt_outer impl (i + 1) (by omega)
    have hne : i ≠ impl.getOuterRingEdgeCount - 1 := by omega
    refine ⟨first, second, hfirst, by rw [if_pos hlast]; exact hsecond, ?_⟩
    simp only [d2.Polygon.Impl.getEdgeAt, if_neg h1, if_neg h2, hfirst, if_pos hne, hsecond]
  · obtain ⟨second, _, hsecond⟩ := getVertexAt_outer impl 0 (by omega)
    have hne : ¬ i ≠ impl.getOuterRingEdgeCount - 1 := by omega
    refine ⟨first, second, hfirst, by rw [if_neg hlast]; exact hsecond, ?_⟩
    simp only [d2.Polygon.Impl.getEdgeAt, if_neg h1, if_neg h2, hfirst, if_neg hne, hsecond]

theorem getEdgeAt_inner (impl : d2.Polygon.Impl)
    (h : impl.getOuterRingEdgeCount < impl.getEdgeCount) :
    impl.getEdgeAt impl.getOuterRingEdgeCount =
      Except.error (Error.ToBeImplemented "Inner ring edge access.") := by
  have h1 : ¬ impl.getOuterRingEdgeCount ≥ impl.getEdgeCount := by omega
  simp only [d2.Polygon.Impl.getEdgeAt, if_neg h1, ge_iff_le, le_refl, if_true]

theorem edgesLoop_ok (impl : d2.Polygon.Impl) :
    ∀ (indices : List ℕ) (edges : List d2.Segment),
      (∀ i ∈ indices, i < impl.getOuterRingEdgeCount) →
      ∃ added : List d2.Segment,
        d2.Polygon.Impl.edgesLoop impl indices edges = Except.ok (edges ++ added) ∧
        List.Forall₂ (fun i edge => impl.getEdgeAt i = Except.ok edge) indices added := by
  intro indices
  induction indices with
  | nil =>
      intro edges _
      exact ⟨[], by simp [d2.Polygon.Impl.edgesLoop], List.Forall₂.nil⟩
  | cons i rest ih =>
      intro edges hall
      obtain ⟨first, second, _, _, hedge⟩ :=
        getEdgeAt_outer impl i (hall i (List.mem_cons_self _ _))
      obtain ⟨added, hloop, hrel⟩ :=
        ih (edges ++ [⟨first, second⟩]) (fun j hj => hall j (List.mem_cons_of_mem _ hj))
      refine ⟨⟨first, second⟩ :: added, ?_, List.Forall₂.cons hedge hrel⟩
      simp only [d2.Polygon.Impl.edgesLoop, hedge, hloop, List.append_assoc,
        List.singleton_append]

theorem edgesLoop_fails (impl : d2.Polygon.Impl) (e : Error) (i : ℕ)
    (hfail : impl.getEdgeAt i = Except.error e) :
    ∀ (before after : List ℕ) (edges : List d2.Segment),
      (∀ j ∈ before, j < impl.getOuterRingEdgeCount) →
      d2.Polygon.Impl.edgesLoop impl (before ++ i :: after) edges = Except.error e := by
  intro before
  induction before with
  | nil =>
      intro after edges _
      simp only [List.nil_append, d2.Polygon.Impl.edgesLoop, hfail]
  | cons j rest ih =>
      intro after edges hall
      obtain ⟨first, second, _, _, hedge⟩ :=
        getEdgeAt_outer impl j (hall j (List.mem_cons_self _ _))
      simp only [List.cons_append, d2.Polygon.Impl.edgesLoop, hedge]
      exact ih after _ (fun k hk => hall k (List.mem_cons_of_mem _ hk))

theorem range_split (n k : ℕ) (h : k < n) :
    ∃ after : List ℕ, List.range n = List.range k ++ k :: after := by
  induction n with
  | zero => omega
  | succ m ih =>
      by_cases hk : k = m
      · subst hk
        exact ⟨[], by rw [List.range_succ]⟩
      · obtain ⟨after, hafter⟩ := ih (by omega)
        exact ⟨after ++ [m], by rw [List.range_succ, hafter]; simp⟩

theorem getEdges_outer_only (impl : d2.Polygon.Impl) (hinner : impl.polygon_.inners = []) :
    impl.getEdgeCount = impl.getOuterRingEdgeCount ∧
    ∃ edges : List d2.Segment, impl.getEdges = Except.ok edges ∧
      edges.length = impl.getEdgeCount ∧
      ∀ i : ℕ, i < impl.getEdgeCount →
        ∃ first second : d2.Point,
          impl.getVertexAt i = Except.ok first ∧
          impl.getVertexAt (if i + 1 < impl.getEdgeCount then i + 1 else 0) =
            Except.ok second ∧
          edges.get? i = some ⟨first, second⟩ := by
  have hcount : impl.getEdgeCount = impl.getOuterRingEdgeCount := by
    simp [d2.Polygon.Impl.getEdgeCount, d2.Polygon.Impl.getOuterRingEdgeCount, hinner]
  refine ⟨hcount, ?_⟩
  obtain ⟨added, hloop, hrel⟩ := edgesLoop_ok impl (List.range impl.getEdgeCount) []
    (fun i hi => by rw [← hcount]; exact List.mem_range.mp hi)
  rw [List.nil_append] at hloop
  have hlen : added.length = impl.getEdgeCount := by
    rw [← hrel.length_eq, List.length_range]
  refine ⟨added, hloop, hlen, ?_⟩
  intro i hi
  obtain ⟨first, second, hfirst, hsecond, hedge⟩ :=
    getEdgeAt_outer impl i (by rw [← hcount]; exact hi)
  rw [← hcount] at hsecond
  refine ⟨first, second, hfirst, hsecond, ?_⟩
  obtain ⟨_, hget⟩ := List.forall₂_iff_get.mp hrel
  have h1 : i < (List.range impl.getEdgeCount).length := by rw [List.length_range]; exact hi
  have h2 : i < added.length := by rw [hlen]; exact hi
  have h3 := hget i h1 h2
  simp only [List.get_eq_getElem, List.getElem_range] at h3
  rw [hedge] at h3
  injection h3 with h3
  rw [List.get?_eq_get h2, List.get_eq_getElem, ← h3]

theorem getEdges_with_inner (impl : d2.Polygon.Impl)
    (h : impl.getOuterRingEdgeCount < impl.getEdgeCount) :
    impl.getEdges = Except.error (Error.ToBeImplemented "Inner ring edge access.") := by
  obtain ⟨after, hsplit⟩ := range_split impl.getEdgeCount impl.getOuterRingEdgeCount h
  unfold d2.Polygon.Impl.getEdges
  rw [hsplit]
  exact edgesLoop_fails impl _ _ (getEdgeAt_inner impl h) _ _ _
    (fun j hj => List.mem_range.mp hj)

theorem closeRing_length (ring : List d2.Point) : ring.length ≤ (d2.closeRing ring).length := by
  cases ring with
  | nil => simp [d2.closeRing]
  | cons first rest =>
      simp only [d2.closeRing]
      split_ifs
      · exact le_refl _
      · simp

/-! ## Claims -/

/-- C1: classification by `TypeFromObjects`, as used by the public constructor: the
empty sequence is `Empty`; a non-empty sequence whose objects are all of one of the
twelve variants `V` is `V`; a sequence holding objects of two distinct variants is
`Complex`. -/
theorem typeFromObjects_classification :
    Intersection.TypeFromObjects [] = IntersectionType.Empty ∧
    (∀ (os : List Object) (V : IntersectionType), os ≠ [] → V.isVariant = true →
      (∀ o ∈ os, Intersection.TypeFromObject o = V) →
      Intersection.TypeFromObjects os = V) ∧
    (∀ (os : List Object) (o1 o2 : Object), o1 ∈ os → o2 ∈ os →
      (Intersection.TypeFromObject o1).isVariant = true →
      (Intersection.TypeFromObject o2).isVariant = true →
      Intersection.TypeFromObject o1 ≠ Intersection.TypeFromObject o2 →
      Intersection.TypeFromObjects os = IntersectionType.Complex) ∧
    (∀ os : List Object,
      (Intersection.ofObjects os).type_ = Intersection.TypeFromObjects os) := by
  refine ⟨rfl, ?_, ?_, fun _ => rfl⟩
  · intro os V hne hV hall
    have hU : V ≠ IntersectionType.Undefined := by
      intro h; rw [h] at hV; cases hV
    cases os with
    | nil => exact absurd rfl hne
    | cons o rest =>
        have ho : Intersection.TypeFromObject o = V := hall o (List.mem_cons_self _ _)
        have hrest : ∀ x ∈ rest, Intersection.TypeFromObject x = V :=
          fun x hx => hall x (List.mem_cons_of_mem _ hx)
        simp [Intersection.TypeFromObjects, Intersection.typeLoop, ho,
          typeLoop_same V hU rest hrest]
  · intro os o1 o2 h1 h2 v1 v2 hne
    cases os with
    | nil => cases h1
    | cons o rest =>
        have := typeLoop_two_variants (o :: rest) o1 o2 h1 h2 v1 v2 hne
        simpa [Intersection.TypeFromObjects] using this

/-- C1 (witness): three points classify as `Point`, and a point next to a sphere as
`Complex`. -/
theorem typeFromObjects_classification_witness :
    Intersection.TypeFromObjects
      [Object.aPoint (Point.mk ⟨0, 0, 0⟩), Object.aPoint (Point.mk ⟨1, 0, 0⟩),
        Object.aPoint Point.Undefined] = IntersectionType.Point ∧
    Intersection.TypeFromObjects
      [Object.aPoint (Point.mk ⟨0, 0, 0⟩), Object.aSphere (Sphere.Unit (Point.mk ⟨0, 0, 0⟩))] =
      IntersectionType.Complex :=
  ⟨typeFromObjects_classification.2.1 _ IntersectionType.Point (by simp) rfl
      (by intro o ho
          simp only [List.mem_cons, List.mem_singleton, List.not_mem_nil, or_false] at ho
          rcases ho with h | h | h <;> subst h <;> rfl),
    typeFromObjects_classification.2.2.1 _ (Object.aPoint (Point.mk ⟨0, 0, 0⟩))
      (Object.aSphere (Sphere.Unit (Point.mk ⟨0, 0, 0⟩)))
      (by simp) (by simp) rfl rfl (by decide)⟩

/-- C2 (counterexample): with `A` the intersection built from the one object
`Sphere::Undefined()`, and `B`, `C` empty, all three are defined and produced by the
public interface, yet `(A + B) + C == A + (B + C)` evaluates to false: the undefined
sphere is not equal to itself. -/
theorem concat_assoc_counterexample :
    (Intersection.ofObjects [Object.aSphere Sphere.Undefined]).Reachable ∧
    (Intersection.ofObjects [Object.aSphere Sphere.Undefined]).isDefined = true ∧
    Intersection.Empty.Reachable ∧
    Intersection.Empty.isDefined = true ∧
    (Intersection.ofObjects [Object.aSphere Sphere.Undefined]).assocTest
      Intersection.Empty Intersection.Empty = Except.ok false := by
  refine ⟨Intersection.Reachable.ofObjects _, by decide, Intersection.Reachable.ofObjects [],
    by decide, ?_⟩
  rfl

/-- C2 (amended): for all defined intersections `A`, `B`, `C` produced by the public
interface whose held objects each compare equal to themselves, both
concatenations succeed and `(A + B) + C == A + (B + C)` evaluates to true. -/
theorem concat_assoc_selfEqual (A B C : Intersection)
    (rA : A.Reachable) (rB : B.Reachable) (rC : C.Reachable)
    (hA : A.isDefined = true) (hB : B.isDefined = true) (hC : C.isDefined = true)
    (sA : A.SelfEqual) (sB : B.SelfEqual) (sC : C.SelfEqual) :
    A.assocTest B C = Except.ok true := by
  obtain ⟨_, as, hac⟩ := (isDefined_iff A).mp hA
  obtain ⟨_, bs, hbc⟩ := (isDefined_iff B).mp hB
  obtain ⟨_, cs, hcc⟩ := (isDefined_iff C).mp hC
  have ta := defined_type_ne A as rA hA hac
  have tb := defined_type_ne B bs rB hB hbc
  have tc := defined_type_ne C cs rC hC hcc
  have tbc := typeFromObjects_append_ne_undefined bs cs tb tc
  have tabc := typeFromObjects_append_ne_undefined as (bs ++ cs) ta tbc
  have hBC : (Intersection.mk (Intersection.TypeFromObjects (bs ++ cs))
      (Composite.mk (bs ++ cs))).isDefined = true := by
    simp [Intersection.isDefined, Composite.isDefined, tbc]
  have hself : ∀ o ∈ as ++ (bs ++ cs), o.eq o = true := by
    intro o ho
    rcases List.mem_append.mp ho with h | h
    · exact sA o (by rw [hac]; exact h)
    · rcases List.mem_append.mp h with h | h
      · exact sB o (by rw [hbc]; exact h)
      · exact sC o (by rw [hcc]; exact h)
  have hL : A.addLeft B C = Except.ok
      { type_ := Intersection.TypeFromObjects (as ++ (bs ++ cs)),
        composite_ := Composite.mk (as ++ (bs ++ cs)) } := by
    unfold Intersection.addLeft
    rw [add_mk A B as bs hac hbc hB]
    simp only
    rw [add_mk _ C (as ++ bs) cs rfl hcc hC, List.append_assoc]
  have hR : A.addRight B C = Except.ok
      { type_ := Intersection.TypeFromObjects (as ++ (bs ++ cs)),
        composite_ := Composite.mk (as ++ (bs ++ cs)) } := by
    unfold Intersection.addRight
    rw [add_mk B C bs cs hbc hcc hC]
    simp only
    rw [add_mk A _ as (bs ++ cs) hac rfl hBC]
  unfold Intersection.assocTest
  rw [hL, hR]
  simp [Intersection.eq, Intersection.isDefined, Composite.isDefined, tabc, Composite.eq,
    objectsEq_refl _ hself]

/-- C2 (witness): the amended statement at `A = Point (0, 0, 0)`, `B` the empty
intersection and `C = Point (1, 0, 0)`. -/
theorem concat_assoc_selfEqual_witness :
    (Intersection.Point (Point.mk ⟨0, 0, 0⟩)).assocTest Intersection.Empty
      (Intersection.Point (Point.mk ⟨1, 0, 0⟩)) = Except.ok true :=
  concat_assoc_selfEqual _ _ _ (Intersection.Reachable.Point _)
    (Intersection.Reachable.ofObjects []) (Intersection.Reachable.Point _)
    (by decide) (by decide) (by decide)
    (by intro o ho
        simp only [Intersection.Point, Composite.accessObjects, List.mem_singleton] at ho
        subst ho
        simp [Object.eq, Point.eq])
    (by intro o ho; cases ho)
    (by intro o ho
        simp only [Intersection.Point, Composite.accessObjects, List.mem_singleton] at ho
        subst ho
        simp [Object.eq, Point.eq])

/-- C3 (counterexample): the intersection `A` built from the one object
`Sphere::Undefined()` is defined, `A + Intersection::Empty ()` succeeds and returns
`A`, and `A + Intersection::Empty () == A` evaluates to false. -/
theorem concat_empty_counterexample :
    (Intersection.ofObjects [Object.aSphere Sphere.Undefined]).Reachable ∧
    (Intersection.ofObjects [Object.aSphere Sphere.Undefined]).isDefined = true ∧
    (Intersection.ofObjects [Object.aSphere Sphere.Undefined]).add Intersection.Empty =
      Except.ok (Intersection.ofObjects [Object.aSphere Sphere.Undefined]) ∧
    (Intersection.ofObjects [Object.aSphere Sphere.Undefined]).identityTest =
      Except.ok false := by
  refine ⟨Intersection.Reachable.ofObjects _, by decide, rfl, rfl⟩

/-- C3 (amended): for every defined intersection `A` produced by the public
interface whose held objects each compare equal to themselves,
`A + Intersection::Empty ()` does not fail, returns `A`, and
`A + Intersection::Empty () == A` evaluates to true. -/
theorem concat_empty_selfEqual (A : Intersection) (rA : A.Reachable)
    (hA : A.isDefined = true) (sA : A.SelfEqual) :
    A.add Intersection.Empty = Except.ok A ∧ A.identityTest = Except.ok true := by
  obtain ⟨hty, as, hac⟩ := (isDefined_iff A).mp hA
  have hcons := reachable_consistent A rA
  unfold Intersection.Consistent at hcons
  rw [hac] at hcons
  have hty2 : A.type_ = Intersection.TypeFromObjects as := hcons rfl
  have hadd : A.add Intersection.Empty = Except.ok A := by
    rw [add_mk A Intersection.Empty as [] hac rfl (by decide), List.append_nil, ← hty2, ← hac]
  refine ⟨hadd, ?_⟩
  unfold Intersection.identityTest
  rw [hadd]
  have hself : Composite.objectsEq as as = true :=
    objectsEq_refl as (fun o ho => sA o (by rw [hac]; exact ho))
  simp [Intersection.eq, hA, hac, Composite.eq, hself]

/-- C3 (witness): the amended statement at `A = Point (0, 0, 1)`. -/
theorem concat_empty_selfEqual_witness :
    (Intersection.Point (Point.mk ⟨0, 0, 1⟩)).add Intersection.Empty =
      Except.ok (Intersection.Point (Point.mk ⟨0, 0, 1⟩)) ∧
    (Intersection.Point (Point.mk ⟨0, 0, 1⟩)).identityTest = Except.ok true :=
  concat_empty_selfEqual _ (Intersection.Reachable.Point _) (by decide)
    (by intro o ho
        simp only [Intersection.Point, Composite.accessObjects, List.mem_singleton] at ho
        subst ho
        simp [Object.eq, Point.eq])

/-- C4: for defined `A` and `B`, `A + B` holds the objects of `A` followed by those
of `B`, and its type is `TypeFromObjects` of that merged sequence; `A += B` succeeds
and leaves `A` with that same value (`B` is a constant operand, it has no value
afterwards other than its own). `Point (p) + Point (q)` has type `Point` with two
objects and `Point (p) + PointSet (s)` has type `Complex`. -/
theorem concat_reclassifies (A B : Intersection)
    (hA : A.isDefined = true) (hB : B.isDefined = true) :
    A.add B = Except.ok
      { type_ := Intersection.TypeFromObjects
          (A.composite_.accessObjects ++ B.composite_.accessObjects),
        composite_ := Composite.mk (A.composite_.accessObjects ++ B.composite_.accessObjects) } ∧
    A.addAssign B = (Except.ok (),
      { type_ := Intersection.TypeFromObjects
          (A.composite_.accessObjects ++ B.composite_.accessObjects),
        composite_ := Composite.mk (A.composite_.accessObjects ++ B.composite_.accessObjects) }) ∧
    (∀ p q : Point, (Intersection.Point p).add (Intersection.Point q) = Except.ok
      { type_ := IntersectionType.Point,
        composite_ := Composite.mk [Object.aPoint p, Object.aPoint q] }) ∧
    (∀ (p : Point) (s : PointSet),
      (Intersection.Point p).add (Intersection.PointSet s) = Except.ok
        { type_ := IntersectionType.Complex,
          composite_ := Composite.mk [Object.aPoint p, Object.aPointSet s] }) := by
  obtain ⟨_, as, hac⟩ := (isDefined_iff A).mp hA
  obtain ⟨_, bs, hbc⟩ := (isDefined_iff B).mp hB
  refine ⟨?_, ?_, ?_, ?_⟩
  · rw [add_mk A B as bs hac hbc hB, hac, hbc]; rfl
  · rw [addAssign_mk A B as bs hac hbc hB, hac, hbc]; rfl
  · intro p q; rfl
  · intro p s; rfl

/-- C4 (witness): `Point (0, 0, 0) + Point (0, 0, 1)`. -/
theorem concat_reclassifies_witness :
    (Intersection.Point (Point.mk ⟨0, 0, 0⟩)).add (Intersection.Point (Point.mk ⟨0, 0, 1⟩)) =
      Except.ok
        { type_ := IntersectionType.Point,
          composite_ := Composite.mk
            [Object.aPoint (Point.mk ⟨0, 0, 0⟩), Object.aPoint (Point.mk ⟨0, 0, 1⟩)] } :=
  (concat_reclassifies (Intersection.Point (Point.mk ⟨0, 0, 0⟩))
    (Intersection.Point (Point.mk ⟨0, 0, 1⟩)) (by decide) (by decide)).1

/-- C5 (failing input): `A` is built by the public constructor from one object of a
kind that `TypeFromObject` does not test for, and `B = Point (0, 0, 0)`. Although
`A` is not defined, `A + B` and `A += B` succeed. -/
theorem concat_undefined_left_succeeds :
    (Intersection.ofObjects [Object.anOther ⟨true, [0, 0, 1]⟩]).isDefined = false ∧
    (Intersection.Point (Point.mk ⟨0, 0, 0⟩)).isDefined = true ∧
    (Intersection.ofObjects [Object.anOther ⟨true, [0, 0, 1]⟩]).add
        (Intersection.Point (Point.mk ⟨0, 0, 0⟩)) =
      Except.ok
        { type_ := IntersectionType.Point,
          composite_ := Composite.mk
            [Object.anOther ⟨true, [0, 0, 1]⟩, Object.aPoint (Point.mk ⟨0, 0, 0⟩)] } ∧
    ((Intersection.ofObjects [Object.anOther ⟨true, [0, 0, 1]⟩]).addAssign
        (Intersection.Point (Point.mk ⟨0, 0, 0⟩))).1 = Except.ok () := by
  refine ⟨by decide, by decide, rfl, rfl⟩

/-- What does hold of a concatenation with an undefined operand: it fails with
`Undefined` when the right operand is not defined, and when the composite of the
left operand is not defined; the failed `+=` leaves the left operand as it was. -/
theorem concat_fails_undefined (A B : Intersection)
    (h : B.isDefined = false ∨ A.composite_.isDefined = false) :
    (∃ what, A.add B = Except.error (Error.Undefined what)) ∧
    (∃ what, A.addAssign B = (Except.error (Error.Undefined what), A)) := by
  by_cases hB : B.isDefined = true
  · have hA : A.composite_.isDefined = false := by
      rcases h with h | h
      · rw [h] at hB; cases hB
      · exact h
    cases hAc : A.composite_ with
    | mk as => rw [hAc] at hA; cases hA
    | Undefined =>
        refine ⟨⟨"Composite", ?_⟩, ⟨"Composite", ?_⟩⟩
        · simp [Intersection.add, hB, hAc, Composite.add]
        · cases A with
          | mk t c =>
              simp only at hAc
              subst hAc
              simp [Intersection.addAssign, hB, Composite.addAssign]
  · have hB2 : B.isDefined = false := by simpa using hB
    exact ⟨⟨"Intersection", by simp [Intersection.add, hB2]⟩,
      ⟨"Intersection", by simp [Intersection.addAssign, hB2]⟩⟩

/-- C6: `A == B` is false whenever `A` or `B` is undefined, so
`Undefined () == Undefined ()` is false; when both are defined it holds exactly when
the types are equal and the composites are equal; `A != B` is its negation. -/
theorem intersection_equality (A B : Intersection) :
    ((A.isDefined = false ∨ B.isDefined = false) → A.eq B = false) ∧
    (A.isDefined = true → B.isDefined = true →
      (A.eq B = true ↔ (A.type_ = B.type_ ∧ A.composite_.eq B.composite_ = true))) ∧
    A.ne B = !(A.eq B) ∧
    Intersection.Undefined.eq Intersection.Undefined = false := by
  refine ⟨?_, ?_, rfl, rfl⟩
  · rintro (h | h) <;> simp [Intersection.eq, h]
  · intro hA hB
    simp [Intersection.eq, hA, hB]

/-- C6 (witness): two defined point intersections compare by type and composite, and
an undefined operand makes the comparison false. -/
theorem intersection_equality_witness :
    (Intersection.Point (Point.mk ⟨0, 0, 1⟩)).eq (Intersection.Point (Point.mk ⟨0, 0, 1⟩)) = true ∧
    (Intersection.Point (Point.mk ⟨0, 0, 1⟩)).eq Intersection.Undefined = false :=
  ⟨((intersection_equality (Intersection.Point (Point.mk ⟨0, 0, 1⟩))
      (Intersection.Point (Point.mk ⟨0, 0, 1⟩))).2.1 (by decide) (by decide)).mpr
      ⟨rfl, by simp [Intersection.Point, Composite.eq, Composite.objectsEq, Object.eq, Point.eq]⟩,
    (intersection_equality (Intersection.Point (Point.mk ⟨0, 0, 1⟩))
      Intersection.Undefined).1 (Or.inr (by decide))⟩

/-- C7 (counterexample): the unit sphere centred at `(0, 0, 0)` and the ray of origin
`(0, 0, 1)` and direction `(0, 0, 1)`. The origin is on the surface and is the only
point of the ray on the sphere, so the solver reports it as the one candidate; the
sphere contains it, it is not discarded, and the result is `Point ((0, 0, 1))`, not
`Empty`. Whatever the solver reports, the result is `Empty` on this input only if
the solver reports that the ray does not meet the sphere. -/
theorem ray_on_surface_counterexample :
    ((⟨0, 0, 1⟩ : Vector3d).sub ⟨0, 0, 0⟩).squaredNorm = 1 * 1 ∧
    (∀ t : ℚ, 0 ≤ t →
      ((((Vector3d.along ⟨0, 0, 1⟩ ⟨0, 0, 1⟩ t).sub ⟨0, 0, 0⟩).squaredNorm = 1 * 1) ↔ t = 0)) ∧
    Sphere.intersectionWithRay (fun _ _ _ _ => ⟨true, 1, (⟨0, 0, 1⟩, ⟨0, 0, 1⟩)⟩)
        (1 / 1000000000000000) (Sphere.Unit (Point.mk ⟨0, 0, 0⟩))
        ⟨Point.mk ⟨0, 0, 1⟩, some ⟨0, 0, 1⟩⟩ false =
      Except.ok (Intersection.Point (Point.mk ⟨0, 0, 1⟩)) ∧
    Intersection.Point (Point.mk ⟨0, 0, 1⟩) ≠ Intersection.Empty ∧
    (∀ Q : GteQuery,
      Sphere.intersectionWithRay Q (1 / 1000000000000000) (Sphere.Unit (Point.mk ⟨0, 0, 0⟩))
          ⟨Point.mk ⟨0, 0, 1⟩, some ⟨0, 0, 1⟩⟩ false = Except.ok Intersection.Empty →
      (Q ⟨0, 0, 1⟩ ⟨0, 0, 1⟩ ⟨0, 0, 0⟩ 1).intersect = false) := by
  refine ⟨by norm_num [Vector3d.sub, Vector3d.squaredNorm], ?_, ?_, by decide, ?_⟩
  · intro t ht
    simp only [Vector3d.along, Vector3d.sub, Vector3d.squaredNorm]
    constructor
    · intro h
      nlinarith
    · intro h
      subst h
      norm_num
  · simp only [Sphere.intersectionWithRay, Sphere.Unit, discardsOrigin_mk]
    norm_num [Sphere.Discarded, Vector3d.sub, Vector3d.squaredNorm]
  · intro Q h
    by_contra hi
    have hi2 : (Q ⟨0, 0, 1⟩ ⟨0, 0, 1⟩ ⟨0, 0, 0⟩ 1).intersect = true := by simpa using hi
    have hkeep : ∀ candidate : Vector3d,
        ¬ Sphere.Discarded (1 / 1000000000000000) ⟨0, 0, 0⟩ 1 ⟨0, 0, 1⟩ candidate := by
      rintro candidate ⟨hc, hge⟩
      subst hc
      norm_num [Vector3d.sub, Vector3d.squaredNorm] at hge
    simp only [Sphere.intersectionWithRay, Sphere.Unit, hi2, if_true, discardsOrigin_mk,
      rayTwoPoints_mk, hkeep, if_false, decide_False] at h
    by_cases h1 : (Q ⟨0, 0, 1⟩ ⟨0, 0, 1⟩ ⟨0, 0, 0⟩ 1).numIntersections = 1
    · simp [h1, Intersection.Point, Intersection.Empty, Intersection.ofObjects] at h
    · by_cases h2 : (Q ⟨0, 0, 1⟩ ⟨0, 0, 1⟩ ⟨0, 0, 0⟩ 1).numIntersections = 2
      · simp [h2, Sphere.inSightOrBoth, Intersection.PointSet, Intersection.Empty,
          Intersection.ofObjects] at h
      · simp [h1, h2] at h

/-- C7 (amended): for every sphere and every ray whose origin lies exactly on the
surface of the sphere, the origin is contained in the sphere and is never
discarded. When the solver reports the origin as the one candidate (the ray is aimed
away), the result is `Point (origin)`; when it reports the origin and a second point
`F` (the ray is aimed into the sphere), the result is `PointSet ({origin, F})`, and
`Point (origin)` when `onlyInSight` is set. -/
theorem ray_on_surface_keeps_origin (FIQuery : GteQuery) (eps : ℚ) (heps : 0 < eps)
    (origin direction center : Vector3d) (radius : ℚ)
    (hsurf : (origin.sub center).squaredNorm = radius * radius) :
    (∀ other : Vector3d,
      FIQuery origin direction center radius = ⟨true, 1, (origin, other)⟩ →
      ∀ onlyInSight : Bool,
        Sphere.intersectionWithRay FIQuery eps ⟨Point.mk center, some radius⟩
            ⟨Point.mk origin, some direction⟩ onlyInSight =
          Except.ok (Intersection.Point (Point.mk origin))) ∧
    (∀ F : Vector3d,
      FIQuery origin direction center radius = ⟨true, 2, (origin, F)⟩ →
      Sphere.intersectionWithRay FIQuery eps ⟨Point.mk center, some radius⟩
          ⟨Point.mk origin, some direction⟩ false =
        Except.ok (Intersection.PointSet (PointSet.ofArray [Point.mk origin, Point.mk F])) ∧
      Sphere.intersectionWithRay FIQuery eps ⟨Point.mk center, some radius⟩
          ⟨Point.mk origin, some direction⟩ true =
        Except.ok (Intersection.Point (Point.mk origin))) := by
  have hkeep : ∀ candidate : Vector3d,
      ¬ Sphere.Discarded eps center radius origin candidate := by
    rintro candidate ⟨hc, hge⟩
    subst hc
    rw [hsurf, sub_self, abs_zero] at hge
    exact absurd heps (not_lt.mpr hge)
  have hzero : (origin.sub origin).squaredNorm = 0 := by
    simp [Vector3d.sub, Vector3d.squaredNorm]
  have hnonneg : ∀ F : Vector3d, ¬ (F.sub origin).squaredNorm < (origin.sub origin).squaredNorm := by
    intro F
    rw [hzero, not_lt]
    exact add_nonneg (add_nonneg (mul_self_nonneg _) (mul_self_nonneg _)) (mul_self_nonneg _)
  refine ⟨?_, ?_⟩
  · intro other hq onlyInSight
    simp [Sphere.intersectionWithRay, hq, discardsOrigin_mk, hkeep]
  · intro F hq
    constructor
    · simp [Sphere.intersectionWithRay, hq, rayTwoPoints_mk, hkeep, Sphere.inSightOrBoth]
    · simp [Sphere.intersectionWithRay, hq, rayTwoPoints_mk, hkeep, Sphere.inSightOrBoth,
        closestLoop_pair, hnonneg]

/-- C7 (witness): the amended statement at the unit sphere centred at `(0, 0, 0)` and
the ray of origin `(0, 0, 1)` and direction `(0, 0, 1)`. -/
theorem ray_on_surface_keeps_origin_witness :
    Sphere.intersectionWithRay (fun _ _ _ _ => ⟨true, 1, (⟨0, 0, 1⟩, ⟨0, 0, 1⟩)⟩)
        (1 / 1000000000000000) ⟨Point.mk ⟨0, 0, 0⟩, some 1⟩
        ⟨Point.mk ⟨0, 0, 1⟩, some ⟨0, 0, 1⟩⟩ true =
      Except.ok (Intersection.Point (Point.mk ⟨0, 0, 1⟩)) :=
  (ray_on_surface_keeps_origin (fun _ _ _ _ => ⟨true, 1, (⟨0, 0, 1⟩, ⟨0, 0, 1⟩)⟩)
    (1 / 1000000000000000) (by norm_num) ⟨0, 0, 1⟩ ⟨0, 0, 1⟩ ⟨0, 0, 0⟩ 1
    (by norm_num [Vector3d.sub, Vector3d.squaredNorm])).1 ⟨0, 0, 1⟩ rfl true

/-- C8: `Sphere::intersectionWith (aLine)` for a defined sphere and a defined line:
when the solver reports no intersection the result is `Empty`; when it reports one
point `P` the result is `Point (P)`, without any discard; when it reports two points
`P1`, `P2` the result is `PointSet ({P1, P2})`. -/
theorem sphere_line_rule (FIQuery : GteQuery) (s : Sphere) (aLine : Line)
    (hs : s.isDefined = true) (hl : aLine.isDefined = true) :
    ∃ (origin direction center : Vector3d) (radius : ℚ),
      aLine = ⟨Point.mk origin, some direction⟩ ∧ s = ⟨Point.mk center, some radius⟩ ∧
      ((FIQuery origin direction center radius).intersect = false →
        s.intersectionWithLine FIQuery aLine = Except.ok Intersection.Empty) ∧
      (∀ P other : Vector3d,
        FIQuery origin direction center radius = ⟨true, 1, (P, other)⟩ →
        s.intersectionWithLine FIQuery aLine = Except.ok (Intersection.Point (Point.mk P))) ∧
      (∀ P1 P2 : Vector3d,
        FIQuery origin direction center radius = ⟨true, 2, (P1, P2)⟩ →
        s.intersectionWithLine FIQuery aLine =
          Except.ok (Intersection.PointSet (PointSet.ofArray [Point.mk P1, Point.mk P2]))) := by
  obtain ⟨center, radius, rfl⟩ := (sphere_isDefined_iff s).mp hs
  obtain ⟨origin, direction, rfl⟩ := (line_isDefined_iff aLine).mp hl
  refine ⟨origin, direction, center, radius, rfl, rfl, ?_, ?_, ?_⟩
  · intro h
    simp [Sphere.intersectionWithLine, h]
  · intro P other h
    simp [Sphere.intersectionWithLine, h]
  · intro P1 P2 h
    simp [Sphere.intersectionWithLine, h]

/-- C8 (witness): the unit sphere centred at `(0, 0, 0)` and the line through
`(0, 0, -5)` of direction `(0, 0, 1)`. The line meets the sphere at the parameters
4 and 6 only, that is at `(0, 0, -1)` and `(0, 0, 1)`; with the solver reporting
these two points the result is `PointSet ({(0, 0, -1), (0, 0, 1)})`. -/
theorem sphere_line_rule_witness :
    (∀ t : ℚ, (((Vector3d.along ⟨0, 0, -5⟩ ⟨0, 0, 1⟩ t).sub ⟨0, 0, 0⟩).squaredNorm = 1 * 1 ↔
      (t = 4 ∨ t = 6))) ∧
    Vector3d.along ⟨0, 0, -5⟩ ⟨0, 0, 1⟩ 4 = ⟨0, 0, -1⟩ ∧
    Vector3d.along ⟨0, 0, -5⟩ ⟨0, 0, 1⟩ 6 = ⟨0, 0, 1⟩ ∧
    Sphere.intersectionWithLine (fun _ _ _ _ => ⟨true, 2, (⟨0, 0, -1⟩, ⟨0, 0, 1⟩)⟩)
        (Sphere.Unit (Point.mk ⟨0, 0, 0⟩)) ⟨Point.mk ⟨0, 0, -5⟩, some ⟨0, 0, 1⟩⟩ =
      Except.ok (Intersection.PointSet
        (PointSet.ofArray [Point.mk ⟨0, 0, -1⟩, Point.mk ⟨0, 0, 1⟩])) := by
  refine ⟨?_, by norm_num [Vector3d.along], by norm_num [Vector3d.along], ?_⟩
  · intro t
    simp only [Vector3d.along, Vector3d.sub, Vector3d.squaredNorm]
    constructor
    · intro h
      have h2 : (t - 4) * (t - 6) = 0 := by nlinarith
      rcases mul_eq_zero.mp h2 with h3 | h3
      · left; linarith
      · right; linarith
    · rintro (h | h) <;> subst h <;> norm_num
  · obtain ⟨_, _, _, _, _, _, _, _, h⟩ :=
      sphere_line_rule (fun _ _ _ _ => ⟨true, 2, (⟨0, 0, -1⟩, ⟨0, 0, 1⟩)⟩)
        (Sphere.Unit (Point.mk ⟨0, 0, 0⟩)) ⟨Point.mk ⟨0, 0, -5⟩, some ⟨0, 0, 1⟩⟩
        (by decide) (by decide)
    exact h _ _ rfl

/-- C9: in `Sphere::intersectionWith (aRay, onlyInSight)`, for a sphere and a ray
that are both defined, when the solver reports exactly one candidate `P`, the result is
`Empty` if `P` equals the ray origin and the sphere does not contain `P`, and is
`Point (P)` in every other case. -/
theorem ray_tangency_rule (FIQuery : GteQuery) (eps : ℚ) (s : Sphere) (aRay : Ray)
    (onlyInSight : Bool) (hs : s.isDefined = true) (hr : aRay.isDefined = true) :
    ∃ (origin direction center : Vector3d) (radius : ℚ),
      aRay = ⟨Point.mk origin, some direction⟩ ∧ s = ⟨Point.mk center, some radius⟩ ∧
      ∀ P other : Vector3d,
        FIQuery origin direction center radius = ⟨true, 1, (P, other)⟩ →
        ((P = origin ∧ eps ≤ |(P.sub center).squaredNorm - radius * radius|) →
          s.intersectionWithRay FIQuery eps aRay onlyInSight =
            Except.ok Intersection.Empty) ∧
        (¬ (P = origin ∧ eps ≤ |(P.sub center).squaredNorm - radius * radius|) →
          s.intersectionWithRay FIQuery eps aRay onlyInSight =
            Except.ok (Intersection.Point (Point.mk P))) := by
  obtain ⟨center, radius, rfl⟩ := (sphere_isDefined_iff s).mp hs
  obtain ⟨origin, direction, rfl⟩ := (ray_isDefined_iff aRay).mp hr
  refine ⟨origin, direction, center, radius, rfl, rfl, ?_⟩
  intro P other hq
  constructor
  · intro h
    have hd : Sphere.Discarded eps center radius origin P := h
    simp [Sphere.intersectionWithRay, hq, discardsOrigin_mk, hd]
  · intro h
    have hd : ¬ Sphere.Discarded eps center radius origin P := h
    simp [Sphere.intersectionWithRay, hq, discardsOrigin_mk, hd]

/-- C9 (witness): the unit sphere centred at `(0, 0, 0)` and the ray of origin
`(1, 0, -5)` and direction `(0, 0, 1)`, tangent at `(1, 0, 0)`: the candidate is not
the origin and the result is `Point ((1, 0, 0))`. -/
theorem ray_tangency_rule_witness :
    Sphere.intersectionWithRay (fun _ _ _ _ => ⟨true, 1, (⟨1, 0, 0⟩, ⟨1, 0, 0⟩)⟩)
        (1 / 1000000000000000) (Sphere.Unit (Point.mk ⟨0, 0, 0⟩))
        ⟨Point.mk ⟨1, 0, -5⟩, some ⟨0, 0, 1⟩⟩ false =
      Except.ok (Intersection.Point (Point.mk ⟨1, 0, 0⟩)) := by
  obtain ⟨origin, _, _, _, hray, _, h⟩ :=
    ray_tangency_rule (fun _ _ _ _ => ⟨true, 1, (⟨1, 0, 0⟩, ⟨1, 0, 0⟩)⟩)
      (1 / 1000000000000000) (Sphere.Unit (Point.mk ⟨0, 0, 0⟩))
      ⟨Point.mk ⟨1, 0, -5⟩, some ⟨0, 0, 1⟩⟩ false (by decide) (by decide)
  have ho : origin = ⟨1, 0, -5⟩ := by
    injection hray with h1 _
    injection h1 with h2
    exact h2.symm
  refine (h ⟨1, 0, 0⟩ ⟨1, 0, 0⟩ rfl).2 ?_
  rintro ⟨h1, _⟩
  rw [ho] at h1
  have hx := congrArg Vector3d.z h1
  norm_num at hx

/-- C10: in `Sphere::intersectionWith (aRay, onlyInSight)`, for a sphere and a ray
that are both defined, when the solver reports two candidates `P1`, `P2`, a candidate being
discarded when it equals the ray origin and is not contained in the sphere: if
exactly one candidate survives the result is `Point` of the survivor; if both
survive the result is `PointSet ({P1, P2})` when `onlyInSight` is false, and `Point`
of a candidate that is at least as close to the ray origin as both when it is
true. -/
theorem ray_two_candidates_rule (FIQuery : GteQuery) (eps : ℚ) (s : Sphere) (aRay : Ray)
    (onlyInSight : Bool) (hs : s.isDefined = true) (hr : aRay.isDefined = true) :
    ∃ (origin direction center : Vector3d) (radius : ℚ),
      aRay = ⟨Point.mk origin, some direction⟩ ∧ s = ⟨Point.mk center, some radius⟩ ∧
      ∀ P1 P2 : Vector3d,
        FIQuery origin direction center radius = ⟨true, 2, (P1, P2)⟩ →
        (Sphere.Discarded eps center radius origin P1 →
          ¬ Sphere.Discarded eps center radius origin P2 →
          s.intersectionWithRay FIQuery eps aRay onlyInSight =
            Except.ok (Intersection.Point (Point.mk P2))) ∧
        (¬ Sphere.Discarded eps center radius origin P1 →
          Sphere.Discarded eps center radius origin P2 →
          s.intersectionWithRay FIQuery eps aRay onlyInSight =
            Except.ok (Intersection.Point (Point.mk P1))) ∧
        (¬ Sphere.Discarded eps center radius origin P1 →
          ¬ Sphere.Discarded eps center radius origin P2 →
          onlyInSight = false →
          s.intersectionWithRay FIQuery eps aRay onlyInSight =
            Except.ok (Intersection.PointSet (PointSet.ofArray [Point.mk P1, Point.mk P2]))) ∧
        (¬ Sphere.Discarded eps center radius origin P1 →
          ¬ Sphere.Discarded eps center radius origin P2 →
          onlyInSight = true →
          ∃ Q : Vector3d,
            s.intersectionWithRay FIQuery eps aRay onlyInSight =
              Except.ok (Intersection.Point (Point.mk Q)) ∧
            (Q = P1 ∨ Q = P2) ∧
            (Q.sub origin).squaredNorm ≤ (P1.sub origin).squaredNorm ∧
            (Q.sub origin).squaredNorm ≤ (P2.sub origin).squaredNorm) := by
  obtain ⟨center, radius, rfl⟩ := (sphere_isDefined_iff s).mp hs
  obtain ⟨origin, direction, rfl⟩ := (ray_isDefined_iff aRay).mp hr
  refine ⟨origin, direction, center, radius, rfl, rfl, ?_⟩
  intro P1 P2 hq
  have hres : Sphere.intersectionWithRay FIQuery eps ⟨Point.mk center, some radius⟩
      ⟨Point.mk origin, some direction⟩ onlyInSight =
      Sphere.rayTwoPoints eps ⟨Point.mk center, some radius⟩ (Point.mk origin) (Point.mk P1)
        (Point.mk P2) onlyInSight := by
    simp [Sphere.intersectionWithRay, hq]
  rw [hres, rayTwoPoints_mk]
  refine ⟨?_, ?_, ?_, ?_⟩
  · intro h1 _
    simp [h1]
  · intro h1 h2
    simp [h1, h2]
  · intro h1 h2 hb
    simp [h1, h2, hb, Sphere.inSightOrBoth]
  · intro h1 h2 hb
    by_cases hlt : (P2.sub origin).squaredNorm < (P1.sub origin).squaredNorm
    · refine ⟨P2, ?_, Or.inr rfl, le_of_lt hlt, le_refl _⟩
      simp [h1, h2, hb, Sphere.inSightOrBoth, closestLoop_pair, hlt]
    · refine ⟨P1, ?_, Or.inl rfl, le_refl _, not_lt.mp hlt⟩
      simp [h1, h2, hb, Sphere.inSightOrBoth, closestLoop_pair, hlt]

/-- C10 (witness): the unit sphere centred at `(0, 0, 0)` and the ray from its centre
of direction `(0, 0, 1)`. The solver reports the origin and `(0, 0, 1)`; the origin
is not on the sphere and is discarded, and the result is `Point ((0, 0, 1))`. -/
theorem ray_two_candidates_rule_witness :
    Sphere.intersectionWithRay (fun _ _ _ _ => ⟨true, 2, (⟨0, 0, 0⟩, ⟨0, 0, 1⟩)⟩)
        (1 / 1000000000000000) (Sphere.Unit (Point.mk ⟨0, 0, 0⟩))
        ⟨Point.mk ⟨0, 0, 0⟩, some ⟨0, 0, 1⟩⟩ false =
      Except.ok (Intersection.Point (Point.mk ⟨0, 0, 1⟩)) := by
  obtain ⟨origin, _, center, radius, hray, hsph, h⟩ :=
    ray_two_candidates_rule (fun _ _ _ _ => ⟨true, 2, (⟨0, 0, 0⟩, ⟨0, 0, 1⟩)⟩)
      (1 / 1000000000000000) (Sphere.Unit (Point.mk ⟨0, 0, 0⟩))
      ⟨Point.mk ⟨0, 0, 0⟩, some ⟨0, 0, 1⟩⟩ false (by decide) (by decide)
  have ho : origin = ⟨0, 0, 0⟩ := by
    injection hray with h1 _
    injection h1 with h2
    exact h2.symm
  have hc : center = ⟨0, 0, 0⟩ ∧ radius = 1 := by
    unfold Sphere.Unit at hsph
    injection hsph with h1 h2
    injection h1 with h3
    injection h2 with h4
    exact ⟨h3.symm, h4.symm⟩
  obtain ⟨hc1, hc2⟩ := hc
  subst ho hc1 hc2
  refine (h ⟨0, 0, 0⟩ ⟨0, 0, 1⟩ rfl).1 ?_ ?_
  · refine ⟨rfl, ?_⟩
    norm_num [Vector3d.sub, Vector3d.squaredNorm]
  · rintro ⟨h1, _⟩
    have hz := congrArg Vector3d.z h1
    norm_num at hz

/-- C11: in `Sphere::intersectionWith (aSegment)`, for a sphere and a segment that are
both defined, when the solver reports two candidates `P1`, `P2` (two distinct
points), the result is what the discard rule gives when applied to each candidate
on its own, a candidate being discarded when it equals the first or the second end
point and the sphere does not contain it: both discarded gives `Empty`, one
surviving gives `Point` of the survivor, both surviving gives `PointSet ({P1, P2})`. -/
theorem segment_two_candidates_rule (FIQuery : GteQuery) (eps : ℚ) (s : Sphere)
    (aSegment : Segment) (hs : s.isDefined = true) (hg : aSegment.isDefined = true) :
    ∃ (first second center : Vector3d) (radius : ℚ),
      aSegment = ⟨Point.mk first, Point.mk second⟩ ∧ s = ⟨Point.mk center, some radius⟩ ∧
      ∀ P1 P2 : Vector3d, P1 ≠ P2 →
        FIQuery first second center radius = ⟨true, 2, (P1, P2)⟩ →
        (Sphere.SegmentDiscarded eps center radius first second P1 →
          Sphere.SegmentDiscarded eps center radius first second P2 →
          s.intersectionWithSegment FIQuery eps aSegment = Except.ok Intersection.Empty) ∧
        (Sphere.SegmentDiscarded eps center radius first second P1 →
          ¬ Sphere.SegmentDiscarded eps center radius first second P2 →
          s.intersectionWithSegment FIQuery eps aSegment =
            Except.ok (Intersection.Point (Point.mk P2))) ∧
        (¬ Sphere.SegmentDiscarded eps center radius first second P1 →
          Sphere.SegmentDiscarded eps center radius first second P2 →
          s.intersectionWithSegment FIQuery eps aSegment =
            Except.ok (Intersection.Point (Point.mk P1))) ∧
        (¬ Sphere.SegmentDiscarded eps center radius first second P1 →
          ¬ Sphere.SegmentDiscarded eps center radius first second P2 →
          s.intersectionWithSegment FIQuery eps aSegment =
            Except.ok (Intersection.PointSet (PointSet.ofArray [Point.mk P1, Point.mk P2]))) := by
  obtain ⟨center, radius, rfl⟩ := (sphere_isDefined_iff s).mp hs
  obtain ⟨first, second, rfl⟩ := (segment_isDefined_iff aSegment).mp hg
  refine ⟨first, second, center, radius, rfl, rfl, ?_⟩
  intro P1 P2 hne hq
  have hres : Sphere.intersectionWithSegment FIQuery eps ⟨Point.mk center, some radius⟩
      ⟨Point.mk first, Point.mk second⟩ =
      Sphere.segmentTwoPoints eps ⟨Point.mk center, some radius⟩ (Point.mk first)
        (Point.mk second) (Point.mk P1) (Point.mk P2) := by
    simp [Sphere.intersectionWithSegment, hq]
  have hx : ¬ (Sphere.Discarded eps center radius first P1 ∧
      Sphere.Discarded eps center radius first P2) :=
    fun h => hne (h.1.1.trans h.2.1.symm)
  have hy : ¬ (Sphere.Discarded eps center radius second P1 ∧
      Sphere.Discarded eps center radius second P2) :=
    fun h => hne (h.1.1.trans h.2.1.symm)
  rw [hres, segmentTwoPoints_mk]
  simp only [segmentBlock_mk, segmentDiscarded_iff]
  refine ⟨?_, ?_, ?_, ?_⟩ <;> intro h1 h2 <;> split_ifs <;>
    first
      | rfl
      | (exfalso; tauto)

/-- C11 (witness): the unit sphere centred at `(0, 0, 0)` and the segment from its
centre to `(0, 0, 2)`. The solver reports the first end point and `(0, 0, 1)`; the
end point is not on the sphere and is discarded, and the result is
`Point ((0, 0, 1))`. -/
theorem segment_two_candidates_rule_witness :
    Sphere.intersectionWithSegment (fun _ _ _ _ => ⟨true, 2, (⟨0, 0, 0⟩, ⟨0, 0, 1⟩)⟩)
        (1 / 1000000000000000) (Sphere.Unit (Point.mk ⟨0, 0, 0⟩))
        ⟨Point.mk ⟨0, 0, 0⟩, Point.mk ⟨0, 0, 2⟩⟩ =
      Except.ok (Intersection.Point (Point.mk ⟨0, 0, 1⟩)) := by
  obtain ⟨first, second, center, radius, hseg, hsph, h⟩ :=
    segment_two_candidates_rule (fun _ _ _ _ => ⟨true, 2, (⟨0, 0, 0⟩, ⟨0, 0, 1⟩)⟩)
      (1 / 1000000000000000) (Sphere.Unit (Point.mk ⟨0, 0, 0⟩))
      ⟨Point.mk ⟨0, 0, 0⟩, Point.mk ⟨0, 0, 2⟩⟩ (by decide) (by decide)
  have hf : first = ⟨0, 0, 0⟩ ∧ second = ⟨0, 0, 2⟩ := by
    injection hseg with h1 h2
    injection h1 with h3
    injection h2 with h4
    exact ⟨h3.symm, h4.symm⟩
  have hc : center = ⟨0, 0, 0⟩ ∧ radius = 1 := by
    unfold Sphere.Unit at hsph
    injection hsph with h1 h2
    injection h1 with h3
    injection h2 with h4
    exact ⟨h3.symm, h4.symm⟩
  obtain ⟨hf1, hf2⟩ := hf
  obtain ⟨hc1, hc2⟩ := hc
  subst hf1 hf2 hc1 hc2
  have hne : (⟨0, 0, 0⟩ : Vector3d) ≠ ⟨0, 0, 1⟩ := by
    intro e
    have hz := congrArg Vector3d.z e
    norm_num at hz
  refine (h ⟨0, 0, 0⟩ ⟨0, 0, 1⟩ hne rfl).2.1 ?_ ?_
  · refine ⟨Or.inl rfl, ?_⟩
    norm_num [Vector3d.sub, Vector3d.squaredNorm]
  · rintro ⟨h1 | h1, _⟩
    · exact hne h1.symm
    · have hz := congrArg Vector3d.z h1
      norm_num at hz

/-- Remark on C11: when the solver reports the same point twice, here the first end
point of the segment, off the sphere, the first block returns `Point` of the second
candidate although both candidates are discarded by the rule. -/
theorem segment_coincident_candidates :
    Sphere.SegmentDiscarded (1 / 1000000000000000) ⟨0, 0, 0⟩ 1 ⟨0, 0, 0⟩ ⟨0, 0, 2⟩ ⟨0, 0, 0⟩ ∧
    Sphere.intersectionWithSegment (fun _ _ _ _ => ⟨true, 2, (⟨0, 0, 0⟩, ⟨0, 0, 0⟩)⟩)
        (1 / 1000000000000000) (Sphere.Unit (Point.mk ⟨0, 0, 0⟩))
        ⟨Point.mk ⟨0, 0, 0⟩, Point.mk ⟨0, 0, 2⟩⟩ =
      Except.ok (Intersection.Point (Point.mk ⟨0, 0, 0⟩)) := by
  constructor
  · refine ⟨Or.inl rfl, ?_⟩
    norm_num [Vector3d.sub, Vector3d.squaredNorm]
  · have hd : Sphere.Discarded (1 / 1000000000000000) ⟨0, 0, 0⟩ 1 ⟨0, 0, 0⟩ ⟨0, 0, 0⟩ := by
      refine ⟨rfl, ?_⟩
      norm_num [Vector3d.sub, Vector3d.squaredNorm]
    have hn : ¬ Sphere.Discarded (1 / 1000000000000000) ⟨0, 0, 0⟩ 1 ⟨0, 0, 2⟩ ⟨0, 0, 0⟩ := by
      rintro ⟨h1, _⟩
      have hz := congrArg Vector3d.z h1
      norm_num at hz
    simp only [Sphere.intersectionWithSegment, Sphere.Unit, segmentTwoPoints_mk,
      segmentBlock_mk, if_true]
    rw [if_pos hd, if_neg hn, if_neg (by decide)]

/-- C12: with `onlyInSight` set, `Sphere::intersectionWith (aRay, true)` on a sphere
and a ray that are both defined never returns a `PointSet`: whatever it returns is
`Empty` or a single `Point`, and it does return whenever the solver reports one or
two points with an intersection. -/
theorem ray_in_sight_single (FIQuery : GteQuery) (eps : ℚ) (s : Sphere) (aRay : Ray)
    (hs : s.isDefined = true) (hr : aRay.isDefined = true) :
    (∀ I : Intersection, s.intersectionWithRay FIQuery eps aRay true = Except.ok I →
      (I = Intersection.Empty ∨ ∃ P : Vector3d, I = Intersection.Point (Point.mk P))) ∧
    (∀ set : PointSet,
      s.intersectionWithRay FIQuery eps aRay true ≠ Except.ok (Intersection.PointSet set)) ∧
    (∀ (origin direction center : Vector3d) (radius : ℚ),
      aRay = ⟨Point.mk origin, some direction⟩ → s = ⟨Point.mk center, some radius⟩ →
      ((FIQuery origin direction center radius).intersect = true →
        ((FIQuery origin direction center radius).numIntersections = 1 ∨
          (FIQuery origin direction center radius).numIntersections = 2)) →
      ∃ I : Intersection, s.intersectionWithRay FIQuery eps aRay true = Except.ok I) := by
  obtain ⟨center, radius, rfl⟩ := (sphere_isDefined_iff s).mp hs
  obtain ⟨origin, direction, rfl⟩ := (ray_isDefined_iff aRay).mp hr
  have key : Sphere.intersectionWithRay FIQuery eps ⟨Point.mk center, some radius⟩
      ⟨Point.mk origin, some direction⟩ true = Except.ok Intersection.Empty ∨
      (∃ P : Vector3d, Sphere.intersectionWithRay FIQuery eps ⟨Point.mk center, some radius⟩
        ⟨Point.mk origin, some direction⟩ true = Except.ok (Intersection.Point (Point.mk P))) ∨
      (Sphere.intersectionWithRay FIQuery eps ⟨Point.mk center, some radius⟩
          ⟨Point.mk origin, some direction⟩ true =
          Except.error (Error.RuntimeError "Intersection algorithm has failed.") ∧
        (FIQuery origin direction center radius).intersect = true ∧
        (FIQuery origin direction center radius).numIntersections ≠ 1 ∧
        (FIQuery origin direction center radius).numIntersections ≠ 2) := by
    by_cases hi : (FIQuery origin direction center radius).intersect = true
    · by_cases h1 : (FIQuery origin direction center radius).numIntersections = 1
      · by_cases hd : Sphere.Discarded eps center radius origin
            (FIQuery origin direction center radius).point.1
        · left
          simp [Sphere.intersectionWithRay, hi, h1, discardsOrigin_mk, hd]
        · right; left
          exact ⟨(FIQuery origin direction center radius).point.1,
            by simp [Sphere.intersectionWithRay, hi, h1, discardsOrigin_mk, hd]⟩
      · by_cases h2 : (FIQuery origin direction center radius).numIntersections = 2
        · right; left
          have hres : Sphere.intersectionWithRay FIQuery eps ⟨Point.mk center, some radius⟩
              ⟨Point.mk origin, some direction⟩ true =
              Sphere.rayTwoPoints eps ⟨Point.mk center, some radius⟩ (Point.mk origin)
                (Point.mk (FIQuery origin direction center radius).point.1)
                (Point.mk (FIQuery origin direction center radius).point.2) true := by
            simp [Sphere.intersectionWithRay, hi, h2]
          rw [hres, rayTwoPoints_mk]
          simp only [Sphere.inSightOrBoth, closestLoop_pair, if_true]
          split_ifs <;> exact ⟨_, rfl⟩
        · right; right
          exact ⟨by simp [Sphere.intersectionWithRay, hi, h1, h2], hi, h1, h2⟩
    · left
      simp [Sphere.intersectionWithRay, hi]
  refine ⟨?_, ?_, ?_⟩
  · intro I hI
    rcases key with h | ⟨P, h⟩ | ⟨h, _⟩
    · left; rw [h] at hI; injection hI with e; exact e.symm
    · right; rw [h] at hI; injection hI with e; exact ⟨P, e.symm⟩
    · rw [h] at hI; cases hI
  · intro set hset
    rcases key with h | ⟨P, h⟩ | ⟨h, _⟩
    · rw [h] at hset; injection hset with e
      simp [Intersection.Empty, Intersection.ofObjects, Intersection.PointSet] at e
    · rw [h] at hset; injection hset with e
      simp [Intersection.Point, Intersection.PointSet] at e
    · rw [h] at hset; cases hset
  · intro o d c r hray hsph hcontract
    injection hray with h1 h2
    injection h1 with h3
    injection h2 with h4
    injection hsph with h5 h6
    injection h5 with h7
    injection h6 with h8
    subst h3 h4 h7 h8
    rcases key with h | ⟨P, h⟩ | ⟨_, hi, hn1, hn2⟩
    · exact ⟨_, h⟩
    · exact ⟨_, h⟩
    · rcases hcontract hi with e | e
      · exact absurd e hn1
      · exact absurd e hn2

/-- C12 (witness): the unit sphere centred at `(0, 0, 0)` and the ray of origin
`(0, 0, -5)` and direction `(0, 0, 1)`, which crosses it at `(0, 0, -1)` and
`(0, 0, 1)`: whatever `intersectionWith (aRay, true)` returns is not the
`PointSet` of the two points. -/
theorem ray_in_sight_single_witness :
    Sphere.intersectionWithRay (fun _ _ _ _ => ⟨true, 2, (⟨0, 0, -1⟩, ⟨0, 0, 1⟩)⟩)
        (1 / 1000000000000000) (Sphere.Unit (Point.mk ⟨0, 0, 0⟩))
        ⟨Point.mk ⟨0, 0, -5⟩, some ⟨0, 0, 1⟩⟩ true ≠
      Except.ok (Intersection.PointSet
        (PointSet.ofArray [Point.mk ⟨0, 0, -1⟩, Point.mk ⟨0, 0, 1⟩])) :=
  (ray_in_sight_single (fun _ _ _ _ => ⟨true, 2, (⟨0, 0, -1⟩, ⟨0, 0, 1⟩)⟩)
    (1 / 1000000000000000) (Sphere.Unit (Point.mk ⟨0, 0, 0⟩))
    ⟨Point.mk ⟨0, 0, -5⟩, some ⟨0, 0, 1⟩⟩ (by decide) (by decide)).2.1 _

/-- C13: each of `Sphere::intersectionWith (aLine)`, `(aRay, onlyInSight)` and
`(aSegment)` fails with `Undefined` naming the linear primitive when the primitive
is undefined, with `Undefined ("Sphere")` when the primitive is defined and the
sphere is not, whatever the solver is; with both operands defined it raises no
`Undefined` error. -/
theorem sphere_intersector_preconditions (FIQuery : GteQuery) (eps : ℚ) (s : Sphere) :
    (∀ aLine : Line,
      (aLine.isDefined = false →
        s.intersectionWithLine FIQuery aLine = Except.error (Error.Undefined "Line")) ∧
      (aLine.isDefined = true → s.isDefined = false →
        s.intersectionWithLine FIQuery aLine = Except.error (Error.Undefined "Sphere")) ∧
      (aLine.isDefined = true → s.isDefined = true →
        ∀ what : String,
          s.intersectionWithLine FIQuery aLine ≠ Except.error (Error.Undefined what))) ∧
    (∀ (aRay : Ray) (onlyInSight : Bool),
      (aRay.isDefined = false →
        s.intersectionWithRay FIQuery eps aRay onlyInSight =
          Except.error (Error.Undefined "Ray")) ∧
      (aRay.isDefined = true → s.isDefined = false →
        s.intersectionWithRay FIQuery eps aRay onlyInSight =
          Except.error (Error.Undefined "Sphere")) ∧
      (aRay.isDefined = true → s.isDefined = true →
        ∀ what : String,
          s.intersectionWithRay FIQuery eps aRay onlyInSight ≠
            Except.error (Error.Undefined what))) ∧
    (∀ aSegment : Segment,
      (aSegment.isDefined = false →
        s.intersectionWithSegment FIQuery eps aSegment =
          Except.error (Error.Undefined "Segment")) ∧
      (aSegment.isDefined = true → s.isDefined = false →
        s.intersectionWithSegment FIQuery eps aSegment =
          Except.error (Error.Undefined "Sphere")) ∧
      (aSegment.isDefined = true → s.isDefined = true →
        ∀ what : String,
          s.intersectionWithSegment FIQuery eps aSegment ≠
            Except.error (Error.Undefined what))) := by
  refine ⟨?_, ?_, ?_⟩
  · intro aLine
    refine ⟨?_, ?_, ?_⟩
    · intro hl
      rcases aLine with ⟨o, d⟩
      cases o <;> cases d <;>
        simp [Line.isDefined, Point.isDefined] at hl <;> simp [Sphere.intersectionWithLine]
    · intro hl hs
      obtain ⟨origin, direction, rfl⟩ := (line_isDefined_iff aLine).mp hl
      rcases s with ⟨c, r⟩
      cases c <;> cases r <;>
        simp [Sphere.isDefined, Point.isDefined] at hs <;> simp [Sphere.intersectionWithLine]
    · intro hl hs
      obtain ⟨origin, direction, rfl⟩ := (line_isDefined_iff aLine).mp hl
      obtain ⟨center, radius, rfl⟩ := (sphere_isDefined_iff s).mp hs
      apply not_undefined_of_ok_or_failed
      simp only [Sphere.intersectionWithLine]
      split_ifs
      · exact Or.inl ⟨_, rfl⟩
      · exact Or.inl ⟨_, rfl⟩
      · exact Or.inr rfl
      · exact Or.inl ⟨_, rfl⟩
  · intro aRay onlyInSight
    refine ⟨?_, ?_, ?_⟩
    · intro hr
      rcases aRay with ⟨o, d⟩
      cases o <;> cases d <;>
        simp [Ray.isDefined, Point.isDefined] at hr <;> simp [Sphere.intersectionWithRay]
    · intro hr hs
      obtain ⟨origin, direction, rfl⟩ := (ray_isDefined_iff aRay).mp hr
      rcases s with ⟨c, r⟩
      cases c <;> cases r <;>
        simp [Sphere.isDefined, Point.isDefined] at hs <;> simp [Sphere.intersectionWithRay]
    · intro hr hs
      obtain ⟨origin, direction, rfl⟩ := (ray_isDefined_iff aRay).mp hr
      obtain ⟨center, radius, rfl⟩ := (sphere_isDefined_iff s).mp hs
      apply not_undefined_of_ok_or_failed
      simp only [Sphere.intersectionWithRay, discardsOrigin_mk]
      split_ifs
      · split
        · rename_i h; cases h
        · exact Or.inl ⟨_, rfl⟩
        · exact Or.inl ⟨_, rfl⟩
      · exact Or.inl (rayTwoPoints_returns eps center radius origin _ _ onlyInSight)
      · exact Or.inr rfl
      · exact Or.inl ⟨_, rfl⟩
  · intro aSegment
    refine ⟨?_, ?_, ?_⟩
    · intro hg
      rcases aSegment with ⟨a, b⟩
      cases a <;> cases b <;>
        simp [Segment.isDefined, Point.isDefined] at hg <;>
        simp [Sphere.intersectionWithSegment]
    · intro hg hs
      obtain ⟨first, second, rfl⟩ := (segment_isDefined_iff aSegment).mp hg
      rcases s with ⟨c, r⟩
      cases c <;> cases r <;>
        simp [Sphere.isDefined, Point.isDefined] at hs <;>
        simp [Sphere.intersectionWithSegment]
    · intro hg hs
      obtain ⟨first, second, rfl⟩ := (segment_isDefined_iff aSegment).mp hg
      obtain ⟨center, radius, rfl⟩ := (sphere_isDefined_iff s).mp hs
      apply not_undefined_of_ok_or_failed
      simp only [Sphere.intersectionWithSegment, discardsEndPoint_mk]
      split_ifs
      · split
        · rename_i h; cases h
        · exact Or.inl ⟨_, rfl⟩
        · exact Or.inl ⟨_, rfl⟩
      · exact Or.inl (segmentTwoPoints_returns eps center radius first second _ _)
      · exact Or.inr rfl
      · exact Or.inl ⟨_, rfl⟩

/-- C13 (witness): with the undefined ray the ray intersector fails with
`Undefined ("Ray")` even on the undefined sphere, and with a defined ray on the
undefined sphere it fails with `Undefined ("Sphere")`. -/
theorem sphere_intersector_preconditions_witness :
    Sphere.intersectionWithRay (fun _ _ _ _ => ⟨false, 0, (⟨0, 0, 0⟩, ⟨0, 0, 0⟩)⟩)
        (1 / 1000000000000000) Sphere.Undefined ⟨Point.Undefined, none⟩ false =
      Except.error (Error.Undefined "Ray") ∧
    Sphere.intersectionWithRay (fun _ _ _ _ => ⟨false, 0, (⟨0, 0, 0⟩, ⟨0, 0, 0⟩)⟩)
        (1 / 1000000000000000) Sphere.Undefined ⟨Point.mk ⟨0, 0, 1⟩, some ⟨0, 0, 1⟩⟩ false =
      Except.error (Error.Undefined "Sphere") :=
  ⟨((sphere_intersector_preconditions _ _ Sphere.Undefined).2.1 ⟨Point.Undefined, none⟩
      false).1 (by decide),
    ((sphere_intersector_preconditions _ _ Sphere.Undefined).2.1
      ⟨Point.mk ⟨0, 0, 1⟩, some ⟨0, 0, 1⟩⟩ false).2.1 (by decide) (by decide)⟩

/-- C14: for every defined quaternion `q = (x, y, z, s)`,
`q == Quaternion (-x, -y, -z, -s)` evaluates to true; `q == r` is false whenever `q`
or `r` is undefined; `!=` is the negation of `==`. -/
theorem quaternion_antipodal_equality (q r : Quaternion) :
    (q.isDefined = true → q.eq q.negated = true) ∧
    (∀ x y z s : ℚ,
      (Quaternion.XYZS (some x) (some y) (some z) (some s)).eq
        (Quaternion.XYZS (some (-x)) (some (-y)) (some (-z)) (some (-s))) = true) ∧
    ((q.isDefined = false ∨ r.isDefined = false) → q.eq r = false) ∧
    q.ne r = !(q.eq r) := by
  have key : ∀ x y z s : ℚ,
      (Quaternion.XYZS (some x) (some y) (some z) (some s)).eq
        (Quaternion.XYZS (some (-x)) (some (-y)) (some (-z)) (some (-s))) = true := by
    intro x y z s
    simp [Quaternion.eq, Quaternion.XYZS, Quaternion.ofComponents, Quaternion.isDefined,
      realEq, realNeg]
  refine ⟨?_, key, ?_, rfl⟩
  · intro hq
    obtain ⟨x, y, z, s, rfl⟩ := (quaternion_isDefined_iff q).mp hq
    exact key x y z s
  · rintro (h | h) <;> simp [Quaternion.eq, h]

/-- C14 (witness): `(0, 0, 0, 1) == (0, 0, 0, -1)` is true and
`Undefined () == Undefined ()` is false. -/
theorem quaternion_antipodal_equality_witness :
    Quaternion.Unit.eq Quaternion.Unit.negated = true ∧
    Quaternion.Undefined.eq Quaternion.Undefined = false :=
  ⟨(quaternion_antipodal_equality Quaternion.Unit Quaternion.Unit).1 (by decide),
    (quaternion_antipodal_equality Quaternion.Undefined Quaternion.Undefined).2.2.1
      (Or.inl (by decide))⟩

/-- C15: for every defined quaternion `q` that is unitary and every defined vector
`v`, `q * v` succeeds and `(-q) * v` returns the same vector, `-q` being `q` with
its four components negated. -/
theorem antipodal_rotation (eps : ℚ) (q : Quaternion) (v : Vector3d)
    (hq : q.isDefined = true) (hu : q.isUnitary eps = Except.ok true) :
    ∃ w : Vector3d, q.mulVector eps (some v) = Except.ok w ∧
      q.negated.mulVector eps (some v) = Except.ok w := by
  obtain ⟨x, y, z, s, rfl⟩ := (quaternion_isDefined_iff q).mp hq
  have hu2 : |Quaternion.reducedNorm ⟨x, y, z⟩ s - 1| ≤ eps := by
    simpa [Quaternion.isUnitary, parts_mk] using hu
  have hneg : Quaternion.reducedNorm ⟨-x, -y, -z⟩ (-s) = Quaternion.reducedNorm ⟨x, y, z⟩ s := by
    simp [Quaternion.reducedNorm]
  have hself : ∃ w : Vector3d,
      Quaternion.mulVector eps ⟨some x, some y, some z, some s⟩ (some v) = Except.ok w := by
    simp [Quaternion.mulVector, Quaternion.rotateVector, Quaternion.isUnitary,
      Quaternion.isDefined, Quaternion.parts, hu2, Quaternion.crossMultiply,
      Quaternion.ofParts, Quaternion.toConjugate, Quaternion.conjugate, Quaternion.ofInPlace,
      Quaternion.getVectorPart]
  have hsame : (Quaternion.mk (some x) (some y) (some z) (some s)).negated.mulVector eps (some v) =
      Quaternion.mulVector eps ⟨some x, some y, some z, some s⟩ (some v) := by
    simp [Quaternion.negated, Quaternion.XYZS, Quaternion.ofComponents, realNeg,
      Quaternion.mulVector, Quaternion.rotateVector, Quaternion.isUnitary,
      Quaternion.isDefined, Quaternion.parts, hneg, hu2, Quaternion.crossMultiply,
      Quaternion.ofParts, Quaternion.toConjugate, Quaternion.conjugate, Quaternion.ofInPlace,
      Quaternion.getVectorPart, Vector3d.smul, Vector3d.add, Vector3d.sub, Vector3d.cross,
      Vector3d.dot]
    refine ⟨?_, ?_, ?_⟩ <;> ring
  obtain ⟨w, hw⟩ := hself
  exact ⟨w, hw, hsame.trans hw⟩

/-- C15 (witness): the unit quaternion `(0, 0, 0, 1)` and the vector `(1, 2, 3)`. -/
theorem antipodal_rotation_witness :
    ∃ w : Vector3d,
      Quaternion.Unit.mulVector (1 / 1000000000000000) (some ⟨1, 2, 3⟩) = Except.ok w ∧
      Quaternion.Unit.negated.mulVector (1 / 1000000000000000) (some ⟨1, 2, 3⟩) = Except.ok w :=
  antipodal_rotation (1 / 1000000000000000) Quaternion.Unit ⟨1, 2, 3⟩ (by decide)
    (by norm_num [Quaternion.isUnitary, Quaternion.Unit, Quaternion.ofComponents,
      Quaternion.parts, Quaternion.reducedNorm])

/-- C16 (counterexample): with `p = (1, 0, 0, 0)` and `q = (0, 1, 0, 0)`, the product
`p * q` is `(0, 0, -1, 0)`, while the vector part `sp vq + sq vp + vp × vq` of the
claim is `(0, 0, 1)`. -/
theorem quaternion_product_counterexample :
    (Quaternion.ofParts ⟨1, 0, 0⟩ 0).mul (Quaternion.ofParts ⟨0, 1, 0⟩ 0) =
      Except.ok (Quaternion.ofParts ⟨0, 0, -1⟩ 0) ∧
    ((Vector3d.smul 0 ⟨0, 1, 0⟩).add (Vector3d.smul 0 ⟨1, 0, 0⟩)).add
      (Vector3d.cross ⟨1, 0, 0⟩ ⟨0, 1, 0⟩) = ⟨0, 0, 1⟩ ∧
    Quaternion.ofParts ⟨0, 0, -1⟩ 0 ≠ Quaternion.ofParts ⟨0, 0, 1⟩ 0 := by
  refine ⟨?_, ?_, ?_⟩
  · norm_num [Quaternion.mul, Quaternion.isDefined, Quaternion.ofParts,
      Quaternion.crossMultiply, Quaternion.parts, Vector3d.smul, Vector3d.add, Vector3d.sub,
      Vector3d.cross, Vector3d.dot]
  · norm_num [Vector3d.smul, Vector3d.add, Vector3d.cross]
  · norm_num [Quaternion.ofParts]

/-- C16 (amended): for all defined quaternions `p = (vp, sp)` and `q = (vq, sq)`,
`p * q` is `p.crossMultiply (q)`, with scalar part `sp sq - vp . vq` and vector part
`sp vq + sq vp - vp × vq`; it is `p.dotMultiply (q)` that has the vector part
`sp vq + sq vp + vp × vq`, and `p.crossMultiply (q)` is `q.dotMultiply (p)`. -/
theorem quaternion_product_rule (vp : Vector3d) (sp : ℚ) (vq : Vector3d) (sq : ℚ) :
    (Quaternion.ofParts vp sp).mul (Quaternion.ofParts vq sq) =
      (Quaternion.ofParts vp sp).crossMultiply (Quaternion.ofParts vq sq) ∧
    (Quaternion.ofParts vp sp).crossMultiply (Quaternion.ofParts vq sq) =
      Except.ok (Quaternion.ofParts
        (((Vector3d.smul sp vq).add (Vector3d.smul sq vp)).sub (vp.cross vq))
        (sp * sq - vp.dot vq)) ∧
    (Quaternion.ofParts vp sp).dotMultiply (Quaternion.ofParts vq sq) =
      Except.ok (Quaternion.ofParts
        (((Vector3d.smul sp vq).add (Vector3d.smul sq vp)).add (vp.cross vq))
        (sp * sq - vp.dot vq)) ∧
    (Quaternion.ofParts vp sp).crossMultiply (Quaternion.ofParts vq sq) =
      (Quaternion.ofParts vq sq).dotMultiply (Quaternion.ofParts vp sp) ∧
    (∀ p : Quaternion, p.isDefined = true → ∃ (v : Vector3d) (s : ℚ), p = Quaternion.ofParts v s) := by
  refine ⟨?_, ?_, ?_, ?_, ?_⟩
  · simp [Quaternion.mul, Quaternion.isDefined, Quaternion.ofParts]
  · simp only [Quaternion.crossMultiply, Quaternion.ofParts, Quaternion.parts, Vector3d.smul,
      Vector3d.add, Vector3d.sub, Vector3d.cross, Vector3d.dot]
    congr 2 <;> ring_nf
  · simp only [Quaternion.dotMultiply, Quaternion.ofParts, Quaternion.parts, Vector3d.smul,
      Vector3d.add, Vector3d.sub, Vector3d.cross, Vector3d.dot]
    congr 2 <;> ring_nf
  · simp only [Quaternion.crossMultiply, Quaternion.dotMultiply, Quaternion.ofParts,
      Quaternion.parts, Vector3d.smul, Vector3d.add, Vector3d.sub, Vector3d.cross, Vector3d.dot]
    congr 2 <;> ring_nf
  · intro p hp
    obtain ⟨x, y, z, s, rfl⟩ := (quaternion_isDefined_iff p).mp hp
    exact ⟨⟨x, y, z⟩, s, rfl⟩

/-- C17 (counterexample): with epsilon `1e-15`, the quaternion `q = (0, 0, 0, s)`
with `s = 1 + 2^-52`, the double next to 1, is unitary and `q * (1, 0, 0)` is
`(s s, 0, 0)`, while the vector part of `q ⊗ (v, 0) ⊗ q.toInverse ()` is
`(1, 0, 0)`. -/
theorem rotation_inverse_counterexample :
    (Quaternion.mk (some 0) (some 0) (some 0)
        (some (1 + 1 / 4503599627370496))).isUnitary (1 / 1000000000000000) =
      Except.ok true ∧
    (Quaternion.mk (some 0) (some 0) (some 0)
        (some (1 + 1 / 4503599627370496))).mulVector (1 / 1000000000000000) (some ⟨1, 0, 0⟩) =
      Except.ok ⟨(1 + 1 / 4503599627370496) * (1 + 1 / 4503599627370496), 0, 0⟩ ∧
    (∃ inverted : Quaternion,
      (Quaternion.mk (some 0) (some 0) (some 0)
        (some (1 + 1 / 4503599627370496))).toInverse (1 / 1000000000000000) =
        Except.ok inverted ∧
      (Quaternion.mk (some 0) (some 0) (some 0)
        (some (1 + 1 / 4503599627370496))).sandwich inverted ⟨1, 0, 0⟩ =
        Except.ok ⟨1, 0, 0⟩) ∧
    (⟨(1 + 1 / 4503599627370496) * (1 + 1 / 4503599627370496), 0, 0⟩ : Vector3d) ≠
      ⟨1, 0, 0⟩ := by
  refine ⟨?_, ?_, ?_, ?_⟩
  · norm_num [Quaternion.isUnitary, Quaternion.parts, Quaternion.reducedNorm, abs_le]
  · norm_num [Quaternion.mulVector, Quaternion.rotateVector, Quaternion.isUnitary,
      Quaternion.isDefined, Quaternion.parts, Quaternion.reducedNorm, abs_le,
      Quaternion.crossMultiply, Quaternion.ofParts, Quaternion.toConjugate,
      Quaternion.conjugate, Quaternion.ofInPlace, Quaternion.getVectorPart, Vector3d.smul,
      Vector3d.add, Vector3d.sub, Vector3d.cross, Vector3d.dot]
  · refine ⟨⟨some 0, some 0, some 0, some (1 / (1 + 1 / 4503599627370496))⟩, ?_, ?_⟩
    · norm_num [Quaternion.toInverse, Quaternion.isDefined, Quaternion.inverse,
        Quaternion.parts, Quaternion.reducedNorm, Quaternion.ofInPlace, abs_lt]
    · norm_num [Quaternion.sandwich, Quaternion.crossMultiply, Quaternion.ofParts,
        Quaternion.parts, Quaternion.getVectorPart, Vector3d.smul, Vector3d.add,
        Vector3d.sub, Vector3d.cross, Vector3d.dot]
  · intro h
    have hx := congrArg Vector3d.x h
    norm_num at hx

/-- C17 (amended): for every defined quaternion `q` and defined vector `v`: when `q`
is unitary, `q * v` succeeds and equals the vector part of
`q ⊗ (v, 0) ⊗ q.toConjugate ()`, `⊗` being `crossMultiply`; when the squared norm of
`q` is exactly 1 (and epsilon lies between 0 and 1), `q` is unitary and
`q.toInverse ()` is `q.toConjugate ()`, so that `q * v` is then the vector part of
`q ⊗ (v, 0) ⊗ q.toInverse ()`; when `q` is not unitary, `q * v` fails with a
`RuntimeError`. -/
theorem rotation_rule (eps : ℚ) (q : Quaternion) (v : Vector3d) (hq : q.isDefined = true) :
    ∃ (conjugated : Quaternion) (qv : Vector3d) (qs : ℚ),
      q.toConjugate = Except.ok conjugated ∧ q.parts = some (qv, qs) ∧
      (q.isUnitary eps = Except.ok true →
        (q.mulVector eps (some v) = q.sandwich conjugated v ∧
          ∃ w : Vector3d, q.mulVector eps (some v) = Except.ok w)) ∧
      (Quaternion.reducedNorm qv qs = 1 → 0 ≤ eps → eps ≤ 1 →
        (q.isUnitary eps = Except.ok true ∧ q.toInverse eps = Except.ok conjugated)) ∧
      (q.isUnitary eps = Except.ok false →
        q.mulVector eps (some v) =
          Except.error (Error.RuntimeError "Quaternion with norm [\x7b\x7d] is not unitary.")) := by
  obtain ⟨x, y, z, s, rfl⟩ := (quaternion_isDefined_iff q).mp hq
  refine ⟨⟨some (-x), some (-y), some (-z), some s⟩, ⟨x, y, z⟩, s, rfl, rfl, ?_, ?_, ?_⟩
  · intro hu
    have hu2 : |Quaternion.reducedNorm ⟨x, y, z⟩ s - 1| ≤ eps := by
      simpa [Quaternion.isUnitary, parts_mk] using hu
    constructor
    · simp [Quaternion.mulVector, Quaternion.rotateVector, Quaternion.isUnitary,
        Quaternion.isDefined, Quaternion.parts, hu2, Quaternion.sandwich,
        Quaternion.crossMultiply, Quaternion.ofParts, Quaternion.toConjugate,
        Quaternion.conjugate, Quaternion.ofInPlace, Quaternion.getVectorPart]
    · simp [Quaternion.mulVector, Quaternion.rotateVector, Quaternion.isUnitary,
        Quaternion.isDefined, Quaternion.parts, hu2, Quaternion.crossMultiply,
        Quaternion.ofParts, Quaternion.toConjugate, Quaternion.conjugate,
        Quaternion.ofInPlace, Quaternion.getVectorPart]
  · intro hn h0 h1
    constructor
    · simp [Quaternion.isUnitary, parts_mk, hn, h0]
    · have hlt : ¬ (1 : ℚ) < eps := not_lt.mpr h1
      simp [Quaternion.toInverse, Quaternion.isDefined, Quaternion.inverse, parts_mk, hn, hlt,
        Quaternion.ofInPlace]
  · intro hu
    have hu2 : ¬ |Quaternion.reducedNorm ⟨x, y, z⟩ s - 1| ≤ eps := by
      simpa [Quaternion.isUnitary, parts_mk] using hu
    simp [Quaternion.mulVector, Quaternion.rotateVector, Quaternion.isUnitary,
      Quaternion.isDefined, Quaternion.parts, hu2]

/-- C17 (witness): the quaternion `(0, 0, 0, 1)`, of squared norm 1, and the vector
`(1, 2, 3)`: the rotation is the vector part of the product with the inverse. -/
theorem rotation_rule_witness :
    ∃ inverted : Quaternion,
      Quaternion.Unit.toInverse (1 / 1000000000000000) = Except.ok inverted ∧
      Quaternion.Unit.mulVector (1 / 1000000000000000) (some ⟨1, 2, 3⟩) =
        Quaternion.Unit.sandwich inverted ⟨1, 2, 3⟩ := by
  obtain ⟨conjugated, qv, qs, _, hp, h1, h2, _⟩ :=
    rotation_rule (1 / 1000000000000000) Quaternion.Unit ⟨1, 2, 3⟩ (by decide)
  have hparts : Quaternion.Unit.parts = some (⟨0, 0, 0⟩, 1) := rfl
  rw [hparts] at hp
  injection hp with hp2
  injection hp2 with hv hs
  subst hv hs
  have hunit := h2 (by norm_num [Quaternion.reducedNorm]) (by norm_num) (by norm_num)
  exact ⟨conjugated, hunit.2, (h1 hunit.1).1⟩

/-- C19: `normalize ()`, `conjugate ()` and `inverse ()` fail with `Undefined` on an
undefined quaternion; `normalize ()` fails with a `RuntimeError` when the norm is
below epsilon and `inverse ()` when the squared norm is; `conjugate ()` never fails
on a defined quaternion; and whenever one of the three fails, the quaternion is left
with the four components it had. -/
theorem quaternion_in_place_failure (sqrt : ℚ → ℚ) (eps : ℚ) (q : Quaternion) :
    (q.isDefined = false →
      (q.normalize sqrt eps = (Except.error (Error.Undefined "Quaternion"), q) ∧
        q.conjugate = (Except.error (Error.Undefined "Quaternion"), q) ∧
        q.inverse eps = (Except.error (Error.Undefined "Quaternion"), q))) ∧
    (∀ (v : Vector3d) (s : ℚ), q.parts = some (v, s) →
      |sqrt (Quaternion.reducedNorm v s)| < eps →
      q.normalize sqrt eps = (Except.error (Error.RuntimeError "Quaternion norm is zero."), q)) ∧
    (∀ (v : Vector3d) (s : ℚ), q.parts = some (v, s) →
      |Quaternion.reducedNorm v s| < eps →
      q.inverse eps = (Except.error (Error.RuntimeError "Quaternion norm is zero."), q)) ∧
    (q.isDefined = true → q.conjugate.1 = Except.ok ()) ∧
    (∀ e : Error, (q.normalize sqrt eps).1 = Except.error e → (q.normalize sqrt eps).2 = q) ∧
    (∀ e : Error, q.conjugate.1 = Except.error e → q.conjugate.2 = q) ∧
    (∀ e : Error, (q.inverse eps).1 = Except.error e → (q.inverse eps).2 = q) := by
  refine ⟨?_, ?_, ?_, ?_, ?_, ?_, ?_⟩
  · intro h
    have hp := parts_of_not_defined q h
    simp [Quaternion.normalize, Quaternion.conjugate, Quaternion.inverse, hp]
  · intro v s hp h
    simp [Quaternion.normalize, hp, h]
  · intro v s hp h
    simp [Quaternion.inverse, hp, h]
  · intro h
    obtain ⟨x, y, z, s, rfl⟩ := (quaternion_isDefined_iff q).mp h
    rfl
  · intro e he
    unfold Quaternion.normalize at he ⊢
    cases hp : q.parts with
    | none => simp
    | some vs =>
        obtain ⟨v, s⟩ := vs
        simp only [hp] at he ⊢
        split_ifs at he ⊢ with h
        rfl
  · intro e he
    unfold Quaternion.conjugate at he ⊢
    cases hp : q.parts with
    | none => simp
    | some vs =>
        obtain ⟨v, s⟩ := vs
        simp only [hp] at he
        cases he
  · intro e he
    unfold Quaternion.inverse at he ⊢
    cases hp : q.parts with
    | none => simp
    | some vs =>
        obtain ⟨v, s⟩ := vs
        simp only [hp] at he ⊢
        split_ifs at he ⊢ with h
        rfl

/-- C19 (witness): on the undefined quaternion `normalize ()` fails with `Undefined`
and leaves it as it was; on `(0, 0, 0, 0)` `inverse ()` fails with a `RuntimeError`
and leaves it as it was. -/
theorem quaternion_in_place_failure_witness :
    Quaternion.Undefined.normalize Rat.sqrt (1 / 1000000000000000) =
      (Except.error (Error.Undefined "Quaternion"), Quaternion.Undefined) ∧
    (Quaternion.mk (some 0) (some 0) (some 0) (some 0)).inverse (1 / 1000000000000000) =
      (Except.error (Error.RuntimeError "Quaternion norm is zero."),
        ⟨some 0, some 0, some 0, some 0⟩) :=
  ⟨((quaternion_in_place_failure Rat.sqrt (1 / 1000000000000000) Quaternion.Undefined).1
      (by decide)).1,
    (quaternion_in_place_failure Rat.sqrt (1 / 1000000000000000)
      ⟨some 0, some 0, some 0, some 0⟩).2.2.1 ⟨0, 0, 0⟩ 0 rfl
      (by norm_num [Quaternion.reducedNorm])⟩

/-- C20: a quaternion constructed from `(a, b, c, d)` in the format `XYZS` has
`x = a`, `y = b`, `z = c`, `s = d`, and in the format `SXYZ` has `s = a`, `x = b`,
`y = c`, `z = d`; for both formats `f` and every defined quaternion `q`,
`q.toVector (f)` succeeds and `Quaternion (q.toVector (f), f)` has the four
components of `q`. -/
theorem quaternion_format_round_trip :
    (∀ a b c d : Option ℚ,
      Quaternion.ofComponents a b c d Quaternion.Format.XYZS = ⟨a, b, c, d⟩ ∧
      Quaternion.ofComponents a b c d Quaternion.Format.SXYZ = ⟨b, c, d, a⟩) ∧
    (∀ a b c d : ℚ,
      Quaternion.ofVector ⟨a, b, c, d⟩ Quaternion.Format.XYZS =
        ⟨some a, some b, some c, some d⟩ ∧
      Quaternion.ofVector ⟨a, b, c, d⟩ Quaternion.Format.SXYZ =
        ⟨some b, some c, some d, some a⟩) ∧
    (∀ (f : Quaternion.Format) (q : Quaternion), q.isDefined = true →
      ∃ vector : Vector4d, q.toVector f = Except.ok vector ∧ Quaternion.ofVector vector f = q) := by
  refine ⟨fun a b c d => ⟨rfl, rfl⟩, fun a b c d => ⟨rfl, rfl⟩, ?_⟩
  intro f q hq
  obtain ⟨x, y, z, s, rfl⟩ := (quaternion_isDefined_iff q).mp hq
  cases f
  · exact ⟨⟨x, y, z, s⟩, rfl, rfl⟩
  · exact ⟨⟨s, x, y, z⟩, rfl, rfl⟩

/-- C20 (witness): the quaternion `(1, 2, 3, 4)` through the format `SXYZ`. -/
theorem quaternion_format_round_trip_witness :
    ∃ vector : Vector4d,
      (Quaternion.mk (some 1) (some 2) (some 3) (some 4)).toVector Quaternion.Format.SXYZ =
        Except.ok vector ∧
      Quaternion.ofVector vector Quaternion.Format.SXYZ = ⟨some 1, some 2, some 3, some 4⟩ :=
  quaternion_format_round_trip.2.2 Quaternion.Format.SXYZ ⟨some 1, some 2, some 3, some 4⟩
    (by decide)

/-- C29 (the code at the failing input): `StringFromType (Type::Cuboid)` throws
`Wrong ("Type")`, because the `switch` has no `case` for `Cuboid`; each of the other
fourteen enumerators returns its own name, and the fifteen names are pairwise
distinct. -/
theorem stringFromType_misses_cuboid :
    Intersection.StringFromType IntersectionType.Cuboid = Except.error (Error.Wrong "Type") ∧
    (∀ T : IntersectionType, T ≠ IntersectionType.Cuboid →
      Intersection.StringFromType T = Except.ok T.name) ∧
    (∀ T U : IntersectionType, T.name = U.name → T = U) := by
  refine ⟨rfl, ?_, ?_⟩
  · intro T hT
    cases T <;> first | rfl | exact absurd rfl hT
  · intro T U h
    cases T <;> cases U <;> first | rfl | exact absurd h (by decide)

/-- C30: on an intersection that is not defined, `is<T> ()`, `as<T> ()`, `getType ()`
and `accessComposite ()` each fail with `Undefined ("Intersection")`; on a defined
intersection `is<T> ()` and `as<T> ()` return what the composite's `is<T> ()` and
`as<T> ()` return, `getType ()` returns the type and `accessComposite ()` the
composite; `isEmpty ()` and `isComplex ()` are plain tests of the type against
`Empty` and `Complex`, whatever the intersection. -/
theorem intersection_accessors (I : Intersection) (T : ObjectClass) :
    (I.isDefined = false →
      I.is T = Except.error (Error.Undefined "Intersection") ∧
      I.as T = Except.error (Error.Undefined "Intersection") ∧
      I.getType = Except.error (Error.Undefined "Intersection") ∧
      I.accessComposite = Except.error (Error.Undefined "Intersection")) ∧
    (I.isDefined = true →
      I.is T = I.composite_.is T ∧ I.as T = I.composite_.as T ∧
      I.getType = Except.ok I.type_ ∧ I.accessComposite = Except.ok I.composite_) ∧
    (I.isEmpty = true ↔ I.type_ = IntersectionType.Empty) ∧
    (I.isComplex = true ↔ I.type_ = IntersectionType.Complex) := by
  refine ⟨?_, ?_, ?_, ?_⟩
  · intro h
    simp [Intersection.is, Intersection.as, Intersection.getType,
      Intersection.accessComposite, h]
  · intro h
    simp [Intersection.is, Intersection.as, Intersection.getType,
      Intersection.accessComposite, h]
  · simp [Intersection.isEmpty]
  · simp [Intersection.isComplex]

/-- C30 (witness): every accessor fails on `Intersection::Undefined ()`, which is
neither empty nor complex; on `Intersection::Point ((1, 2, 3))` the query `is<Point>`
answers true, `is<PointSet>` answers false, and `as<Point>` returns the point. -/
theorem intersection_accessors_witness :
    (Intersection.Undefined.is ObjectClass.Point =
        Except.error (Error.Undefined "Intersection") ∧
      Intersection.Undefined.as ObjectClass.Point =
        Except.error (Error.Undefined "Intersection") ∧
      Intersection.Undefined.getType = Except.error (Error.Undefined "Intersection") ∧
      Intersection.Undefined.accessComposite =
        Except.error (Error.Undefined "Intersection")) ∧
    Intersection.Undefined.isEmpty = false ∧ Intersection.Undefined.isComplex = false ∧
    (Intersection.Point (Point.mk ⟨1, 2, 3⟩)).is ObjectClass.Point = Except.ok true ∧
    (Intersection.Point (Point.mk ⟨1, 2, 3⟩)).is ObjectClass.PointSet = Except.ok false ∧
    (Intersection.Point (Point.mk ⟨1, 2, 3⟩)).as ObjectClass.Point =
      Except.ok (Object.aPoint (Point.mk ⟨1, 2, 3⟩)) :=
  ⟨(intersection_accessors Intersection.Undefined ObjectClass.Point).1 (by decide),
    by decide, by decide, rfl, rfl, rfl⟩

/-- C27: the closing statements of `Cone::intersectionWith` (both overloads run them on
the two arrays that the loop over the rays has filled). If both arrays are non-empty
and `onlyInSight` is false, the result is
`Intersection::LineString (LineString (first)) + Intersection::LineString (LineString (second))`,
the intersection that holds those two line strings in that order; if the first array
is non-empty and the second is empty or `onlyInSight` is true, the result is the line
string of the first array alone; if only the second array is non-empty, the result is
its line string alone; if both are empty the result is `Empty`. -/
theorem cone_aggregation (first second : List Point) (onlyInSight : Bool) :
    (first ≠ [] → second ≠ [] → onlyInSight = false →
      Cone.aggregate first second onlyInSight =
          (Intersection.LineString ⟨first⟩).add (Intersection.LineString ⟨second⟩) ∧
        Cone.aggregate first second onlyInSight =
          Except.ok ⟨IntersectionType.LineString,
            Composite.mk [Object.aLineString ⟨first⟩, Object.aLineString ⟨second⟩]⟩) ∧
    (first ≠ [] → (second = [] ∨ onlyInSight = true) →
      Cone.aggregate first second onlyInSight = Except.ok (Intersection.LineString ⟨first⟩)) ∧
    (first = [] → second ≠ [] →
      Cone.aggregate first second onlyInSight = Except.ok (Intersection.LineString ⟨second⟩)) ∧
    (first = [] → second = [] →
      Cone.aggregate first second onlyInSight = Except.ok Intersection.Empty) ∧
    (∀ (pi : ℚ) (sin cos sqrt : ℚ → ℚ) (eps : ℚ) (FIQuery : GteQuery) (cone : Cone)
      (aSphere : Sphere) (N : ℕ) (rays : List Ray),
      aSphere.isDefined = true → cone.isDefined = true →
      cone.getRaysOfLateralSurface pi sin cos sqrt eps N = Except.ok rays →
      Cone.sphereLoop FIQuery eps aSphere onlyInSight rays ([], []) = Except.ok (first, second) →
      cone.intersectionWithSphere pi sin cos sqrt eps FIQuery aSphere onlyInSight N =
        Cone.aggregate first second onlyInSight) ∧
    (∀ (pi : ℚ) (sin cos sqrt : ℚ → ℚ) (eps : ℚ)
      (rayQuery : Ray → Shape → Bool → Except Error Intersection) (cone : Cone)
      (anEllipsoid : Shape) (N : ℕ) (rays : List Ray),
      anEllipsoid.defined = true → cone.isDefined = true →
      cone.getRaysOfLateralSurface pi sin cos sqrt eps N = Except.ok rays →
      Cone.ellipsoidLoop rayQuery cone.apex_ anEllipsoid onlyInSight rays ([], []) =
        Except.ok (first, second) →
      cone.intersectionWithEllipsoid pi sin cos sqrt eps rayQuery anEllipsoid onlyInSight N =
        Cone.aggregate first second onlyInSight) := by
  refine ⟨?_, ?_, ?_, ?_, ?_, ?_⟩
  · intro h1 h2 h3
    subst h3
    cases first with
    | nil => exact absurd rfl h1
    | cons a as =>
        cases second with
        | nil => exact absurd rfl h2
        | cons b bs => exact ⟨rfl, rfl⟩
  · intro h1 h2
    cases first with
    | nil => exact absurd rfl h1
    | cons a as =>
        rcases h2 with h2 | h2
        · subst h2
          cases onlyInSight <;> rfl
        · subst h2
          cases second <;> rfl
  · intro h1 h2
    subst h1
    cases second with
    | nil => exact absurd rfl h2
    | cons b bs => cases onlyInSight <;> rfl
  · intro h1 h2
    subst h1 h2
    cases onlyInSight <;> rfl
  · intro pi sin cos sqrt eps FIQuery cone aSphere N rays hs hc hrays hloop
    simp only [Cone.intersectionWithSphere, hs, hc, hrays, hloop, Bool.not_true,
      Bool.false_eq_true, if_false]
  · intro pi sin cos sqrt eps rayQuery cone anEllipsoid N rays hs hc hrays hloop
    simp only [Cone.intersectionWithEllipsoid, hs, hc, hrays, hloop, Bool.not_true,
      Bool.false_eq_true, if_false]

/-- C27 (witness): the arrays `[(0, 0, 1)]` and `[(0, 0, -1)]` with `onlyInSight` false
give the intersection holding the two line strings in that order; with `onlyInSight`
true they give the first line string alone; two empty arrays give `Empty`. -/
theorem cone_aggregation_witness :
    Cone.aggregate [Point.mk ⟨0, 0, 1⟩] [Point.mk ⟨0, 0, -1⟩] false =
      Except.ok ⟨IntersectionType.LineString,
        Composite.mk [Object.aLineString ⟨[Point.mk ⟨0, 0, 1⟩]⟩,
          Object.aLineString ⟨[Point.mk ⟨0, 0, -1⟩]⟩]⟩ ∧
    Cone.aggregate [Point.mk ⟨0, 0, 1⟩] [Point.mk ⟨0, 0, -1⟩] true =
      Except.ok (Intersection.LineString ⟨[Point.mk ⟨0, 0, 1⟩]⟩) ∧
    Cone.aggregate [] [] false = Except.ok Intersection.Empty :=
  ⟨((cone_aggregation [Point.mk ⟨0, 0, 1⟩] [Point.mk ⟨0, 0, -1⟩] false).1
      (by simp) (by simp) rfl).2,
    (cone_aggregation [Point.mk ⟨0, 0, 1⟩] [Point.mk ⟨0, 0, -1⟩] true).2.1
      (by simp) (Or.inr rfl),
    (cone_aggregation [] [] false).2.2.2.1 rfl rfl⟩

/-- C28: for a defined cone and a defined sphere, a solver that reports one point or
two distinct points, and the rays that `getRaysOfLateralSurface (N)` returns (there
are `N` of them, `N ≥ 1`), `Cone::intersectionWith (aSphere, onlyInSight, N)` returns an
intersection built from two arrays: the first holds exactly one point per ray whose
intersection with the sphere is not empty, the second exactly one point per ray whose
intersection is a point set. The result is `Empty` when no ray intersects, the line
string of the first array when the second is empty or `onlyInSight` is true, and
otherwise the two line strings, first then second. -/
theorem cone_sphere_no_ray_lost (pi : ℚ) (sin cos sqrt : ℚ → ℚ) (eps : ℚ) (FIQuery : GteQuery)
    (cone : Cone) (aSphere : Sphere) (onlyInSight : Bool) (N : ℕ) (rays : List Ray)
    (hs : aSphere.isDefined = true) (hc : cone.isDefined = true)
    (hsolver : Sphere.SolverContract FIQuery)
    (hrays : cone.getRaysOfLateralSurface pi sin cos sqrt eps N = Except.ok rays) :
    ∃ (first second : List Point) (R : Intersection),
      Cone.sphereLoop FIQuery eps aSphere onlyInSight rays ([], []) = Except.ok (first, second) ∧
      cone.intersectionWithSphere pi sin cos sqrt eps FIQuery aSphere onlyInSight N =
        Except.ok R ∧
      1 ≤ N ∧ rays.length = N ∧
      first.length = rays.countP (Cone.rayHits FIQuery eps aSphere onlyInSight) ∧
      second.length = rays.countP (Cone.rayCrosses FIQuery eps aSphere onlyInSight) ∧
      (first = [] → R = Intersection.Empty) ∧
      (first ≠ [] → (second = [] ∨ onlyInSight = true) →
        R = Intersection.LineString ⟨first⟩) ∧
      (first ≠ [] → second ≠ [] → onlyInSight = false →
        R = ⟨IntersectionType.LineString,
          Composite.mk [Object.aLineString ⟨first⟩, Object.aLineString ⟨second⟩]⟩) := by
  obtain ⟨center, radius, rfl⟩ := (sphere_isDefined_iff aSphere).mp hs
  obtain ⟨hN, hlen, hshape⟩ := getRays_shape pi sin cos sqrt eps cone N rays hrays
  have hapex : cone.apex_.isDefined = true := by
    simp only [Cone.isDefined, Bool.and_eq_true] at hc
    exact hc.1.1
  have hdef : ∀ ray ∈ rays, ray.isDefined = true := by
    intro ray hray
    obtain ⟨h1, h2⟩ := hshape ray hray
    simp [Ray.isDefined, h1, h2, hapex]
  obtain ⟨first, second, hloop, h1, h2⟩ :=
    sphereLoop_counts FIQuery eps center radius onlyInSight hsolver rays hdef ([], [])
  obtain ⟨R, hR, hE, hF, hB⟩ := aggregate_value first second onlyInSight
  have hle := rayCrosses_le_rayHits FIQuery eps ⟨Point.mk center, some radius⟩ onlyInSight rays
  simp only [List.length_nil, zero_add] at h1 h2
  refine ⟨first, second, R, hloop, ?_, by omega, hlen, h1, h2, ?_, hF, hB⟩
  · simp only [Cone.intersectionWithSphere, hs, hc, hrays, hloop, Bool.not_true,
      Bool.false_eq_true, if_false, hR]
  · intro hfirst
    apply hE hfirst
    apply List.eq_nil_of_length_eq_zero
    rw [hfirst, List.length_nil] at h1
    omega

/-- C28 (witness): the cone of apex `(0, 0, 0)`, axis `(0, 0, 1)` and half-angle `30°`,
discretized at `N = 4`, against the unit sphere centred at the apex (each ray meets it
once, at unit distance from its origin): the result is a line string of exactly four
points. -/
theorem cone_sphere_no_ray_lost_witness :
    ∃ points : List Point,
      Cone.intersectionWithSphere tablePi tableSin tableCos Rat.sqrt (1 / 1000000000000000)
          (fun origin direction _ radius =>
            ⟨true, 1, (Vector3d.along origin direction radius,
              Vector3d.along origin direction radius)⟩)
          ⟨Point.mk ⟨0, 0, 0⟩, some ⟨0, 0, 1⟩, Angle.Degrees 30⟩
          (Sphere.Unit (Point.mk ⟨0, 0, 0⟩)) false 4 =
        Except.ok (Intersection.LineString ⟨points⟩) ∧
      points.length = 4 := by
  obtain ⟨rays, hrays, hunit⟩ :=
    getRays_unit_directions tablePi tableSin tableCos Rat.sqrt (1 / 1000000000000000)
      ⟨0, 0, 0⟩ ⟨0, 0, 1⟩ 30 4 (by norm_num) (by norm_num [Vector3d.dot]) table_pythagorean
      rat_sqrt_one (by rw [referenceCross_z]; norm_num [Vector3d.squaredNorm]) (by norm_num)
      (by norm_num)
  obtain ⟨first, second, R, _, hR, _, hlen, h1, h2, _, hF, _⟩ :=
    cone_sphere_no_ray_lost tablePi tableSin tableCos Rat.sqrt (1 / 1000000000000000)
      (fun origin direction _ radius =>
        ⟨true, 1, (Vector3d.along origin direction radius,
          Vector3d.along origin direction radius)⟩)
      ⟨Point.mk ⟨0, 0, 0⟩, some ⟨0, 0, 1⟩, Angle.Degrees 30⟩ (Sphere.Unit (Point.mk ⟨0, 0, 0⟩))
      false 4 rays (by decide) (by decide)
      (fun _ _ _ _ _ => Or.inl rfl) hrays
  have hhits : rays.countP (Cone.rayHits
      (fun origin direction _ radius =>
        ⟨true, 1, (Vector3d.along origin direction radius,
          Vector3d.along origin direction radius)⟩)
      (1 / 1000000000000000) (Sphere.Unit (Point.mk ⟨0, 0, 0⟩)) false) = rays.length := by
    apply List.countP_eq_length.mpr
    intro ray hray
    obtain ⟨d, rfl, hd⟩ := hunit ray hray
    exact (centre_ray_hits _ d hd).1
  have hcrosses : rays.countP (Cone.rayCrosses
      (fun origin direction _ radius =>
        ⟨true, 1, (Vector3d.along origin direction radius,
          Vector3d.along origin direction radius)⟩)
      (1 / 1000000000000000) (Sphere.Unit (Point.mk ⟨0, 0, 0⟩)) false) = 0 := by
    apply List.countP_eq_zero.mpr
    intro ray hray
    obtain ⟨d, rfl, hd⟩ := hunit ray hray
    rw [(centre_ray_hits _ d hd).2]
    decide
  rw [hhits, hlen] at h1
  rw [hcrosses] at h2
  have hsecond : second = [] := List.eq_nil_of_length_eq_zero h2
  have hfirst : first ≠ [] := by
    intro h
    rw [h] at h1
    cases h1
  exact ⟨first, by rw [hR, hF hfirst (Or.inl hsecond)], h1⟩

/-- A remark on C26: what the two overloads do with a point set of two points. The
sphere overload measures no distance: the first point that the set iterates goes to
the second array and the other point to the first array, so which of the two arrays
receives the point closest to the apex is decided by the iteration order of the set,
which the source under study does not fix. A single point goes to the first array.
The ellipsoid overload asks the set for the point closest to the apex: for the apex
`(0, 0, -2)` and the points `(0, 0, -1)`, `(0, 0, 1)`, iterated in either order, it
puts `(0, 0, -1)` in the first array and `(0, 0, 1)` in the second. -/
theorem cone_sphere_bucket_by_iteration :
    (∀ (buckets : List Point × List Point) (P Q : Point),
      Cone.sphereBuckets buckets (Intersection.PointSet ⟨[P, Q]⟩) =
        Except.ok (buckets.1 ++ [Q], buckets.2 ++ [P])) ∧
    (∀ (buckets : List Point × List Point) (P : Point),
      Cone.sphereBuckets buckets (Intersection.Point P) =
        Except.ok (buckets.1 ++ [P], buckets.2)) ∧
    Cone.ellipsoidBuckets (Point.mk ⟨0, 0, -2⟩) ([], [])
        (Intersection.PointSet ⟨[Point.mk ⟨0, 0, -1⟩, Point.mk ⟨0, 0, 1⟩]⟩) =
      Except.ok ([Point.mk ⟨0, 0, -1⟩], [Point.mk ⟨0, 0, 1⟩]) ∧
    Cone.ellipsoidBuckets (Point.mk ⟨0, 0, -2⟩) ([], [])
        (Intersection.PointSet ⟨[Point.mk ⟨0, 0, 1⟩, Point.mk ⟨0, 0, -1⟩]⟩) =
      Except.ok ([Point.mk ⟨0, 0, -1⟩], [Point.mk ⟨0, 0, 1⟩]) := by
  have hclosest : (PointSet.mk [Point.mk ⟨0, 0, -1⟩, Point.mk ⟨0, 0, 1⟩]).getPointClosestTo
      (Point.mk ⟨0, 0, -2⟩) = Except.ok (Point.mk ⟨0, 0, -1⟩) := by
    norm_num [PointSet.getPointClosestTo, PointSet.isEmpty, PointSet.closestLoop,
      Point.squaredDistanceTo, realLt, Vector3d.sub, Vector3d.squaredNorm]
  have hclosest2 : (PointSet.mk [Point.mk ⟨0, 0, 1⟩, Point.mk ⟨0, 0, -1⟩]).getPointClosestTo
      (Point.mk ⟨0, 0, -2⟩) = Except.ok (Point.mk ⟨0, 0, -1⟩) := by
    norm_num [PointSet.getPointClosestTo, PointSet.isEmpty, PointSet.closestLoop,
      Point.squaredDistanceTo, realLt, Vector3d.sub, Vector3d.squaredNorm]
  refine ⟨fun _ _ _ => rfl, fun _ _ => rfl, ?_, ?_⟩
  · have hdiff : Cone.firstDiffering (Point.mk ⟨0, 0, -1⟩)
        [Point.mk ⟨0, 0, -1⟩, Point.mk ⟨0, 0, 1⟩] = some (Point.mk ⟨0, 0, 1⟩) := by
      norm_num [Cone.firstDiffering, Point.eq]
    rw [ellipsoidBuckets_pointSet, hclosest]
    simp only [hdiff]
    rfl
  · have hdiff : Cone.firstDiffering (Point.mk ⟨0, 0, -1⟩)
        [Point.mk ⟨0, 0, 1⟩, Point.mk ⟨0, 0, -1⟩] = some (Point.mk ⟨0, 0, 1⟩) := by
      norm_num [Cone.firstDiffering, Point.eq]
    rw [ellipsoidBuckets_pointSet, hclosest2]
    simp only [hdiff]
    rfl

/-- C31: equality of 3D segments. For all defined points `a`, `b`,
`Segment(a, b) == Segment(a, b)` and `Segment(a, b) == Segment(b, a)` are true; two
defined segments are equal exactly when they have the same end points in either
order, so segments with different sets of end points are unequal; a comparison with
an operand that is not defined, `Segment::Undefined()` on both sides included, is
false; and `!=` is the negation of `==` in every case. -/
theorem segment_equality :
    (∀ a b : Vector3d,
      (Segment.mk (Point.mk a) (Point.mk b)).eq (Segment.mk (Point.mk a) (Point.mk b)) = true ∧
      (Segment.mk (Point.mk a) (Point.mk b)).eq (Segment.mk (Point.mk b) (Point.mk a)) = true) ∧
    (∀ a b c d : Vector3d,
      ((Segment.mk (Point.mk a) (Point.mk b)).eq (Segment.mk (Point.mk c) (Point.mk d)) = true ↔
        ((a = c ∧ b = d) ∨ (a = d ∧ b = c))) ∧
      (({a, b} : Set Vector3d) ≠ {c, d} →
        (Segment.mk (Point.mk a) (Point.mk b)).eq (Segment.mk (Point.mk c) (Point.mk d)) =
          false)) ∧
    (∀ s t : Segment, s.isDefined = false ∨ t.isDefined = false → s.eq t = false) ∧
    Segment.Undefined.isDefined = false ∧
    (∀ s : Segment, s.eq Segment.Undefined = false ∧ Segment.Undefined.eq s = false) ∧
    Segment.Undefined.eq Segment.Undefined = false ∧
    (∀ s t : Segment, s.ne t = !(s.eq t)) ∧
    (∀ s t : Segment, s.ne t = true ↔ s.eq t = false) := by
  have hiff : ∀ a b c d : Vector3d,
      ((Segment.mk (Point.mk a) (Point.mk b)).eq (Segment.mk (Point.mk c) (Point.mk d)) = true ↔
        ((a = c ∧ b = d) ∨ (a = d ∧ b = c))) := by
    intro a b c d
    simp [Segment.eq, Segment.isDefined, Point.isDefined, Point.eq]
  have hundef : ∀ s t : Segment, s.isDefined = false ∨ t.isDefined = false →
      s.eq t = false := by
    intro s t h
    rcases h with h | h <;> simp [Segment.eq, h]
  refine ⟨fun a b => ⟨(hiff a b a b).mpr (Or.inl ⟨rfl, rfl⟩),
      (hiff a b b a).mpr (Or.inr ⟨rfl, rfl⟩)⟩, fun a b c d => ⟨hiff a b c d, ?_⟩,
    hundef, rfl, fun s => ⟨hundef _ _ (Or.inr rfl), hundef _ _ (Or.inl rfl)⟩, rfl,
    fun _ _ => rfl, ?_⟩
  · intro hne
    cases h : (Segment.mk (Point.mk a) (Point.mk b)).eq (Segment.mk (Point.mk c) (Point.mk d))
    · rfl
    · exfalso
      rcases (hiff a b c d).mp h with ⟨h1, h2⟩ | ⟨h1, h2⟩
      · exact hne (by rw [h1, h2])
      · exact hne (by rw [h1, h2, Set.pair_comm])
  · intro s t
    cases h : s.eq t <;> simp [Segment.ne, h]

/-- C34: the reference direction of `Cone::getRaysOfLateralSurface` is not degenerate
for a unit axis. For every axis `a` with `a . a = 1`: when `|a . X| < 0.5` the cross
product `a x X` is not the zero vector, and otherwise `a x Y` is not; the cross
product that is normalised has a positive squared norm (at least 1/4), so the
normalisation divides by the root of a positive number, and is orthogonal to the
axis. -/
theorem reference_direction_nondegenerate (a : Vector3d) (ha : a.dot a = 1) :
    (|a.dot Vector3d.X| < 1 / 2 → a.cross Vector3d.X ≠ ⟨0, 0, 0⟩) ∧
    (¬ |a.dot Vector3d.X| < 1 / 2 → a.cross Vector3d.Y ≠ ⟨0, 0, 0⟩) ∧
    Cone.referenceCross a ≠ ⟨0, 0, 0⟩ ∧
    1 / 4 ≤ (Cone.referenceCross a).squaredNorm ∧
    (Cone.referenceCross a).dot a = 0 ∧
    (∀ sqrt : ℚ → ℚ,
      Cone.referenceDirection sqrt (some a) =
        some ⟨(Cone.referenceCross a).x / sqrt (Cone.referenceCross a).squaredNorm,
          (Cone.referenceCross a).y / sqrt (Cone.referenceCross a).squaredNorm,
          (Cone.referenceCross a).z / sqrt (Cone.referenceCross a).squaredNorm⟩) := by
  have hnorm := referenceCross_squaredNorm a ha
  have hne : Cone.referenceCross a ≠ ⟨0, 0, 0⟩ := by
    intro h
    rw [h] at hnorm
    norm_num [Vector3d.squaredNorm] at hnorm
  refine ⟨?_, ?_, hne, hnorm, referenceCross_dot_axis a, ?_⟩
  · intro h
    have e : Cone.referenceCross a = a.cross Vector3d.X := by
      simp only [Cone.referenceCross, if_pos h]
    rw [← e]
    exact hne
  · intro h
    have e : Cone.referenceCross a = a.cross Vector3d.Y := by
      simp only [Cone.referenceCross, if_neg h]
    rw [← e]
    exact hne
  · intro sqrt
    have hpos : 0 < (Cone.referenceCross a).squaredNorm := lt_of_lt_of_le (by norm_num) hnorm
    rw [referenceDirection_eq]
    simp only [Vector3d.normalized]
    rw [if_pos hpos]

/-- C34 (witness): the axis `(1, 0, 0)`, for which `|a . X| = 1`: the branch taken is
`a x Y = (0, 0, 1)`, while `a x X` is the zero vector. -/
theorem reference_direction_nondegenerate_witness :
    Vector3d.dot ⟨1, 0, 0⟩ ⟨1, 0, 0⟩ = 1 ∧
    Vector3d.cross ⟨1, 0, 0⟩ Vector3d.X = ⟨0, 0, 0⟩ ∧
    Vector3d.cross ⟨1, 0, 0⟩ Vector3d.Y ≠ ⟨0, 0, 0⟩ ∧
    Cone.referenceCross ⟨1, 0, 0⟩ ≠ ⟨0, 0, 0⟩ :=
  ⟨by norm_num [Vector3d.dot], by simp [Vector3d.cross, Vector3d.X],
    (reference_direction_nondegenerate ⟨1, 0, 0⟩ (by norm_num [Vector3d.dot])).2.1
      (by norm_num [Vector3d.dot, Vector3d.X]),
    (reference_direction_nondegenerate ⟨1, 0, 0⟩ (by norm_num [Vector3d.dot])).2.2.1⟩

/-- C37: the failure "Rotation matrix cannot be converted into quaternion." of
`Quaternion::RotationMatrix` is unreachable. For every matrix of (totally ordered)
numbers, at least one of the four branch conditions holds: the trace, `M00`, `M11` or
`M22` is at least the other three; the chain of tests never reaches the final
`else`, and the first condition that holds, in the order trace, `M00`, `M11`, `M22`,
gives the four components that are normalised. The factory on a defined matrix
therefore never fails with that message. -/
theorem rotation_matrix_branch_total :
    (∀ m : Matrix3d,
      (m.trace ≥ m.m00 ∧ m.trace ≥ m.m11 ∧ m.trace ≥ m.m22) ∨
      (m.m00 ≥ m.trace ∧ m.m00 ≥ m.m11 ∧ m.m00 ≥ m.m22) ∨
      (m.m11 ≥ m.m00 ∧ m.m11 ≥ m.trace ∧ m.m11 ≥ m.m22) ∨
      (m.m22 ≥ m.m00 ∧ m.m22 ≥ m.m11 ∧ m.m22 ≥ m.trace)) ∧
    (∀ (m : Matrix3d) (e : Error), Quaternion.RotationMatrixComponents m ≠ Except.error e) ∧
    (∀ m : Matrix3d, (m.trace ≥ m.m00 ∧ m.trace ≥ m.m11 ∧ m.trace ≥ m.m22) →
      Quaternion.RotationMatrixComponents m =
        Except.ok (m.m12 - m.m21, m.m20 - m.m02, m.m01 - m.m10, 1 + m.trace)) ∧
    (∀ m : Matrix3d, ¬ (m.trace ≥ m.m00 ∧ m.trace ≥ m.m11 ∧ m.trace ≥ m.m22) →
      (m.m00 ≥ m.trace ∧ m.m00 ≥ m.m11 ∧ m.m00 ≥ m.m22) →
      Quaternion.RotationMatrixComponents m =
        Except.ok (1 + 2 * m.m00 - m.trace, m.m01 + m.m10, m.m02 + m.m20, m.m12 - m.m21)) ∧
    (∀ m : Matrix3d, ¬ (m.trace ≥ m.m00 ∧ m.trace ≥ m.m11 ∧ m.trace ≥ m.m22) →
      ¬ (m.m00 ≥ m.trace ∧ m.m00 ≥ m.m11 ∧ m.m00 ≥ m.m22) →
      (m.m11 ≥ m.m00 ∧ m.m11 ≥ m.trace ∧ m.m11 ≥ m.m22) →
      Quaternion.RotationMatrixComponents m =
        Except.ok (m.m10 + m.m01, 1 + 2 * m.m11 - m.trace, m.m12 + m.m21, m.m20 - m.m02)) ∧
    (∀ m : Matrix3d, ¬ (m.trace ≥ m.m00 ∧ m.trace ≥ m.m11 ∧ m.trace ≥ m.m22) →
      ¬ (m.m00 ≥ m.trace ∧ m.m00 ≥ m.m11 ∧ m.m00 ≥ m.m22) →
      ¬ (m.m11 ≥ m.m00 ∧ m.m11 ≥ m.trace ∧ m.m11 ≥ m.m22) →
      (m.m22 ≥ m.m00 ∧ m.m22 ≥ m.m11 ∧ m.m22 ≥ m.trace) ∧
      Quaternion.RotationMatrixComponents m =
        Except.ok (m.m20 + m.m02, m.m21 + m.m12, 1 + 2 * m.m22 - m.trace, m.m01 - m.m10)) ∧
    (∀ (sqrt : ℚ → ℚ) (eps : ℚ) (m : Matrix3d),
      Quaternion.RotationMatrix sqrt eps ⟨some m⟩ ≠
        Except.error (Error.RuntimeError "Rotation matrix cannot be converted into quaternion.")) := by
  have hex : ∀ m : Matrix3d,
      (m.trace ≥ m.m00 ∧ m.trace ≥ m.m11 ∧ m.trace ≥ m.m22) ∨
      (m.m00 ≥ m.trace ∧ m.m00 ≥ m.m11 ∧ m.m00 ≥ m.m22) ∨
      (m.m11 ≥ m.m00 ∧ m.m11 ≥ m.trace ∧ m.m11 ≥ m.m22) ∨
      (m.m22 ≥ m.m00 ∧ m.m22 ≥ m.m11 ∧ m.m22 ≥ m.trace) :=
    fun m => rotationMatrix_branch_exists m.trace m.m00 m.m11 m.m22
  have h1 : ∀ m : Matrix3d, (m.trace ≥ m.m00 ∧ m.trace ≥ m.m11 ∧ m.trace ≥ m.m22) →
      Quaternion.RotationMatrixComponents m =
        Except.ok (m.m12 - m.m21, m.m20 - m.m02, m.m01 - m.m10, 1 + m.trace) := by
    intro m c1
    simp only [Quaternion.RotationMatrixComponents]
    rw [if_pos c1]
  have h2 : ∀ m : Matrix3d, ¬ (m.trace ≥ m.m00 ∧ m.trace ≥ m.m11 ∧ m.trace ≥ m.m22) →
      (m.m00 ≥ m.trace ∧ m.m00 ≥ m.m11 ∧ m.m00 ≥ m.m22) →
      Quaternion.RotationMatrixComponents m =
        Except.ok (1 + 2 * m.m00 - m.trace, m.m01 + m.m10, m.m02 + m.m20, m.m12 - m.m21) := by
    intro m c1 c2
    simp only [Quaternion.RotationMatrixComponents]
    rw [if_neg c1, if_pos c2]
  have h3 : ∀ m : Matrix3d, ¬ (m.trace ≥ m.m00 ∧ m.trace ≥ m.m11 ∧ m.trace ≥ m.m22) →
      ¬ (m.m00 ≥ m.trace ∧ m.m00 ≥ m.m11 ∧ m.m00 ≥ m.m22) →
      (m.m11 ≥ m.m00 ∧ m.m11 ≥ m.trace ∧ m.m11 ≥ m.m22) →
      Quaternion.RotationMatrixComponents m =
        Except.ok (m.m10 + m.m01, 1 + 2 * m.m11 - m.trace, m.m12 + m.m21, m.m20 - m.m02) := by
    intro m c1 c2 c3
    simp only [Quaternion.RotationMatrixComponents]
    rw [if_neg c1, if_neg c2, if_pos c3]
  have h4 : ∀ m : Matrix3d, ¬ (m.trace ≥ m.m00 ∧ m.trace ≥ m.m11 ∧ m.trace ≥ m.m22) →
      ¬ (m.m00 ≥ m.trace ∧ m.m00 ≥ m.m11 ∧ m.m00 ≥ m.m22) →
      ¬ (m.m11 ≥ m.m00 ∧ m.m11 ≥ m.trace ∧ m.m11 ≥ m.m22) →
      (m.m22 ≥ m.m00 ∧ m.m22 ≥ m.m11 ∧ m.m22 ≥ m.trace) ∧
      Quaternion.RotationMatrixComponents m =
        Except.ok (m.m20 + m.m02, m.m21 + m.m12, 1 + 2 * m.m22 - m.trace, m.m01 - m.m10) := by
    intro m c1 c2 c3
    have c4 : m.m22 ≥ m.m00 ∧ m.m22 ≥ m.m11 ∧ m.m22 ≥ m.trace := by
      rcases hex m with h | h | h | h
      · exact absurd h c1
      · exact absurd h c2
      · exact absurd h c3
      · exact h
    refine ⟨c4, ?_⟩
    simp only [Quaternion.RotationMatrixComponents]
    rw [if_neg c1, if_neg c2, if_neg c3, if_pos c4]
  have hok : ∀ m : Matrix3d, ∃ c, Quaternion.RotationMatrixComponents m = Except.ok c := by
    intro m
    by_cases c1 : m.trace ≥ m.m00 ∧ m.trace ≥ m.m11 ∧ m.trace ≥ m.m22
    · exact ⟨_, h1 m c1⟩
    · by_cases c2 : m.m00 ≥ m.trace ∧ m.m00 ≥ m.m11 ∧ m.m00 ≥ m.m22
      · exact ⟨_, h2 m c1 c2⟩
      · by_cases c3 : m.m11 ≥ m.m00 ∧ m.m11 ≥ m.trace ∧ m.m11 ≥ m.m22
        · exact ⟨_, h3 m c1 c2 c3⟩
        · exact ⟨_, (h4 m c1 c2 c3).2⟩
  refine ⟨hex, ?_, h1, h2, h3, h4, ?_⟩
  · intro m e h
    obtain ⟨c, hc⟩ := hok m
    rw [hc] at h
    cases h
  · intro sqrt eps m h
    obtain ⟨⟨x, y, z, s⟩, hc⟩ := hok m
    simp only [Quaternion.RotationMatrix, hc, Quaternion.XYZS, Quaternion.ofComponents,
      if_true, Quaternion.normalize, Quaternion.parts] at h
    split_ifs at h
    · simp [Quaternion.ofInPlace] at h
    · simp [Quaternion.ofInPlace] at h

/-- C32 (the code at the failing input): the intersection that the public constructor
builds from an object of a class that `TypeFromObject` has no test for (a cone, say)
followed by a point is defined and holds two objects of different classes, yet its
stored type is `Point`, not `Complex`: `TypeFromObject` falls through to `Undefined`
for the first object, the value that `TypeFromObjects` also starts from, so the
comparison `type != objectType` is not made for it. The same two objects in the
other order do classify as `Complex`. -/
theorem type_composite_leading_unclassified :
    (Intersection.ofObjects
      [Object.anOther ⟨true, []⟩, Object.aPoint (Point.mk ⟨0, 0, 0⟩)]).Reachable ∧
    (Intersection.ofObjects
      [Object.anOther ⟨true, []⟩, Object.aPoint (Point.mk ⟨0, 0, 0⟩)]).isDefined = true ∧
    (Intersection.ofObjects
      [Object.anOther ⟨true, []⟩, Object.aPoint (Point.mk ⟨0, 0, 0⟩)]).type_ =
      IntersectionType.Point ∧
    (Intersection.ofObjects
      [Object.anOther ⟨true, []⟩, Object.aPoint (Point.mk ⟨0, 0, 0⟩)]).isComplex = false ∧
    (Object.anOther ⟨true, []⟩).classOf ≠ (Object.aPoint (Point.mk ⟨0, 0, 0⟩)).classOf ∧
    Intersection.TypeFromObject (Object.anOther ⟨true, []⟩) ≠
      Intersection.TypeFromObject (Object.aPoint (Point.mk ⟨0, 0, 0⟩)) ∧
    (Intersection.ofObjects
      [Object.aPoint (Point.mk ⟨0, 0, 0⟩), Object.anOther ⟨true, []⟩]).isDefined = true ∧
    (Intersection.ofObjects
      [Object.aPoint (Point.mk ⟨0, 0, 0⟩), Object.anOther ⟨true, []⟩]).type_ =
      IntersectionType.Complex :=
  ⟨Intersection.Reachable.ofObjects _, by decide, by decide, by decide, by decide, by decide,
    by decide, by decide⟩

/-- What holds of the invariant of C32: for every defined intersection produced by the
public constructor, the factories and the two concatenations (a copy or an
assignment carries both members over unchanged), the stored type is the
classification `TypeFromObjects` of the held object sequence; it is `Empty` exactly
when no object is held; a `Complex` type always comes with two held objects that
classify differently; and when every held object is of one of the twelve variants,
the type is `Complex` exactly when the objects are not all of the same variant. -/
theorem type_composite_invariant (A : Intersection) (rA : A.Reachable)
    (hA : A.isDefined = true) :
    ∃ os : List Object, A.composite_ = Composite.mk os ∧
      A.type_ = Intersection.TypeFromObjects os ∧
      (A.type_ = IntersectionType.Empty ↔ os = []) ∧
      (A.isEmpty = true ↔ os = []) ∧
      (A.type_ = IntersectionType.Complex →
        ∃ o1 ∈ os, ∃ o2 ∈ os,
          Intersection.TypeFromObject o1 ≠ Intersection.TypeFromObject o2) ∧
      ((∀ o ∈ os, (Intersection.TypeFromObject o).isVariant = true) →
        (A.type_ = IntersectionType.Complex ↔
          ∃ o1 ∈ os, ∃ o2 ∈ os,
            Intersection.TypeFromObject o1 ≠ Intersection.TypeFromObject o2)) := by
  obtain ⟨_, os, hc⟩ := (isDefined_iff A).mp hA
  have hcons := reachable_consistent A rA
  unfold Intersection.Consistent at hcons
  rw [hc] at hcons
  have ht : A.type_ = Intersection.TypeFromObjects os := hcons rfl
  have hempty : A.type_ = IntersectionType.Empty ↔ os = [] := by
    rw [ht]
    exact typeFromObjects_eq_empty os
  refine ⟨os, hc, ht, hempty, ?_, ?_, ?_⟩
  · rw [← hempty]
    simp [Intersection.isEmpty]
  · intro h
    rw [ht] at h
    cases os with
    | nil => simp [Intersection.TypeFromObjects] at h
    | cons o rest =>
        apply typeLoop_complex_start (o :: rest)
        simpa [Intersection.TypeFromObjects] using h
  · intro hall
    rw [ht]
    exact typeFromObjects_complex_iff os hall

/-- An instance of the invariant of C32: the sum of a point intersection and a
point-set intersection is reachable and defined; it holds two objects of different
variants and its type is `Complex`. -/
theorem type_composite_invariant_witness :
    ∃ R : Intersection,
      (Intersection.Point (Point.mk ⟨0, 0, 0⟩)).add
        (Intersection.PointSet ⟨[Point.mk ⟨1, 0, 0⟩, Point.mk ⟨2, 0, 0⟩]⟩) = Except.ok R ∧
      R.Reachable ∧ R.isDefined = true ∧ R.type_ = IntersectionType.Complex ∧
      ∃ os : List Object, R.composite_ = Composite.mk os ∧
        R.type_ = Intersection.TypeFromObjects os ∧
        (R.type_ = IntersectionType.Empty ↔ os = []) ∧
        (R.isEmpty = true ↔ os = []) ∧
        (R.type_ = IntersectionType.Complex →
          ∃ o1 ∈ os, ∃ o2 ∈ os,
            Intersection.TypeFromObject o1 ≠ Intersection.TypeFromObject o2) ∧
        ((∀ o ∈ os, (Intersection.TypeFromObject o).isVariant = true) →
          (R.type_ = IntersectionType.Complex ↔
            ∃ o1 ∈ os, ∃ o2 ∈ os,
              Intersection.TypeFromObject o1 ≠ Intersection.TypeFromObject o2)) :=
  ⟨_, rfl,
    Intersection.Reachable.add _ _ _ (Intersection.Reachable.Point _)
      (Intersection.Reachable.PointSet _) rfl,
    by decide, by decide,
    type_composite_invariant _
      (Intersection.Reachable.add _ _ _ (Intersection.Reachable.Point _)
        (Intersection.Reachable.PointSet _) rfl)
      (by decide)⟩

/-- C33: the result of `Cone::intersectionWith (aSphere, onlyInSight, N)` is never
classified `Complex`. Whenever the call returns an intersection, the cone and the
sphere are defined, `N ≥ 1`, and the type of the result is `Empty` or `LineString`.
When both arrays are filled and `onlyInSight` is false, the result is the sum of two
line-string intersections: its recomputed type is `LineString`, it holds two objects,
and `is<LineString> ()` answers false on it. With `onlyInSight = true` the second
array stays empty, and the result holds at most one line string. -/
theorem cone_sphere_never_complex (pi : ℚ) (sin cos sqrt : ℚ → ℚ) (eps : ℚ) (FIQuery : GteQuery)
    (cone : Cone) (aSphere : Sphere) (onlyInSight : Bool) (N : ℕ) (R : Intersection)
    (hR : cone.intersectionWithSphere pi sin cos sqrt eps FIQuery aSphere onlyInSight N =
      Except.ok R) :
    aSphere.isDefined = true ∧ cone.isDefined = true ∧ 1 ≤ N ∧
    (R.type_ = IntersectionType.Empty ∨ R.type_ = IntersectionType.LineString) ∧
    R.isComplex = false ∧
    ∃ (rays : List Ray) (first second : List Point),
      cone.getRaysOfLateralSurface pi sin cos sqrt eps N = Except.ok rays ∧
      Cone.sphereLoop FIQuery eps aSphere onlyInSight rays ([], []) = Except.ok (first, second) ∧
      (first = [] → second = [] → R = Intersection.Empty) ∧
      (first ≠ [] → second ≠ [] → onlyInSight = false →
        R = ⟨IntersectionType.LineString,
          Composite.mk [Object.aLineString ⟨first⟩, Object.aLineString ⟨second⟩]⟩ ∧
        R.composite_.accessObjects.length = 2 ∧
        R.is ObjectClass.LineString = Except.ok false) ∧
      (onlyInSight = true →
        second = [] ∧ (R = Intersection.Empty ∨ R = Intersection.LineString ⟨first⟩) ∧
        R.composite_.accessObjects.length ≤ 1) := by
  unfold Cone.intersectionWithSphere at hR
  by_cases hs : aSphere.isDefined = true
  swap
  · have hs2 : aSphere.isDefined = false := by simpa using hs
    simp [hs2] at hR
  by_cases hc : cone.isDefined = true
  swap
  · have hc2 : cone.isDefined = false := by simpa using hc
    simp [hs, hc2] at hR
  simp only [hs, hc, Bool.not_true, Bool.false_eq_true, if_false] at hR
  cases hrays : cone.getRaysOfLateralSurface pi sin cos sqrt eps N with
  | error e => rw [hrays] at hR; cases hR
  | ok rays =>
      rw [hrays] at hR
      simp only [] at hR
      cases hloop : Cone.sphereLoop FIQuery eps aSphere onlyInSight rays ([], []) with
      | error e => rw [hloop] at hR; cases hR
      | ok buckets =>
          obtain ⟨first, second⟩ := buckets
          rw [hloop] at hR
          simp only [] at hR
          obtain ⟨hN, _, _⟩ := getRays_shape pi sin cos sqrt eps cone N rays hrays
          obtain ⟨R', hR', hE, hF, hB⟩ := aggregate_value first second onlyInSight
          have hRR : R' = R := by
            rw [hR'] at hR
            injection hR
          subst hRR
          have hsecond : onlyInSight = true → second = [] := by
            intro ho
            subst ho
            exact sphereLoop_in_sight_second FIQuery eps aSphere rays ([], []) first second hloop
          have hcases : R' = Intersection.Empty ∨ (∃ l, R' = Intersection.LineString l) ∨
              R' = ⟨IntersectionType.LineString,
                Composite.mk [Object.aLineString ⟨first⟩, Object.aLineString ⟨second⟩]⟩ := by
            by_cases h1 : first = []
            · by_cases h2 : second = []
              · exact Or.inl (hE h1 h2)
              · subst h1
                cases second with
                | nil => exact absurd rfl h2
                | cons b bs =>
                    right; left
                    refine ⟨⟨b :: bs⟩, ?_⟩
                    have : Cone.aggregate [] (b :: bs) onlyInSight =
                        Except.ok (Intersection.LineString ⟨b :: bs⟩) := by
                      cases onlyInSight <;> rfl
                    rw [this] at hR'
                    injection hR' with h
                    exact h.symm
            · by_cases h2 : second = []
              · exact Or.inr (Or.inl ⟨_, hF h1 (Or.inl h2)⟩)
              · cases ho : onlyInSight with
                | true => exact Or.inr (Or.inl ⟨_, hF h1 (Or.inr ho)⟩)
                | false => exact Or.inr (Or.inr (hB h1 h2 ho))
          have htype : R'.type_ = IntersectionType.Empty ∨
              R'.type_ = IntersectionType.LineString := by
            rcases hcases with h | ⟨l, h⟩ | h
            · left; rw [h]; rfl
            · right; rw [h]; rfl
            · right; rw [h]
          refine ⟨hs, hc, Nat.one_le_iff_ne_zero.mpr hN, htype, ?_, rays, first, second, rfl,
            hloop, hE, ?_, ?_⟩
          · rcases htype with h | h <;> simp [Intersection.isComplex, h]
          · intro h1 h2 ho
            have h := hB h1 h2 ho
            refine ⟨h, ?_, ?_⟩
            · rw [h]; rfl
            · rw [h]; rfl
          · intro ho
            have h2 := hsecond ho
            refine ⟨h2, ?_, ?_⟩
            · by_cases h1 : first = []
              · exact Or.inl (hE h1 h2)
              · exact Or.inr (hF h1 (Or.inl h2))
            · by_cases h1 : first = []
              · rw [hE h1 h2]; decide
              · rw [hF h1 (Or.inl h2)]
                simp [Intersection.LineString, Composite.accessObjects]

/-- C33 (witness): the cone of apex `(0, 0, -2)`, axis `(0, 0, 1)` and half-angle `0°`
with one ray, against the unit sphere at the origin, `onlyInSight` false: the ray
crosses the sphere at two points, the result is the sum of two line strings; its type
is `LineString`, not `Complex`, and it is not complex. -/
theorem cone_sphere_never_complex_witness :
    Cone.intersectionWithSphere tablePi tableSin tableCos Rat.sqrt (1 / 1000000000000000)
        (fun _ _ _ _ => ⟨true, 2, (⟨0, 0, -1⟩, ⟨0, 0, 1⟩)⟩)
        ⟨Point.mk ⟨0, 0, -2⟩, some ⟨0, 0, 1⟩, Angle.Degrees 0⟩
        (Sphere.Unit (Point.mk ⟨0, 0, 0⟩)) false 1 =
      Except.ok ⟨IntersectionType.LineString,
        Composite.mk [Object.aLineString ⟨[Point.mk ⟨0, 0, 1⟩]⟩,
          Object.aLineString ⟨[Point.mk ⟨0, 0, -1⟩]⟩]⟩ ∧
    Intersection.isComplex ⟨IntersectionType.LineString,
        Composite.mk [Object.aLineString ⟨[Point.mk ⟨0, 0, 1⟩]⟩,
          Object.aLineString ⟨[Point.mk ⟨0, 0, -1⟩]⟩]⟩ = false ∧
    Intersection.is ObjectClass.LineString ⟨IntersectionType.LineString,
        Composite.mk [Object.aLineString ⟨[Point.mk ⟨0, 0, 1⟩]⟩,
          Object.aLineString ⟨[Point.mk ⟨0, 0, -1⟩]⟩]⟩ = Except.ok false :=
  ⟨cone_sphere_two_arrays,
    (cone_sphere_never_complex _ _ _ _ _ _ _ _ _ _ _ cone_sphere_two_arrays).2.2.2.2.1, rfl⟩

/-- C38: `PointSet::getPointClosestTo` returns a true minimizer, and so does
`LineString::getPointClosestTo`. For every non-empty point set `S` and defined point
`p` the call returns a point `r` that is a member of `S`, and for every point `w` of
`S` with coordinates, `r` has coordinates and `‖r − p‖² ≤ ‖w − p‖²`. The call fails
with `Undefined` when `p` is undefined and when `S` is empty. -/
theorem closest_point_minimizer :
    (∀ (S : PointSet) (p : Vector3d), S.points_ ≠ [] →
      ∃ r : Point, S.getPointClosestTo (Point.mk p) = Except.ok r ∧ r ∈ S.points_ ∧
        ∀ w : Vector3d, Point.mk w ∈ S.points_ →
          ∃ v : Vector3d, r = Point.mk v ∧ (v.sub p).squaredNorm ≤ (w.sub p).squaredNorm) ∧
    (∀ S : PointSet, S.getPointClosestTo Point.Undefined =
      Except.error (Error.Undefined "Point")) ∧
    (∀ p : Vector3d, (PointSet.mk []).getPointClosestTo (Point.mk p) =
      Except.error (Error.Undefined "Point set")) ∧
    (∀ (L : LineString) (p : Vector3d), L.points_ ≠ [] →
      ∃ r : Point, L.getPointClosestTo (Point.mk p) = Except.ok r ∧ r ∈ L.points_ ∧
        ∀ w : Vector3d, Point.mk w ∈ L.points_ →
          ∃ v : Vector3d, r = Point.mk v ∧ (v.sub p).squaredNorm ≤ (w.sub p).squaredNorm) ∧
    (∀ L : LineString, L.getPointClosestTo Point.Undefined =
      Except.error (Error.Undefined "Point")) ∧
    (∀ p : Vector3d, (LineString.mk []).getPointClosestTo (Point.mk p) =
      Except.error (Error.Undefined "Line string")) := by
  have key : ∀ (ps : List Point) (p : Vector3d), ps ≠ [] →
      (PointSet.closestLoop p ps (Point.Undefined, none)).1 ∈ ps ∧
      ∀ w : Vector3d, Point.mk w ∈ ps →
        ∃ v : Vector3d, (PointSet.closestLoop p ps (Point.Undefined, none)).1 = Point.mk v ∧
          (v.sub p).squaredNorm ≤ (w.sub p).squaredNorm := by
    intro ps p hne
    obtain ⟨hmem, hmin⟩ := closestLoop_minimizer p ps hne
    refine ⟨hmem, ?_⟩
    intro w hw
    obtain ⟨e, he, hle⟩ := hmin (Point.mk w) hw _ rfl
    cases hr : (PointSet.closestLoop p ps (Point.Undefined, none)).1 with
    | Undefined =>
        rw [hr] at he
        simp [Point.squaredDistanceTo] at he
    | mk v =>
        rw [hr] at he
        simp only [Point.squaredDistanceTo, Option.some.injEq] at he
        exact ⟨v, rfl, by rw [he]; exact hle⟩
  refine ⟨?_, fun _ => rfl, fun _ => rfl, ?_, fun _ => rfl, fun _ => rfl⟩
  · intro S p hne
    obtain ⟨hmem, hmin⟩ := key S.points_ p hne
    refine ⟨_, ?_, hmem, hmin⟩
    have hE : S.isEmpty = false := by
      cases h : S.points_ with
      | nil => exact absurd h hne
      | cons a as => simp [PointSet.isEmpty, h]
    simp [PointSet.getPointClosestTo, hE]
  · intro L p hne
    obtain ⟨hmem, hmin⟩ := key L.points_ p hne
    refine ⟨_, ?_, hmem, hmin⟩
    have hE : L.isEmpty = false := by
      cases h : L.points_ with
      | nil => exact absurd h hne
      | cons a as => simp [LineString.isEmpty, h]
    simp [LineString.getPointClosestTo, hE]

/-- C38 (witness): among `(0, 0, 5)`, `(0, 0, 1)` and `(0, 0, 3)` the point closest to
the origin is `(0, 0, 1)`, and the returned point is at most as far as `(0, 0, 3)`. -/
theorem closest_point_minimizer_witness :
    (PointSet.mk [Point.mk ⟨0, 0, 5⟩, Point.mk ⟨0, 0, 1⟩, Point.mk ⟨0, 0, 3⟩]).getPointClosestTo
        (Point.mk ⟨0, 0, 0⟩) = Except.ok (Point.mk ⟨0, 0, 1⟩) ∧
    ∃ r : Point,
      (PointSet.mk [Point.mk ⟨0, 0, 5⟩, Point.mk ⟨0, 0, 1⟩,
        Point.mk ⟨0, 0, 3⟩]).getPointClosestTo (Point.mk ⟨0, 0, 0⟩) = Except.ok r ∧
      r ∈ [Point.mk ⟨0, 0, 5⟩, Point.mk ⟨0, 0, 1⟩, Point.mk ⟨0, 0, 3⟩] ∧
      ∀ w : Vector3d, Point.mk w ∈ [Point.mk ⟨0, 0, 5⟩, Point.mk ⟨0, 0, 1⟩, Point.mk ⟨0, 0, 3⟩] →
        ∃ v : Vector3d, r = Point.mk v ∧
          (v.sub ⟨0, 0, 0⟩).squaredNorm ≤ (w.sub ⟨0, 0, 0⟩).squaredNorm :=
  ⟨by norm_num [PointSet.getPointClosestTo, PointSet.isEmpty, PointSet.closestLoop,
      Point.squaredDistanceTo, realLt, Vector3d.sub, Vector3d.squaredNorm],
    closest_point_minimizer.1 ⟨[Point.mk ⟨0, 0, 5⟩, Point.mk ⟨0, 0, 1⟩, Point.mk ⟨0, 0, 3⟩]⟩
      ⟨0, 0, 0⟩ (by simp)⟩

/-- C39: `PointSet::isNear` is sound. Whenever `S.isNear (T, tol)` returns true, `S`
and `T` are both non-empty and of the same size, and the points of `T` can be
arranged so that every point of `S`, taken in turn, is near (`Point::isNear` within
`tol`) the point of `T` at the same place: a one-to-one pairing. The call returns
false whenever either set is empty or the sizes differ. The matching loop erases one
point of the first buffer at every iteration that does not return, so it ends: when
`Point::isNear` returns on every pair, `isNear` returns a truth value. -/
theorem pointSet_isNear_sound (pointIsNear : Point → Point → Option ℚ → Except Error Bool)
    (aTolerance : Option ℚ) :
    (∀ S T : PointSet, S.isNear pointIsNear T aTolerance = Except.ok true →
      S.isEmpty = false ∧ T.isEmpty = false ∧ S.getSize = T.getSize ∧
      ∃ paired : List Point, List.Perm paired T.points_ ∧
        List.Forall₂ (fun a b => pointIsNear a b aTolerance = Except.ok true)
          S.points_ paired) ∧
    (∀ S T : PointSet, S.isEmpty = true ∨ T.isEmpty = true →
      S.isNear pointIsNear T aTolerance = Except.ok false) ∧
    (∀ S T : PointSet, S.getSize ≠ T.getSize →
      S.isNear pointIsNear T aTolerance = Except.ok false) ∧
    ((∀ a b : Point, ∃ r : Bool, pointIsNear a b aTolerance = Except.ok r) →
      ∀ S T : PointSet, ∃ r : Bool, S.isNear pointIsNear T aTolerance = Except.ok r) := by
  refine ⟨?_, ?_, ?_, ?_⟩
  · intro S T h
    unfold PointSet.isNear at h
    by_cases he : (S.isEmpty || T.isEmpty) = true
    · rw [if_pos he] at h
      cases h
    · rw [if_neg he] at h
      by_cases hs : S.getSize ≠ T.getSize
      · rw [if_pos hs] at h
        cases h
      · rw [if_neg hs] at h
        have hsize : S.getSize = T.getSize := not_not.mp hs
        have he2 : S.isEmpty = false ∧ T.isEmpty = false := by
          cases h1 : S.isEmpty <;> cases h2 : T.isEmpty <;> simp [h1, h2] at he ⊢
        obtain ⟨paired, unmatched, hperm, hall⟩ :=
          nearLoop_sound pointIsNear aTolerance S.points_ T.points_ h
        have hlen1 : paired.length = S.points_.length := hall.length_eq.symm
        have hlen2 : (paired ++ unmatched).length = T.points_.length := hperm.length_eq
        have hnil : unmatched = [] := by
          apply List.eq_nil_of_length_eq_zero
          simp only [PointSet.getSize] at hsize
          rw [List.length_append] at hlen2
          omega
        subst hnil
        rw [List.append_nil] at hperm
        exact ⟨he2.1, he2.2, hsize, paired, hperm, hall⟩
  · intro S T h
    have he : (S.isEmpty || T.isEmpty) = true := by
      rcases h with h | h <;> simp [h]
    simp only [PointSet.isNear, if_pos he]
  · intro S T h
    unfold PointSet.isNear
    split_ifs
    · rfl
    · rfl
  · intro htotal S T
    unfold PointSet.isNear
    split_ifs
    · exact ⟨false, rfl⟩
    · exact ⟨false, rfl⟩
    · exact nearLoop_returns pointIsNear aTolerance htotal S.points_ T.points_

/-- C39 (witness): with points near when they coincide, the sets `{(0,0,0), (1,0,0)}`
and `{(1,0,0), (0,0,0)}` are near, and the pairing found puts the second set in the
order of the first. -/
theorem pointSet_isNear_sound_witness :
    PointSet.isNear (fun a b _ => Except.ok (decide (a = b)))
        ⟨[Point.mk ⟨0, 0, 0⟩, Point.mk ⟨1, 0, 0⟩]⟩
        ⟨[Point.mk ⟨1, 0, 0⟩, Point.mk ⟨0, 0, 0⟩]⟩ (some 0) = Except.ok true ∧
    ∃ paired : List Point,
      List.Perm paired [Point.mk ⟨1, 0, 0⟩, Point.mk ⟨0, 0, 0⟩] ∧
      List.Forall₂
        (fun a b => (fun (a b : Point) (_ : Option ℚ) =>
          (Except.ok (decide (a = b)) : Except Error Bool)) a b (some 0) = Except.ok true)
        [Point.mk ⟨0, 0, 0⟩, Point.mk ⟨1, 0, 0⟩] paired :=
  ⟨rfl,
    ((pointSet_isNear_sound (fun a b _ => Except.ok (decide (a = b))) (some 0)).1
      ⟨[Point.mk ⟨0, 0, 0⟩, Point.mk ⟨1, 0, 0⟩]⟩
      ⟨[Point.mk ⟨1, 0, 0⟩, Point.mk ⟨0, 0, 0⟩]⟩ rfl).2.2.2⟩

/-- C40: `getEdges` of a 2D polygon against its inner rings. Let the polygon be
constructed from an outer ring and an array of inner rings (the ring correction of
the outside library not removing points) and be defined. `getEdgeCount ()` returns
the number of edges of the stored outer ring plus, for every inner ring, the number
of its edges. Without inner ring, `getEdges ()` succeeds and returns exactly
`getEdgeCount ()` edges, edge `i` joining outer vertex `i` to outer vertex `i + 1`
and the last edge closing back to vertex `0`. With at least one inner ring the edge
count exceeds the one of the outer ring and `getEdges ()` fails with
`ToBeImplemented`. So `getEdges ()` succeeds if and only if there is no inner ring. -/
theorem polygon_edges_inner_rings (correct : List d2.Point → List d2.Point)
    (hcorrect : ∀ ring : List d2.Point, ring.length ≤ (correct ring).length)
    (anOuterRing : List d2.Point) (anInnerRingArray : List (List d2.Point))
    (polygon : d2.Polygon)
    (hbuilt : d2.Polygon.ofRings correct anOuterRing anInnerRingArray = Except.ok polygon)
    (hdefined : polygon.isDefined = true) :
    ∃ (impl : d2.Polygon.Impl) (edgeCount : ℕ),
      polygon.implUPtr_ = some impl ∧
      polygon.getEdgeCount = Except.ok edgeCount ∧
      polygon.getInnerRingCount = Except.ok anInnerRingArray.length ∧
      edgeCount = impl.getOuterRingEdgeCount +
        (impl.polygon_.inners.map (fun innerRing => innerRing.length - 1)).sum ∧
      (anInnerRingArray = [] →
        ∃ edges : List d2.Segment, polygon.getEdges = Except.ok edges ∧
          edges.length = edgeCount ∧
          ∀ i : ℕ, i < edgeCount →
            ∃ first second : d2.Point,
              polygon.getVertexAt i = Except.ok first ∧
              polygon.getVertexAt (if i + 1 < edgeCount then i + 1 else 0) =
                Except.ok second ∧
              edges.get? i = some ⟨first, second⟩) ∧
      (anInnerRingArray ≠ [] →
        impl.getOuterRingEdgeCount < edgeCount ∧
        polygon.getEdges = Except.error (Error.ToBeImplemented "Inner ring edge access.")) ∧
      ((∃ edges : List d2.Segment, polygon.getEdges = Except.ok edges) ↔
        anInnerRingArray = []) := by
  unfold d2.Polygon.ofRings at hbuilt
  cases himpl : d2.Polygon.Impl.ofRings correct anOuterRing anInnerRingArray with
  | error e => rw [himpl] at hbuilt; cases hbuilt
  | ok impl =>
      rw [himpl] at hbuilt
      injection hbuilt with hbuilt
      subst hbuilt
      have hdef : impl.isDefined = true := hdefined
      unfold d2.Polygon.Impl.ofRings at himpl
      cases houter : d2.Polygon.Impl.BoostPolygonFromPoints correct anOuterRing with
      | error e => rw [houter] at himpl; cases himpl
      | ok outerOnly =>
          rw [houter] at himpl
          simp only [] at himpl
          cases hloop : d2.Polygon.Impl.innerRingsLoop correct anInnerRingArray outerOnly with
          | error e => rw [hloop] at himpl; cases himpl
          | ok withInners =>
              rw [hloop] at himpl
              injection himpl with himpl
              subst himpl
              have hstart : outerOnly.inners = [] := by
                unfold d2.Polygon.Impl.BoostPolygonFromPoints at houter
                split_ifs at houter
                injection houter with houter
                rw [← houter]
              obtain ⟨_, hinners, hsizes⟩ :=
                innerRingsLoop_spec correct anInnerRingArray outerOnly withInners hloop
              rw [hstart, List.nil_append] at hinners
              have hcountEq : d2.Polygon.Impl.getEdgeCount ⟨withInners⟩ =
                  d2.Polygon.Impl.getOuterRingEdgeCount ⟨withInners⟩ +
                    (withInners.inners.map (fun innerRing => innerRing.length - 1)).sum := by
                simp only [d2.Polygon.Impl.getEdgeCount, d2.Polygon.Impl.getOuterRingEdgeCount]
                exact edgeCount_foldl _ _
              have hgetEdges : d2.Polygon.getEdges ⟨some ⟨withInners⟩⟩ =
                  d2.Polygon.Impl.getEdges ⟨withInners⟩ := by
                simp [d2.Polygon.getEdges, hdef]
              have hgetVertex : ∀ i : ℕ, d2.Polygon.getVertexAt ⟨some ⟨withInners⟩⟩ i =
                  d2.Polygon.Impl.getVertexAt ⟨withInners⟩ i := by
                intro i
                simp [d2.Polygon.getVertexAt, hdef]
              have hwith : anInnerRingArray ≠ [] →
                  d2.Polygon.Impl.getOuterRingEdgeCount ⟨withInners⟩ <
                    d2.Polygon.Impl.getEdgeCount ⟨withInners⟩ := by
                intro hne
                have hpos : 0 < (withInners.inners.map
                    (fun innerRing => innerRing.length - 1)).sum := by
                  apply inner_edges_pos
                  · rw [hinners]
                    intro hmap
                    exact hne (List.map_eq_nil_iff.mp hmap)
                  · intro ring hring
                    rw [hinners] at hring
                    obtain ⟨source, hsource, rfl⟩ := List.mem_map.mp hring
                    have h3 := hsizes source hsource
                    have h4 := hcorrect source
                    omega
                omega
              refine ⟨⟨withInners⟩, d2.Polygon.Impl.getEdgeCount ⟨withInners⟩, rfl, ?_, ?_,
                hcountEq, ?_, ?_, ?_⟩
              · simp [d2.Polygon.getEdgeCount, hdef]
              · simp [d2.Polygon.getInnerRingCount, hdef, d2.Polygon.Impl.getInnerRingCount,
                  hinners]
              · intro hnone
                have hnoInner : (d2.Polygon.Impl.mk withInners).polygon_.inners = [] := by
                  rw [hinners, hnone]
                  rfl
                obtain ⟨_, edges, hedges, hlen, hall⟩ := getEdges_outer_only ⟨withInners⟩ hnoInner
                refine ⟨edges, by rw [hgetEdges]; exact hedges, hlen, ?_⟩
                intro i hi
                obtain ⟨first, second, h1, h2, h3⟩ := hall i hi
                exact ⟨first, second, by rw [hgetVertex]; exact h1,
                  by rw [hgetVertex]; exact h2, h3⟩
              · intro hne
                exact ⟨hwith hne, by rw [hgetEdges]; exact getEdges_with_inner _ (hwith hne)⟩
              · constructor
                · rintro ⟨edges, hedges⟩
                  by_contra hne
                  rw [hgetEdges, getEdges_with_inner _ (hwith hne)] at hedges
                  cases hedges
                · intro hnone
                  have hnoInner : (d2.Polygon.Impl.mk withInners).polygon_.inners = [] := by
                    rw [hinners, hnone]
                    rfl
                  obtain ⟨_, edges, hedges, _, _⟩ := getEdges_outer_only ⟨withInners⟩ hnoInner
                  exact ⟨edges, by rw [hgetEdges]; exact hedges⟩

/-- C40 (witness): the triangle `(0,0)`, `(4,0)`, `(0,4)`, closed by the correction.
Without inner ring it has three edges and `getEdges ()` returns them, the last one
back to `(0,0)`; with the inner triangle `(1,1)`, `(2,1)`, `(1,2)` the edge count is
six and `getEdges ()` fails with `ToBeImplemented`. -/
theorem polygon_edges_inner_rings_witness :
    (∃ polygon : d2.Polygon,
      d2.Polygon.ofRings d2.closeRing [⟨0, 0⟩, ⟨4, 0⟩, ⟨0, 4⟩] [] = Except.ok polygon ∧
      polygon.getEdgeCount = Except.ok 3 ∧
      polygon.getEdges =
        Except.ok [⟨⟨0, 0⟩, ⟨4, 0⟩⟩, ⟨⟨4, 0⟩, ⟨0, 4⟩⟩, ⟨⟨0, 4⟩, ⟨0, 0⟩⟩]) ∧
    (∃ polygon : d2.Polygon,
      d2.Polygon.ofRings d2.closeRing [⟨0, 0⟩, ⟨4, 0⟩, ⟨0, 4⟩]
        [[⟨1, 1⟩, ⟨2, 1⟩, ⟨1, 2⟩]] = Except.ok polygon ∧
      polygon.isDefined = true ∧
      polygon.getEdgeCount = Except.ok 6 ∧
      polygon.getEdges = Except.error (Error.ToBeImplemented "Inner ring edge access.")) := by
  refine ⟨⟨_, rfl, rfl, rfl⟩, ⟨_, rfl, rfl, rfl, ?_⟩⟩
  obtain ⟨_, _, _, _, _, _, _, hinner, _⟩ :=
    polygon_edges_inner_rings d2.closeRing closeRing_length [⟨0, 0⟩, ⟨4, 0⟩, ⟨0, 4⟩]
      [[⟨1, 1⟩, ⟨2, 1⟩, ⟨1, 2⟩]] _ rfl rfl
  exact (hinner (by simp)).2

/-- A remark on C35: the tolerance of `isUnitary ()`. With epsilon `1e-15` the
quaternion `p = (0, 0, 0, 1 + 4e-16)` is accepted as unitary (its squared norm is
within epsilon of 1, not equal to it), but the product `p * p` is not: `(p * p) * v`
fails as not unitary while `p * (p * v)` returns a vector. For squared norms of
exactly 1 this cannot happen. -/
theorem rotation_composition_tolerance :
    (Quaternion.mk (some 0) (some 0) (some 0)
        (some (1 + 1 / 2500000000000000))).isUnitary (1 / 1000000000000000) =
      Except.ok true ∧
    (∃ pp : Quaternion,
      (Quaternion.mk (some 0) (some 0) (some 0) (some (1 + 1 / 2500000000000000))).mul
        (Quaternion.mk (some 0) (some 0) (some 0) (some (1 + 1 / 2500000000000000))) =
        Except.ok pp ∧
      pp.mulVector (1 / 1000000000000000) (some ⟨1, 0, 0⟩) =
        Except.error (Error.RuntimeError "Quaternion with norm [\x7b\x7d] is not unitary.")) ∧
    (∃ w u : Vector3d,
      (Quaternion.mk (some 0) (some 0) (some 0)
        (some (1 + 1 / 2500000000000000))).mulVector (1 / 1000000000000000) (some ⟨1, 0, 0⟩) =
        Except.ok w ∧
      (Quaternion.mk (some 0) (some 0) (some 0)
        (some (1 + 1 / 2500000000000000))).mulVector (1 / 1000000000000000) (some w) =
        Except.ok u) := by
  have hu : |Quaternion.reducedNorm ⟨0, 0, 0⟩ (1 + 1 / 2500000000000000) - 1| ≤
      1 / 1000000000000000 := by
    norm_num [Quaternion.reducedNorm, abs_le]
  refine ⟨?_, ⟨_, mul_mk _ _ _ _ _ _ _ _, ?_⟩, ⟨_, _, mulVector_unitary _ _ _ _ _ _ hu,
    mulVector_unitary _ _ _ _ _ _ hu⟩⟩
  · norm_num [Quaternion.isUnitary, Quaternion.parts, Quaternion.reducedNorm, abs_le]
  · apply mulVector_not_unitary
    norm_num [Quaternion.reducedNorm, abs_le]

end d3
